import Mathlib

/-!
# WASI-NN host functions of WasmEdge: a shallow embedding

The five guest-callable operations of `plugins/wasi_nn/wasinnfunc.cpp`
(`load`, `init_execution_context`, `set_input`, `get_output`, `compute`) are
embedded as total functions on an explicit environment (`Env`), an optional
guest memory and an oracle for the native inference engines (`Native`).

* Machine integers are `Nat` with explicit `% 2 ^ 32` and `% 2 ^ 64`.
* A resolved guest pointer is identified with its guest offset.
* Every native engine call is a field of `Native`; theorems quantify over it.
* Each operation returns a `Result`: the outcome, the environment and the
  guest memory after the call, and the log of native calls and raw copies.
-/

namespace WasiNN

/-! ## Codes, build flags, outcomes -/

/-- Error numbers `WASINN::ErrNo` returned to the guest. -/
inductive ErrNo where
  | Success
  | InvalidArgument
  | MissingMemory
  | Busy
  deriving DecidableEq, Repr

/-- How a host function body ends.  `HostFuncError` is
`Unexpect(ErrCode::Value::HostFuncError)`, `errno` a returned wasi-nn code,
`raised` a C++ exception (or fatal check) leaving the body, `undefined` a
point where the C++ has no defined behaviour (out-of-range element access,
null dereference, `assumingUnreachable`). -/
inductive Outcome where
  | HostFuncError
  | errno (e : ErrNo)
  | raised
  | undefined
  deriving DecidableEq, Repr

/-- Numeric values of the enumerators of `WASINN::Backend` and
`WASINN::TensorType`, and the width in bits of the underlying type of
`WASINN::TensorType`.  The header declaring them is outside the sources at
hand, so they are a parameter of every operation. -/
structure WASINN where
  OpenVINO : Nat
  PyTorch : Nat
  TensorflowLite : Nat
  Tensorflow : Nat
  F32 : Nat
  F16 : Nat
  U8 : Nat
  I32 : Nat
  TensorTypeBits : Nat

/-- The conversion `static_cast<WASINN::TensorType>(Tensor[2])` of the 32-bit
tag word of a descriptor: the word modulo the range of the underlying type
of the enumeration. -/
def castTensorType (K : WASINN) (Word : Nat) : Nat := Word % 2 ^ K.TensorTypeBits

/-- The `WASMEDGE_PLUGIN_WASI_NN_BACKEND_*` preprocessor switches. -/
structure Build where
  OPENVINO : Bool
  TORCH : Bool
  TF : Bool
  TFLITE : Bool

abbrev Bytes := List Nat

/-- A `std::string` or C string, as its bytes; the order on it is the
lexicographic order of `std::string`. -/
abbrev Str := List Nat

/-- A native handle (an address of an engine object); `Option Handle` is a
nullable pointer. -/
abbrev Handle := Nat

inductive IEStatusCode where
  | OK
  | GENERAL_ERROR
  deriving DecidableEq, Repr

inductive TfLiteStatus where
  | kTfLiteOk
  | kTfLiteError
  deriving DecidableEq, Repr

/-- Native element types: the four that `TensorflowTypeSize` knows, and the
rest. -/
inductive DataType where
  | DT_FLOAT
  | DT_HALF
  | DT_UINT8
  | DT_INT32
  | DT_OTHER (code : Nat)
  deriving DecidableEq, Repr

/-- The TFLite element types: the four of the switch in `set_input`, and the
rest. -/
inductive TfLiteType where
  | kTfLiteUInt8
  | kTfLiteFloat16
  | kTfLiteFloat32
  | kTfLiteInt32
  | kTfLiteOther (code : Nat)
  deriving DecidableEq, Repr

/-- A native tensor (`torch::Tensor`, `tensorflow::Tensor`): element type,
shape, raw bytes.  For torch, `DT_FLOAT` stands for `torch::kFloat32`. -/
structure Tensor where
  dtype : DataType
  dims : List Nat
  data : Bytes
  deriving DecidableEq, Repr

/-- The value of `torch::jit::Module::forward`, as far as `compute` tells the
cases apart. -/
inductive IValue where
  | TensorList (ts : List Tensor)
  | Tensor (t : Tensor)
  | Other
  deriving DecidableEq, Repr

/-! ## Guest memory -/

/-- The memory instance of the calling frame.  `bytes` is the linear memory;
`resolves w off cnt` is the bounds-checked capability behind
`getPointer<T *>(off, cnt)` with `sizeof(T) = w`, which is not part of the
sources at hand and is therefore a parameter. -/
structure MemoryInstance where
  bytes : Nat → Nat
  resolves : Nat → Nat → Nat → Bool

namespace MemoryInstance

/-- `MemInst->getPointer<T *>(Offset, Count)`: `none` is `nullptr`. -/
def getPointer (m : MemoryInstance) (w Offset Count : Nat) : Option Nat :=
  if m.resolves w Offset Count then some Offset else none

/-- A little-endian 32-bit word read through a resolved pointer. -/
def read32 (m : MemoryInstance) (a : Nat) : Nat :=
  m.bytes a % 256 + 256 * (m.bytes (a + 1) % 256) + 65536 * (m.bytes (a + 2) % 256)
    + 16777216 * (m.bytes (a + 3) % 256)

/-- The word `P[I]` of a resolved `uint32_t *P`. -/
def word (m : MemoryInstance) (P I : Nat) : Nat := m.read32 (P + 4 * I)

/-- The `n` bytes starting at `a`. -/
def readBytes (m : MemoryInstance) (a n : Nat) : Bytes :=
  (List.range n).map (fun i => m.bytes (a + i) % 256)

/-- The `n` words starting at `a`. -/
def readWords (m : MemoryInstance) (a n : Nat) : List Nat :=
  (List.range n).map (fun i => m.word a i)

/-- Memory after storing the bytes `bs` at `a`. -/
def writeBytes (m : MemoryInstance) (a : Nat) (bs : Bytes) : MemoryInstance :=
  { m with bytes := fun x => if a ≤ x ∧ x < a + bs.length then bs.getD (x - a) 0 else m.bytes x }

/-- Memory after storing the 32-bit word `v` at `a`. -/
def write32 (m : MemoryInstance) (a v : Nat) : MemoryInstance :=
  m.writeBytes a [v % 256, v / 256 % 256, v / 65536 % 256, v / 16777216 % 256]

end MemoryInstance

/-- The bytes `std::copy_n(Src, n, ...)` reads from a native buffer holding
`src`. -/
def copy_n (src : Bytes) (n : Nat) : Bytes :=
  (List.range n).map (fun i => src.getD i 0)

/-! ## The environment -/

/-- The class `WASINN::Graph`, with the fields the host functions use. -/
structure Graph where
  GraphBackend : Nat
  OpenVINONetwork : Option Handle := none
  OpenVINOExecNetwork : Option Handle := none
  OpenVINOWeightBlob : Option Handle := none
  OpenVINOInputNames : List (Option Str) := []
  OpenVINOOutputNames : List (Option Str) := []
  TorchModel : Option Handle := none
  TFLiteMod : Option Handle := none
  TFSignature : Bytes := []
  TFBundle : Option Handle := none
  deriving DecidableEq, Repr

/-- The class `WASINN::Context`.  `GraphRef` is the C++ reference into
`Env.NNGraph`, kept as the index of the graph it refers to.  An unbound
torch input (a `None` IValue) is `none`. -/
structure Context where
  GraphRef : Nat
  OpenVINOInferRequest : Option Handle := none
  TorchInputs : List (Option Tensor) := []
  TorchOutputs : List Tensor := []
  TFLiteInterp : Option Handle := none
  TFBundle : Option Handle := none
  TFInputNames : List Str := []
  TFOutputNames : List Str := []
  TFInputAlready : List (Str × Tensor) := []
  TFOutputTensors : List Tensor := []
  deriving DecidableEq, Repr

/-- The environment `WASINN::WasiNNEnvironment`. -/
structure Env where
  NNGraph : List Graph
  NNContext : List Context
  OpenVINOCore : Option Handle
  deriving DecidableEq, Repr

namespace Env

/-- `Env.NNGraph.emplace_back(...)`. -/
def emplaceGraph (env : Env) (g : Graph) : Env := { env with NNGraph := env.NNGraph ++ [g] }

/-- `Env.NNGraph.pop_back()`. -/
def popGraph (env : Env) : Env := { env with NNGraph := env.NNGraph.dropLast }

/-- Assignment of the fields of `Env.NNGraph.back()` through the reference
`auto &Graph`. -/
def setBackGraph (env : Env) (g : Graph) : Env :=
  { env with NNGraph := env.NNGraph.dropLast ++ [g] }

/-- `Env.NNContext.emplace_back(...)`. -/
def emplaceContext (env : Env) (c : Context) : Env :=
  { env with NNContext := env.NNContext ++ [c] }

/-- `Env.NNContext.pop_back()`. -/
def popContext (env : Env) : Env := { env with NNContext := env.NNContext.dropLast }

/-- Assignment of the fields of `Env.NNContext.back()` through the reference
`auto &NewContext`. -/
def setBackContext (env : Env) (c : Context) : Env :=
  { env with NNContext := env.NNContext.dropLast ++ [c] }

/-- Assignment of the fields of `Env.NNContext[I]` through the reference
`auto &CxtRef`. -/
def setContext (env : Env) (I : Nat) (c : Context) : Env :=
  { env with NNContext := env.NNContext.set I c }

end Env

/-! ## The native engines -/

/-- The native functions whose calls create, change or release native state. -/
inductive Fn where
  | ie_blob_make_memory
  | ie_core_read_network_from_memory
  | ie_network_set_input_layout
  | ie_core_load_network
  | Context_ctor
  | ie_network_set_input_resize_algorithm
  | ie_network_set_input_precision
  | ie_infer_request_set_blob
  | ie_blob_free
  | ie_network_set_output_precision
  | ie_infer_request_get_blob
  | ie_infer_request_infer
  | torch_jit_load
  | torch_from_blob_clone
  | torch_forward
  | TfLiteModelCreate
  | TfLiteInterpreterCreate
  | TfLiteInterpreterAllocateTensors
  | TfLiteTensorCopyFromBuffer
  | TfLiteTensorCopyToBuffer
  | TfLiteInterpreterInvoke
  | CreateTemporaryDirectory
  | SavedModelFile_write
  | remove_all
  | LoadSavedModel
  | tensorflow_Tensor
  | Session_Run
  deriving DecidableEq, Repr

/-- One entry of the log of a call: a native call that creates, changes or
releases native state, a `std::copy_n` of `n` guest bytes into a native
buffer, or `n` bytes stored into the guest output buffer. -/
inductive Event where
  | call (f : Fn)
  | toNative (n : Nat)
  | toGuest (n : Nat)
  deriving DecidableEq, Repr

/-- The native engines and the file system, as the host functions see them:
one field per call, giving what the call returns for its arguments.  The
host functions are defined for every value of this record.  A thrown
`c10::Error` of `torch::jit::load` is `none`; a missing key of
`signature_def().at(...)` is `none`, a present one gives the tensor names of
the declared inputs and outputs in the order of iteration;
`TensorShape_AddDim` tells whether the fatal checks of `TensorShape::AddDim`
pass for the dimensions added in turn, `tensorflow_Tensor` whether the new
tensor of that type and shape has a buffer; `remove_all` whether
`std::filesystem::remove_all` returns (`false`: it throws
`std::filesystem::filesystem_error`); `Session_Run` receives, last, the
vector `*outputs` as it is before the call and gives the status and the
vector as it is after the call.  `Context_ctor` is the
constructor `Context(Graph &)`, declared outside the sources at hand: its
value is the `OpenVINOInferRequest` of the new context. -/
structure Native where
  ie_blob_make_memory : Bool → List Nat → IEStatusCode × Option Handle
  ie_blob_get_buffer : Option Handle → IEStatusCode
  ie_core_read_network_from_memory :
    Handle → Bytes → Option Handle → Bytes → IEStatusCode × Option Handle
  ie_network_get_inputs_number : Option Handle → IEStatusCode × Nat
  ie_network_get_outputs_number : Option Handle → IEStatusCode × Nat
  ie_network_get_input_name : Option Handle → Nat → IEStatusCode × Option Str
  ie_network_get_output_name : Option Handle → Nat → IEStatusCode × Option Str
  ie_network_set_input_layout : Option Handle → Option Str → IEStatusCode
  ie_core_load_network : Handle → Option Handle → Str → IEStatusCode × Option Handle
  Context_ctor : Graph → Option Handle
  ie_network_set_input_resize_algorithm : Option Handle → Option Str → IEStatusCode
  ie_network_set_input_precision : Option Handle → Option Str → IEStatusCode
  ie_blob_size : Option Handle → IEStatusCode × Int
  ie_infer_request_set_blob :
    Option Handle → Option Str → Option Handle → Bytes → IEStatusCode
  ie_network_set_output_precision : Option Handle → Option Str → IEStatusCode
  ie_infer_request_get_blob : Option Handle → Option Str → IEStatusCode × Option Handle
  ie_blob_get_cbuffer : Option Handle → IEStatusCode × Bytes
  ie_infer_request_infer : Option Handle → IEStatusCode
  torch_jit_load : Bytes → Option Handle
  torch_forward : Option Handle → List (Option Tensor) → IValue
  torch_toType_Float32 : Tensor → Bytes
  TfLiteModelCreate : Bytes → Option Handle
  TfLiteInterpreterCreate : Option Handle → Option Handle
  TfLiteInterpreterGetInputTensorCount : Option Handle → Nat
  TfLiteInputTensorType : Option Handle → Nat → TfLiteType
  TfLiteTensorCopyFromBuffer : Option Handle → Nat → Bytes → TfLiteStatus
  TfLiteInterpreterGetOutputTensorCount : Option Handle → Nat
  TfLiteOutputTensorByteSize : Option Handle → Nat → Nat
  TfLiteOutputTensorData : Option Handle → Nat → Bytes
  TfLiteTensorCopyToBuffer : Option Handle → Nat → Nat → TfLiteStatus
  TfLiteInterpreterInvoke : Option Handle → TfLiteStatus
  create_directory : Nat → Bool
  SavedModelFile_is_open : Nat → Bool
  MaybeSavedModelDirectory : Nat → Bytes → Bool
  new_SavedModelBundle : Option Handle
  LoadSavedModel : Nat → Bytes → List Bytes → Option Handle → Bool
  signature_def : Handle → Bytes → Option (List Str × List Str)
  TensorShape_AddDim : List Nat → Bool
  tensorflow_Tensor : DataType → List Nat → Bool
  session : Handle → Option Handle
  Session_Run :
    Handle → List (Str × Tensor) → List Str → List Tensor → Bool × List Tensor
  remove_all : Nat → Bool

/-- What a host function body leaves behind. -/
structure Result where
  ret : Outcome
  env : Env
  mem : Option MemoryInstance
  log : List Event

/-! ## Helpers in the anonymous namespace -/

/-- `FindDevice`: the device name of a target id. -/
def FindDevice (Target : Nat) : Str :=
  match Target with
  | 0 => [67, 80, 85]
  | _ => []

/-- `TensorflowTypeSize`; `none` is the `assumingUnreachable()` default. -/
def TensorflowTypeSize (InType : DataType) : Option Nat :=
  match InType with
  | .DT_FLOAT => some 4
  | .DT_HALF => some 2
  | .DT_UINT8 => some 1
  | .DT_INT32 => some 4
  | .DT_OTHER _ => none

/-- `TensorflowTypeMap`; `none` is the `assumingUnreachable()` default. -/
def TensorflowTypeMap (K : WASINN) (InType : Nat) : Option DataType :=
  if InType = K.F32 then some .DT_FLOAT
  else if InType = K.F16 then some .DT_HALF
  else if InType = K.U8 then some .DT_UINT8
  else if InType = K.I32 then some .DT_INT32
  else none

/-- The loop of `CreateTemporaryDirectory`, with `I` the attempt counter:
the attempt that created the directory, or `none` when
`std::runtime_error` is thrown after attempt `MaxTries`. -/
def CreateTemporaryDirectory.loop (create : Nat → Bool) (MaxTries : Nat) :
    Nat → Nat → Option Nat
  | 0, _ => none
  | fuel + 1, I =>
    if create I then some I
    else if I = MaxTries then none
    else CreateTemporaryDirectory.loop create MaxTries fuel (I + 1)

/-- `CreateTemporaryDirectory()` with its default `MaxTries = 1000`. -/
def CreateTemporaryDirectory (N : Native) : Option Nat :=
  CreateTemporaryDirectory.loop N.create_directory 1000 1001 0

/-! ## `WasiNNLoad::body` -/

/-- The two loops of `load` that store the input names and the output names:
call `I` of `get` fills slot `I`; `none` when a call returns a status other
than `OK` (the entry is then popped and `MissingMemory` returned). -/
def getNames (get : Nat → IEStatusCode × Option Str) :
    Nat → Nat → Option (List (Option Str))
  | 0, _ => some []
  | n + 1, I =>
    match get I with
    | (.OK, nm) => (getNames get n (I + 1)).map (fun l => nm :: l)
    | (.GENERAL_ERROR, _) => none

/-- The loop of `load` that sets the layout of every input: whether every
call returned `OK`, and the calls made. -/
def setInputLayouts (set : Option Str → IEStatusCode) :
    List (Option Str) → Bool × List Event
  | [] => (true, [])
  | nm :: rest =>
    if set nm = .OK then
      ((setInputLayouts set rest).1,
        .call .ie_network_set_input_layout :: (setInputLayouts set rest).2)
    else (false, [.call .ie_network_set_input_layout])

/-- The OpenVINO branch of `load` (lines 149-321).  Fields written through
`Graph` before a failing step go away with the popped entry. -/
def WasiNNLoad.OpenVINO (N : Native) (env : Env) (MemInst : MemoryInstance)
    (BuilderPtr BuilderLen Encoding GraphId : Nat) (DeviceName : Str) : Result :=
  match env.OpenVINOCore with
  | none => ⟨.errno .MissingMemory, env, some MemInst, []⟩
  | some Core =>
  if BuilderLen ≠ 2 then ⟨.errno .InvalidArgument, env, some MemInst, []⟩ else
  match MemInst.getPointer 4 BuilderPtr (BuilderLen * 2 % 2 ^ 32) with
  | none => ⟨.errno .InvalidArgument, env, some MemInst, []⟩
  | some GraphBuilders =>
  let XMLStringLen := MemInst.word GraphBuilders 1
  let WeightsBinLen := MemInst.word GraphBuilders 3
  match MemInst.getPointer 1 (MemInst.word GraphBuilders 0) XMLStringLen with
  | none => ⟨.errno .InvalidArgument, env, some MemInst, []⟩
  | some XMLPtr =>
  match MemInst.getPointer 1 (MemInst.word GraphBuilders 2) WeightsBinLen with
  | none => ⟨.errno .InvalidArgument, env, some MemInst, []⟩
  | some BinPtr =>
  let env1 := env.emplaceGraph { GraphBackend := Encoding }
  let Blob := N.ie_blob_make_memory false [WeightsBinLen]
  if Blob.1 ≠ .OK then
    ⟨.errno .Busy, env1.popGraph, some MemInst, [.call .ie_blob_make_memory]⟩ else
  if N.ie_blob_get_buffer Blob.2 ≠ .OK then
    ⟨.errno .MissingMemory, env1.popGraph, some MemInst, [.call .ie_blob_make_memory]⟩ else
  let Net := N.ie_core_read_network_from_memory Core
    (MemInst.readBytes XMLPtr XMLStringLen) Blob.2 (MemInst.readBytes BinPtr WeightsBinLen)
  let log1 : List Event := [.call .ie_blob_make_memory, .toNative WeightsBinLen,
    .call .ie_core_read_network_from_memory]
  if Net.1 ≠ .OK then ⟨.errno .Busy, env1.popGraph, some MemInst, log1⟩ else
  let NetworkInputSize := N.ie_network_get_inputs_number Net.2
  if NetworkInputSize.1 ≠ .OK then
    ⟨.errno .MissingMemory, env1.popGraph, some MemInst, log1⟩ else
  let NetworkOutputSize := N.ie_network_get_outputs_number Net.2
  if NetworkOutputSize.1 ≠ .OK then
    ⟨.errno .MissingMemory, env1.popGraph, some MemInst, log1⟩ else
  match getNames (N.ie_network_get_input_name Net.2) NetworkInputSize.2 0 with
  | none => ⟨.errno .MissingMemory, env1.popGraph, some MemInst, log1⟩
  | some InputNames =>
  match getNames (N.ie_network_get_output_name Net.2) NetworkOutputSize.2 0 with
  | none => ⟨.errno .MissingMemory, env1.popGraph, some MemInst, log1⟩
  | some OutputNames =>
  let Layouts := setInputLayouts (N.ie_network_set_input_layout Net.2) InputNames
  if Layouts.1 = false then
    ⟨.errno .MissingMemory, env1.popGraph, some MemInst, log1 ++ Layouts.2⟩ else
  let Exec := N.ie_core_load_network Core Net.2 DeviceName
  let log2 := log1 ++ Layouts.2 ++ [.call .ie_core_load_network]
  if Exec.1 ≠ .OK then ⟨.errno .Busy, env1.popGraph, some MemInst, log2⟩ else
  let env2 := env1.setBackGraph
    { GraphBackend := Encoding, OpenVINOWeightBlob := Blob.2, OpenVINONetwork := Net.2,
      OpenVINOInputNames := InputNames, OpenVINOOutputNames := OutputNames,
      OpenVINOExecNetwork := Exec.2 }
  ⟨.errno .Success, env2,
    some (MemInst.write32 GraphId ((env2.NNGraph.length - 1) % 2 ^ 32)), log2⟩

/-- The PyTorch branch of `load` (lines 328-363). -/
def WasiNNLoad.PyTorch (N : Native) (env : Env) (MemInst : MemoryInstance)
    (BuilderPtr BuilderLen Encoding GraphId : Nat) : Result :=
  if BuilderLen ≠ 1 then ⟨.errno .InvalidArgument, env, some MemInst, []⟩ else
  match MemInst.getPointer 4 BuilderPtr (BuilderLen * 2 % 2 ^ 32) with
  | none => ⟨.errno .InvalidArgument, env, some MemInst, []⟩
  | some GraphBuilders =>
  let BinLen := MemInst.word GraphBuilders 1
  match MemInst.getPointer 1 (MemInst.word GraphBuilders 0) BinLen with
  | none => ⟨.errno .InvalidArgument, env, some MemInst, []⟩
  | some BinPtr =>
  let env1 := env.emplaceGraph { GraphBackend := Encoding }
  match N.torch_jit_load (MemInst.readBytes BinPtr BinLen) with
  | none => ⟨.errno .InvalidArgument, env1.popGraph, some MemInst, [.call .torch_jit_load]⟩
  | some Model =>
  let env2 := env1.setBackGraph { GraphBackend := Encoding, TorchModel := some Model }
  ⟨.errno .Success, env2,
    some (MemInst.write32 GraphId ((env2.NNGraph.length - 1) % 2 ^ 32)),
    [.call .torch_jit_load]⟩

/-- The TensorflowLite branch of `load` (lines 372-403). -/
def WasiNNLoad.TensorflowLite (N : Native) (env : Env) (MemInst : MemoryInstance)
    (BuilderPtr BuilderLen Encoding GraphId : Nat) : Result :=
  if BuilderLen ≠ 1 then ⟨.errno .InvalidArgument, env, some MemInst, []⟩ else
  match MemInst.getPointer 4 BuilderPtr (BuilderLen * 2 % 2 ^ 32) with
  | none => ⟨.errno .InvalidArgument, env, some MemInst, []⟩
  | some GraphBuilders =>
  let BinLen := MemInst.word GraphBuilders 1
  match MemInst.getPointer 1 (MemInst.word GraphBuilders 0) BinLen with
  | none => ⟨.errno .InvalidArgument, env, some MemInst, []⟩
  | some BinPtr =>
  let env1 := env.emplaceGraph { GraphBackend := Encoding }
  match N.TfLiteModelCreate (MemInst.readBytes BinPtr BinLen) with
  | none => ⟨.errno .InvalidArgument, env1.popGraph, some MemInst, [.call .TfLiteModelCreate]⟩
  | some Mod =>
  let env2 := env1.setBackGraph { GraphBackend := Encoding, TFLiteMod := some Mod }
  ⟨.errno .Success, env2,
    some (MemInst.write32 GraphId ((env2.NNGraph.length - 1) % 2 ^ 32)),
    [.call .TfLiteModelCreate]⟩

/-- The Tensorflow branch of `load` (lines 411-502).  Each call of
`std::filesystem::remove_all` is outside any `try`: when it throws, the
exception leaves the body; at line 500 the graph is already appended. -/
def WasiNNLoad.Tensorflow (N : Native) (env : Env) (MemInst : MemoryInstance)
    (BuilderPtr BuilderLen Encoding GraphId : Nat) : Result :=
  if BuilderLen ≠ 3 then ⟨.errno .InvalidArgument, env, some MemInst, []⟩ else
  match MemInst.getPointer 4 BuilderPtr (BuilderLen * 2 % 2 ^ 32) with
  | none => ⟨.errno .InvalidArgument, env, some MemInst, []⟩
  | some GraphBuilders =>
  let BinLen := MemInst.word GraphBuilders 1
  match MemInst.getPointer 1 (MemInst.word GraphBuilders 0) BinLen with
  | none => ⟨.errno .InvalidArgument, env, some MemInst, []⟩
  | some BinPtr =>
  match MemInst.getPointer 1 (MemInst.word GraphBuilders 2) (MemInst.word GraphBuilders 3) with
  | none => ⟨.errno .InvalidArgument, env, some MemInst, []⟩
  | some TagSetPtr =>
  let TagSet := MemInst.readBytes TagSetPtr (MemInst.word GraphBuilders 3)
  match MemInst.getPointer 1 (MemInst.word GraphBuilders 4) (MemInst.word GraphBuilders 5) with
  | none => ⟨.errno .InvalidArgument, env, some MemInst, []⟩
  | some SignaturePtr =>
  let Signature := MemInst.readBytes SignaturePtr (MemInst.word GraphBuilders 5)
  match CreateTemporaryDirectory N with
  | none => ⟨.raised, env, some MemInst, [.call .CreateTemporaryDirectory]⟩
  | some TmpSavedModelDir =>
  if N.SavedModelFile_is_open TmpSavedModelDir = false then
    if N.remove_all TmpSavedModelDir = false then
      ⟨.raised, env, some MemInst, [.call .CreateTemporaryDirectory, .call .remove_all]⟩
    else
      ⟨.errno .InvalidArgument, env, some MemInst,
        [.call .CreateTemporaryDirectory, .call .remove_all]⟩
  else
  let Bin := MemInst.readBytes BinPtr BinLen
  let log1 : List Event := [.call .CreateTemporaryDirectory, .call .SavedModelFile_write]
  if N.MaybeSavedModelDirectory TmpSavedModelDir Bin = false then
    if N.remove_all TmpSavedModelDir = false then
      ⟨.raised, env, some MemInst, log1 ++ [.call .remove_all]⟩
    else ⟨.errno .InvalidArgument, env, some MemInst, log1 ++ [.call .remove_all]⟩
  else
  match N.new_SavedModelBundle with
  | none =>
    if N.remove_all TmpSavedModelDir = false then
      ⟨.raised, env, some MemInst, log1 ++ [.call .remove_all]⟩
    else ⟨.errno .Busy, env, some MemInst, log1 ++ [.call .remove_all]⟩
  | some TFBundle =>
  let TFStat := N.LoadSavedModel TmpSavedModelDir Bin
    (if TagSet = [] then [] else [TagSet]) (some TFBundle)
  let log2 := log1 ++ [.call .LoadSavedModel, .call .remove_all]
  if TFStat = false then
    if N.remove_all TmpSavedModelDir = false then ⟨.raised, env, some MemInst, log2⟩
    else ⟨.errno .Busy, env, some MemInst, log2⟩
  else
  let env1 := env.emplaceGraph { GraphBackend := Encoding }
  let env2 := env1.setBackGraph
    { GraphBackend := Encoding, TFSignature := Signature, TFBundle := some TFBundle }
  -- line 500: `remove_all` after `emplace_back`, before `*GraphId = ...`
  if N.remove_all TmpSavedModelDir = false then ⟨.raised, env2, some MemInst, log2⟩ else
  ⟨.errno .Success, env2,
    some (MemInst.write32 GraphId ((env2.NNGraph.length - 1) % 2 ^ 32)), log2⟩

/-- `WasiNNLoad::body` (lines 122-512). -/
def WasiNNLoad.body (K : WASINN) (B : Build) (N : Native) (env : Env)
    (Frame : Option MemoryInstance)
    (BuilderPtr BuilderLen Encoding Target GraphIdPtr : Nat) : Result :=
  match Frame with
  | none => ⟨.HostFuncError, env, none, []⟩
  | some MemInst =>
  match MemInst.getPointer 4 GraphIdPtr 1 with
  | none => ⟨.errno .InvalidArgument, env, some MemInst, []⟩
  | some GraphId =>
  let DeviceName := FindDevice Target
  if DeviceName.length = 0 then ⟨.errno .InvalidArgument, env, some MemInst, []⟩ else
  if Encoding = K.OpenVINO then
    if B.OPENVINO then
      WasiNNLoad.OpenVINO N env MemInst BuilderPtr BuilderLen Encoding GraphId DeviceName
    else ⟨.errno .InvalidArgument, env, some MemInst, []⟩
  else if Encoding = K.PyTorch then
    if B.TORCH then WasiNNLoad.PyTorch N env MemInst BuilderPtr BuilderLen Encoding GraphId
    else ⟨.errno .InvalidArgument, env, some MemInst, []⟩
  else if Encoding = K.TensorflowLite then
    if B.TFLITE then
      WasiNNLoad.TensorflowLite N env MemInst BuilderPtr BuilderLen Encoding GraphId
    else ⟨.errno .InvalidArgument, env, some MemInst, []⟩
  else if Encoding = K.Tensorflow then
    if B.TF then WasiNNLoad.Tensorflow N env MemInst BuilderPtr BuilderLen Encoding GraphId
    else ⟨.errno .InvalidArgument, env, some MemInst, []⟩
  else ⟨.errno .InvalidArgument, env, some MemInst, []⟩

/-! ## `WasiNNInitExecCtx::body` -/

/-- The context that `Env.NNContext.emplace_back(Env.NNGraph[GraphId])`
constructs. -/
def Context.new (N : Native) (GraphId : Nat) (G : Graph) : Context :=
  { GraphRef := GraphId, OpenVINOInferRequest := N.Context_ctor G }

/-- `std::sort` on a vector of `std::string`. -/
def sortNames (l : List Str) : List Str :=
  List.insertionSort (fun a b : Str => a ≤ b) l

/-- A default-constructed `tensorflow::Tensor()`: a float tensor of shape
`[0]`. -/
def Tensor.empty : Tensor := ⟨.DT_FLOAT, [0], []⟩

/-- `WasiNNInitExecCtx::body` (lines 514-635). -/
def WasiNNInitExecCtx.body (K : WASINN) (B : Build) (N : Native) (env : Env)
    (Frame : Option MemoryInstance) (GraphId ContextPtr : Nat) : Result :=
  match Frame with
  | none => ⟨.HostFuncError, env, none, []⟩
  | some MemInst =>
  -- `Env.NNGraph.size() <= GraphId`, else `G` is `Env.NNGraph[GraphId]`
  match env.NNGraph[GraphId]? with
  | none => ⟨.errno .InvalidArgument, env, some MemInst, []⟩
  | some G =>
  match MemInst.getPointer 4 ContextPtr 1 with
  | none => ⟨.errno .InvalidArgument, env, some MemInst, []⟩
  | some Context =>
  if G.GraphBackend = K.OpenVINO then
    if B.OPENVINO then
      if G.OpenVINONetwork = none ∨ G.OpenVINOExecNetwork = none then
        ⟨.errno .MissingMemory, env, some MemInst, []⟩ else
      let env1 := env.emplaceContext (WasiNN.Context.new N GraphId G)
      if (WasiNN.Context.new N GraphId G).OpenVINOInferRequest = none then
        ⟨.errno .Busy, env1.popContext, some MemInst, [.call .Context_ctor]⟩ else
      ⟨.errno .Success, env1,
        some (MemInst.write32 Context ((env1.NNContext.length - 1) % 2 ^ 32)),
        [.call .Context_ctor]⟩
    else ⟨.errno .InvalidArgument, env, some MemInst, []⟩
  else if G.GraphBackend = K.PyTorch then
    if B.TORCH then
      let env1 := env.emplaceContext (WasiNN.Context.new N GraphId G)
      ⟨.errno .Success, env1,
        some (MemInst.write32 Context ((env1.NNContext.length - 1) % 2 ^ 32)),
        [.call .Context_ctor]⟩
    else ⟨.errno .InvalidArgument, env, some MemInst, []⟩
  else if G.GraphBackend = K.TensorflowLite then
    if B.TFLITE then
      if G.TFLiteMod = none then ⟨.errno .MissingMemory, env, some MemInst, []⟩ else
      let env1 := env.emplaceContext (WasiNN.Context.new N GraphId G)
      let Interp := N.TfLiteInterpreterCreate G.TFLiteMod
      if Interp = none then
        ⟨.errno .Busy, env1.popContext, some MemInst,
          [.call .Context_ctor, .call .TfLiteInterpreterCreate]⟩ else
      let env2 := env1.setBackContext { WasiNN.Context.new N GraphId G with TFLiteInterp := Interp }
      ⟨.errno .Success, env2,
        some (MemInst.write32 Context ((env2.NNContext.length - 1) % 2 ^ 32)),
        [.call .Context_ctor, .call .TfLiteInterpreterCreate,
          .call .TfLiteInterpreterAllocateTensors]⟩
    else ⟨.errno .InvalidArgument, env, some MemInst, []⟩
  else if G.GraphBackend = K.Tensorflow then
    if B.TF then
      let env1 := env.emplaceContext (WasiNN.Context.new N GraphId G)
      match G.TFBundle with
      | none => ⟨.errno .Busy, env1.popContext, some MemInst, [.call .Context_ctor]⟩
      | some Bundle =>
      let C1 : WasiNN.Context := { WasiNN.Context.new N GraphId G with TFBundle := some Bundle }
      match N.signature_def Bundle G.TFSignature with
      | none => ⟨.raised, env1.setBackContext C1, some MemInst, [.call .Context_ctor]⟩
      | some ModelDef =>
      let TFInputNames := sortNames ModelDef.1
      let TFOutputNames := sortNames ModelDef.2
      let env2 := env1.setBackContext
        { C1 with TFInputNames := TFInputNames, TFOutputNames := TFOutputNames,
                  TFInputAlready := TFInputNames.map (fun X => (X, Tensor.empty)) }
      ⟨.errno .Success, env2,
        some (MemInst.write32 Context ((env2.NNContext.length - 1) % 2 ^ 32)),
        [.call .Context_ctor]⟩
    else ⟨.errno .InvalidArgument, env, some MemInst, []⟩
  else ⟨.errno .InvalidArgument, env, some MemInst, []⟩

/-! ## `WasiNNSetInput::body` -/

/-- `std::vector::resize(n)` with value-initialised new elements `d`. -/
def resize {α : Type} (l : List α) (n : Nat) (d : α) : List α :=
  l.take n ++ List.replicate (n - l.length) d

/-- The product of the dimensions in a 64-bit unsigned accumulator
(`BlobSize *= ...`). -/
def BlobSize64 (dims : List Nat) : Nat :=
  dims.foldl (fun acc d => acc * d % 2 ^ 64) 1

/-- The second half of the OpenVINO branch of `set_input` (lines 706-798):
the engine calls that follow the checks of the descriptor.  The blob has
`BlobSize` elements of 4 bytes (precision FP32); a `std::copy_n` of more bytes
than that writes past its buffer. -/
def WasiNNSetInput.OpenVINO.setBlob (N : Native) (env : Env) (MemInst : MemoryInstance)
    (CxtRef : Context) (Network : Option Handle) (InputName : Option Str)
    (DimensionBuf DimensionLen TensorDataBuf TensorDataLen : Nat) : Result :=
  let log1 : List Event := [.call .ie_network_set_input_resize_algorithm]
  if N.ie_network_set_input_resize_algorithm Network InputName ≠ .OK then
    ⟨.errno .InvalidArgument, env, some MemInst, log1⟩ else
  let log2 := log1 ++ [.call .ie_network_set_input_layout]
  if N.ie_network_set_input_layout Network InputName ≠ .OK then
    ⟨.errno .InvalidArgument, env, some MemInst, log2⟩ else
  let log3 := log2 ++ [.call .ie_network_set_input_precision]
  if N.ie_network_set_input_precision Network InputName ≠ .OK then
    ⟨.errno .InvalidArgument, env, some MemInst, log3⟩ else
  let Dimens := MemInst.readWords DimensionBuf DimensionLen
  let InputBlob := N.ie_blob_make_memory true Dimens
  let log4 := log3 ++ [.call .ie_blob_make_memory]
  if InputBlob.1 ≠ .OK then ⟨.errno .Busy, env, some MemInst, log4⟩ else
  if (N.ie_blob_size InputBlob.2).1 ≠ .OK then ⟨.errno .Busy, env, some MemInst, log4⟩ else
  if N.ie_blob_get_buffer InputBlob.2 ≠ .OK then
    ⟨.errno .MissingMemory, env, some MemInst, log4 ++ [.call .ie_blob_free]⟩ else
  -- `std::copy_n(TensorDataBuf, TensorDataLen, BlobBuffer.buffer)`
  if ((N.ie_blob_size InputBlob.2).2 * 4).toNat < TensorDataLen then
    ⟨.undefined, env, some MemInst, log4 ++ [.toNative TensorDataLen]⟩ else
  let log5 := log4 ++ [.toNative TensorDataLen, .call .ie_infer_request_set_blob,
    .call .ie_blob_free]
  if N.ie_infer_request_set_blob CxtRef.OpenVINOInferRequest InputName InputBlob.2
      (MemInst.readBytes TensorDataBuf TensorDataLen) ≠ .OK then
    ⟨.errno .Busy, env, some MemInst, log5⟩ else
  ⟨.errno .Success, env, some MemInst, log5⟩

/-- The OpenVINO branch of `set_input` (lines 654-798): the checks of the
session, the index and the descriptor, then `setBlob`. -/
def WasiNNSetInput.OpenVINO (K : WASINN) (N : Native) (env : Env) (MemInst : MemoryInstance)
    (CxtRef : Context) (G : Graph) (Index TensorPtr : Nat) : Result :=
  let Network := G.OpenVINONetwork
  if Network = none ∨ CxtRef.OpenVINOInferRequest = none then
    ⟨.errno .MissingMemory, env, some MemInst, []⟩ else
  match G.OpenVINOInputNames[Index]? with
  | none => ⟨.errno .InvalidArgument, env, some MemInst, []⟩
  | some InputName =>
  match MemInst.getPointer 4 TensorPtr 5 with
  | none => ⟨.errno .InvalidArgument, env, some MemInst, []⟩
  | some Tensor =>
  let DimensionLen := MemInst.word Tensor 1
  if DimensionLen > 8 then ⟨.errno .InvalidArgument, env, some MemInst, []⟩ else
  match MemInst.getPointer 4 (MemInst.word Tensor 0) DimensionLen with
  | none => ⟨.errno .InvalidArgument, env, some MemInst, []⟩
  | some DimensionBuf =>
  let TensorDataLen := MemInst.word Tensor 4
  match MemInst.getPointer 1 (MemInst.word Tensor 3) TensorDataLen with
  | none => ⟨.errno .InvalidArgument, env, some MemInst, []⟩
  | some TensorDataBuf =>
  let RType := castTensorType K (MemInst.word Tensor 2)
  if RType ≠ K.F32 then ⟨.errno .InvalidArgument, env, some MemInst, []⟩ else
  WasiNNSetInput.OpenVINO.setBlob N env MemInst CxtRef Network InputName
    DimensionBuf DimensionLen TensorDataBuf TensorDataLen

/-- The PyTorch branch of `set_input` (lines 805-843).  `torch::from_blob`
takes as many elements as the dimensions say, and `clone()` reads them:
`4 * prod(Dims)` bytes at `TensorDataBuf`, of which `TensorDataLen` were
resolved; a read past them that leaves the guest memory is undefined. -/
def WasiNNSetInput.PyTorch (K : WASINN) (env : Env) (MemInst : MemoryInstance)
    (Context : Nat) (CxtRef : WasiNN.Context) (Index TensorPtr : Nat) : Result :=
  let TorchInputs :=
    if Index ≥ CxtRef.TorchInputs.length then
      resize CxtRef.TorchInputs ((Index + 1) % 2 ^ 32) none
    else CxtRef.TorchInputs
  let env1 := env.setContext Context { CxtRef with TorchInputs := TorchInputs }
  match MemInst.getPointer 4 TensorPtr 5 with
  | none => ⟨.errno .InvalidArgument, env1, some MemInst, []⟩
  | some Tensor =>
  let DimensionLen := MemInst.word Tensor 1
  match MemInst.getPointer 4 (MemInst.word Tensor 0) DimensionLen with
  | none => ⟨.errno .InvalidArgument, env1, some MemInst, []⟩
  | some DimensionBuf =>
  let TensorDataLen := MemInst.word Tensor 4
  match MemInst.getPointer 1 (MemInst.word Tensor 3) TensorDataLen with
  | none => ⟨.errno .InvalidArgument, env1, some MemInst, []⟩
  | some TensorDataBuf =>
  let RType := castTensorType K (MemInst.word Tensor 2)
  if RType ≠ K.F32 then ⟨.errno .InvalidArgument, env1, some MemInst, []⟩ else
  let Dims := MemInst.readWords DimensionBuf DimensionLen
  if TensorDataLen < 4 * Dims.prod ∧
      MemInst.getPointer 1 TensorDataBuf (4 * Dims.prod) = none then
    ⟨.undefined, env1, some MemInst, [.call .torch_from_blob_clone]⟩ else
  let InTensor : WasiNN.Tensor :=
    ⟨.DT_FLOAT, Dims, MemInst.readBytes TensorDataBuf (4 * Dims.prod)⟩
  if Index < TorchInputs.length then
    ⟨.errno .Success,
      env.setContext Context { CxtRef with TorchInputs := TorchInputs.set Index (some InTensor) },
      some MemInst, [.call .torch_from_blob_clone]⟩
  else ⟨.undefined, env1, some MemInst, [.call .torch_from_blob_clone]⟩

/-- The Tensorflow branch of `set_input` (lines 850-898). -/
def WasiNNSetInput.Tensorflow (K : WASINN) (N : Native) (env : Env) (MemInst : MemoryInstance)
    (Context : Nat) (CxtRef : WasiNN.Context) (Index TensorPtr : Nat) : Result :=
  match MemInst.getPointer 4 TensorPtr 5 with
  | none => ⟨.errno .InvalidArgument, env, some MemInst, []⟩
  | some Tensor =>
  let DimensionLen := MemInst.word Tensor 1
  match MemInst.getPointer 4 (MemInst.word Tensor 0) DimensionLen with
  | none => ⟨.errno .InvalidArgument, env, some MemInst, []⟩
  | some DimensionBuf =>
  let Dims := MemInst.readWords DimensionBuf DimensionLen
  -- the loop `TFShape.AddDim(...)`, `BlobSize *= ...`
  if N.TensorShape_AddDim Dims = false then ⟨.raised, env, some MemInst, []⟩ else
  let BlobSize := BlobSize64 Dims
  let TensorDataLen := MemInst.word Tensor 4
  match MemInst.getPointer 1 (MemInst.word Tensor 3) TensorDataLen with
  | none => ⟨.errno .InvalidArgument, env, some MemInst, []⟩
  | some TensorDataBuf =>
  let RType := castTensorType K (MemInst.word Tensor 2)
  match TensorflowTypeMap K RType with
  | none => ⟨.undefined, env, some MemInst, []⟩
  | some TFInType =>
  match TensorflowTypeSize TFInType with
  | none => ⟨.undefined, env, some MemInst, []⟩
  | some ElementSize =>
  if ElementSize = 0 then ⟨.errno .InvalidArgument, env, some MemInst, []⟩ else
  if BlobSize * ElementSize % 2 ^ 64 ≠ TensorDataLen then
    ⟨.errno .InvalidArgument, env, some MemInst, []⟩ else
  -- `tensorflow::Tensor TensorPtr(TFInType, TFShape)`, then `std::copy_n` into its buffer
  if N.tensorflow_Tensor TFInType Dims = false then
    ⟨.undefined, env, some MemInst, [.call .tensorflow_Tensor]⟩ else
  let NewTensor : WasiNN.Tensor := ⟨TFInType, Dims, MemInst.readBytes TensorDataBuf TensorDataLen⟩
  let log1 : List Event := [.call .tensorflow_Tensor, .toNative TensorDataLen]
  -- the loop printing `see[0] .. see[9]`
  if TensorDataLen < 10 then ⟨.undefined, env, some MemInst, log1⟩ else
  match CxtRef.TFInputAlready[Index]? with
  | none => ⟨.undefined, env, some MemInst, log1⟩
  | some Slot =>
  ⟨.errno .Success,
    env.setContext Context
      { CxtRef with TFInputAlready := CxtRef.TFInputAlready.set Index (Slot.1, NewTensor) },
    some MemInst, log1⟩

/-- The type switch of the TensorflowLite branch of `set_input`; `none` is
its `default` case. -/
def LiteType (K : WASINN) (t : TfLiteType) : Option Nat :=
  match t with
  | .kTfLiteUInt8 => some K.U8
  | .kTfLiteFloat16 => some K.F16
  | .kTfLiteFloat32 => some K.F32
  | .kTfLiteInt32 => some K.I32
  | .kTfLiteOther _ => none

/-- The TensorflowLite branch of `set_input` (lines 906-972).  The loop
over `DimensionBuf` runs before the null check. -/
def WasiNNSetInput.TensorflowLite (K : WASINN) (N : Native) (env : Env)
    (MemInst : MemoryInstance) (CxtRef : WasiNN.Context) (Index TensorPtr : Nat) : Result :=
  let InCnt := N.TfLiteInterpreterGetInputTensorCount CxtRef.TFLiteInterp % 2 ^ 32
  if Index ≥ InCnt then ⟨.errno .InvalidArgument, env, some MemInst, []⟩ else
  match MemInst.getPointer 4 TensorPtr 5 with
  | none => ⟨.errno .InvalidArgument, env, some MemInst, []⟩
  | some Tensor =>
  let DimensionLen := MemInst.word Tensor 1
  match MemInst.getPointer 4 (MemInst.word Tensor 0) DimensionLen with
  | none =>
    if DimensionLen > 0 then ⟨.undefined, env, some MemInst, []⟩
    else ⟨.errno .InvalidArgument, env, some MemInst, []⟩
  | some _ =>
  let TensorDataLen := MemInst.word Tensor 4
  match MemInst.getPointer 1 (MemInst.word Tensor 3) TensorDataLen with
  | none => ⟨.errno .InvalidArgument, env, some MemInst, []⟩
  | some TensorDataBuf =>
  let RType := castTensorType K (MemInst.word Tensor 2)
  match LiteType K (N.TfLiteInputTensorType CxtRef.TFLiteInterp Index) with
  | none => ⟨.errno .InvalidArgument, env, some MemInst, []⟩
  | some LType =>
  if LType ≠ RType then ⟨.errno .InvalidArgument, env, some MemInst, []⟩ else
  if N.TfLiteTensorCopyFromBuffer CxtRef.TFLiteInterp Index
      (MemInst.readBytes TensorDataBuf TensorDataLen) ≠ .kTfLiteOk then
    ⟨.errno .Busy, env, some MemInst, [.call .TfLiteTensorCopyFromBuffer]⟩ else
  ⟨.errno .Success, env, some MemInst, [.call .TfLiteTensorCopyFromBuffer]⟩

/-- `WasiNNSetInput::body` (lines 637-983).  A context whose `GraphRef` does
not refer to an entry of `Env.NNGraph` is a dangling reference. -/
def WasiNNSetInput.body (K : WASINN) (B : Build) (N : Native) (env : Env)
    (Frame : Option MemoryInstance) (Context Index TensorPtr : Nat) : Result :=
  match Frame with
  | none => ⟨.HostFuncError, env, none, []⟩
  | some MemInst =>
  -- `Env.NNContext.size() <= Context`, else `CxtRef` is `Env.NNContext[Context]`
  match env.NNContext[Context]? with
  | none => ⟨.errno .InvalidArgument, env, some MemInst, []⟩
  | some CxtRef =>
  match env.NNGraph[CxtRef.GraphRef]? with
  | none => ⟨.undefined, env, some MemInst, []⟩
  | some G =>
  if G.GraphBackend = K.OpenVINO then
    if B.OPENVINO then WasiNNSetInput.OpenVINO K N env MemInst CxtRef G Index TensorPtr
    else ⟨.errno .InvalidArgument, env, some MemInst, []⟩
  else if G.GraphBackend = K.PyTorch then
    if B.TORCH then WasiNNSetInput.PyTorch K env MemInst Context CxtRef Index TensorPtr
    else ⟨.errno .InvalidArgument, env, some MemInst, []⟩
  else if G.GraphBackend = K.Tensorflow then
    if B.TF then WasiNNSetInput.Tensorflow K N env MemInst Context CxtRef Index TensorPtr
    else ⟨.errno .InvalidArgument, env, some MemInst, []⟩
  else if G.GraphBackend = K.TensorflowLite then
    if B.TFLITE then WasiNNSetInput.TensorflowLite K N env MemInst CxtRef Index TensorPtr
    else ⟨.errno .InvalidArgument, env, some MemInst, []⟩
  else ⟨.errno .InvalidArgument, env, some MemInst, []⟩

/-! ## `WasiNNGetOuput::body` -/

/-- The tail shared by the four branches of `get_output` once the output
bytes are in guest memory `mem1`: resolve `BytesWrittenPtr`, store
`BytesToWrite`.  `logErr` and `logOk` are the logs of the two exits. -/
def writeBytesWritten (env : Env) (mem1 : MemoryInstance) (BytesWrittenPtr BytesToWrite : Nat)
    (logErr logOk : List Event) : Result :=
  match mem1.getPointer 4 BytesWrittenPtr 1 with
  | none => ⟨.errno .InvalidArgument, env, some mem1, logErr⟩
  | some BytesWritten =>
    ⟨.errno .Success, env, some (mem1.write32 BytesWritten BytesToWrite), logOk⟩

/-- The OpenVINO branch of `get_output` (lines 1004-1071).  The status of
`ie_blob_size` is overwritten unread; `BlobSize * 4` is an `int` cast to
`uint32_t`. -/
def WasiNNGetOuput.OpenVINO (N : Native) (env : Env) (MemInst : MemoryInstance)
    (CxtRef : Context) (G : Graph)
    (Index OutBufferPtr OutBufferMaxSize BytesWrittenPtr : Nat) : Result :=
  let Network := G.OpenVINONetwork
  match G.OpenVINOOutputNames[Index]? with
  | none => ⟨.errno .InvalidArgument, env, some MemInst, []⟩
  | some OutputName =>
  let log1 : List Event := [.call .ie_network_set_output_precision]
  if N.ie_network_set_output_precision Network OutputName ≠ .OK then
    ⟨.errno .InvalidArgument, env, some MemInst, log1⟩ else
  let OutputBlob := N.ie_infer_request_get_blob CxtRef.OpenVINOInferRequest OutputName
  let log2 := log1 ++ [.call .ie_infer_request_get_blob]
  if OutputBlob.1 ≠ .OK then ⟨.errno .InvalidArgument, env, some MemInst, log2⟩ else
  let BlobSize := (N.ie_blob_size OutputBlob.2).2
  let BlobCBuffer := N.ie_blob_get_cbuffer OutputBlob.2
  if BlobCBuffer.1 ≠ .OK then
    ⟨.errno .MissingMemory, env, some MemInst, log2 ++ [.call .ie_blob_free]⟩ else
  let BytesToWrite := min ((BlobSize * 4) % 4294967296).toNat OutBufferMaxSize
  match MemInst.getPointer 1 OutBufferPtr BytesToWrite with
  | none => ⟨.errno .InvalidArgument, env, some MemInst, log2 ++ [.call .ie_blob_free]⟩
  | some OutBuffer =>
  let mem1 := MemInst.writeBytes OutBuffer (copy_n BlobCBuffer.2 BytesToWrite)
  let log3 := log2 ++ [.toGuest BytesToWrite, .call .ie_blob_free]
  writeBytesWritten env mem1 BytesWrittenPtr BytesToWrite log3 log3

/-- `CxtRef.TorchOutputs[Index].toType(torch::kFloat32)`: a float tensor is
returned as it is, any other is converted by the engine. -/
def toTypeFloat32 (N : Native) (t : Tensor) : Tensor :=
  if t.dtype = .DT_FLOAT then t else { t with dtype := .DT_FLOAT, data := N.torch_toType_Float32 t }

/-- The PyTorch branch of `get_output` (lines 1078-1110). -/
def WasiNNGetOuput.PyTorch (N : Native) (env : Env) (MemInst : MemoryInstance)
    (CxtRef : Context)
    (Index OutBufferPtr OutBufferMaxSize BytesWrittenPtr : Nat) : Result :=
  match CxtRef.TorchOutputs[Index]? with
  | none => ⟨.errno .InvalidArgument, env, some MemInst, []⟩
  | some Out =>
  let OutTensor := toTypeFloat32 N Out
  let BlobSize := BlobSize64 OutTensor.dims
  let BytesToWrite := min (BlobSize * 4 % 2 ^ 32) OutBufferMaxSize
  match MemInst.getPointer 1 OutBufferPtr BytesToWrite with
  | none => ⟨.errno .InvalidArgument, env, some MemInst, []⟩
  | some OutBuffer =>
  let mem1 := MemInst.writeBytes OutBuffer (copy_n OutTensor.data BytesToWrite)
  writeBytesWritten env mem1 BytesWrittenPtr BytesToWrite
    [.toGuest BytesToWrite] [.toGuest BytesToWrite]

/-- The Tensorflow branch of `get_output` (lines 1117-1163).  The index is
checked against `TFOutputNames` and used on `TFOutputTensors`; the two
printing loops read `OutTensor.tensor<float, 2>()(0, I)` and ten floats of
`OutBuffer`. -/
def WasiNNGetOuput.Tensorflow (env : Env) (MemInst : MemoryInstance) (CxtRef : Context)
    (Index OutBufferPtr OutBufferMaxSize BytesWrittenPtr : Nat) : Result :=
  if CxtRef.TFOutputNames.length ≤ Index then
    ⟨.errno .InvalidArgument, env, some MemInst, []⟩ else
  match CxtRef.TFOutputTensors[Index]? with
  | none => ⟨.undefined, env, some MemInst, []⟩
  | some OutTensor =>
  let BlobSize := BlobSize64 OutTensor.dims
  match TensorflowTypeSize OutTensor.dtype with
  | none => ⟨.undefined, env, some MemInst, []⟩
  | some ElementSize =>
  if ElementSize = 0 then ⟨.errno .InvalidArgument, env, some MemInst, []⟩ else
  let BytesToWrite := min (BlobSize * ElementSize % 2 ^ 32) OutBufferMaxSize
  match MemInst.getPointer 1 OutBufferPtr BytesToWrite with
  | none => ⟨.errno .Busy, env, some MemInst, []⟩
  | some OutBuffer =>
  let mem1 := MemInst.writeBytes OutBuffer (copy_n OutTensor.data BytesToWrite)
  let log1 : List Event := [.toGuest BytesToWrite]
  if OutTensor.dtype ≠ .DT_FLOAT ∨ OutTensor.dims.length ≠ 2 then
    ⟨.raised, env, some mem1, log1⟩ else
  if OutTensor.dims.getD 0 0 < 1 ∨ OutTensor.dims.getD 1 0 < 10 then
    ⟨.undefined, env, some mem1, log1⟩ else
  if mem1.getPointer 4 OutBuffer 10 = none then ⟨.undefined, env, some mem1, log1⟩ else
  writeBytesWritten env mem1 BytesWrittenPtr BytesToWrite log1 log1

/-- The TensorflowLite branch of `get_output` (lines 1171-1198).  The status
of `TfLiteTensorCopyToBuffer` is not read: when the engine refuses, nothing
is copied. -/
def WasiNNGetOuput.TensorflowLite (N : Native) (env : Env) (MemInst : MemoryInstance)
    (CxtRef : Context)
    (Index OutBufferPtr OutBufferMaxSize BytesWrittenPtr : Nat) : Result :=
  let OutCnt := N.TfLiteInterpreterGetOutputTensorCount CxtRef.TFLiteInterp % 2 ^ 32
  if Index ≥ OutCnt then ⟨.errno .InvalidArgument, env, some MemInst, []⟩ else
  let BlobSize := N.TfLiteOutputTensorByteSize CxtRef.TFLiteInterp Index % 2 ^ 32
  let BytesToWrite := min BlobSize OutBufferMaxSize
  match MemInst.getPointer 1 OutBufferPtr BytesToWrite with
  | none => ⟨.errno .InvalidArgument, env, some MemInst, []⟩
  | some OutBuffer =>
  if N.TfLiteTensorCopyToBuffer CxtRef.TFLiteInterp Index BytesToWrite = .kTfLiteOk then
    let mem1 := MemInst.writeBytes OutBuffer
      (copy_n (N.TfLiteOutputTensorData CxtRef.TFLiteInterp Index) BytesToWrite)
    writeBytesWritten env mem1 BytesWrittenPtr BytesToWrite
      [.call .TfLiteTensorCopyToBuffer, .toGuest BytesToWrite]
      [.call .TfLiteTensorCopyToBuffer, .toGuest BytesToWrite]
  else
    writeBytesWritten env MemInst BytesWrittenPtr BytesToWrite
      [.call .TfLiteTensorCopyToBuffer] [.call .TfLiteTensorCopyToBuffer]

/-- `WasiNNGetOuput::body` (lines 985-1209). -/
def WasiNNGetOuput.body (K : WASINN) (B : Build) (N : Native) (env : Env)
    (Frame : Option MemoryInstance)
    (Context Index OutBufferPtr OutBufferMaxSize BytesWrittenPtr : Nat) : Result :=
  match Frame with
  | none => ⟨.HostFuncError, env, none, []⟩
  | some MemInst =>
  -- `Env.NNContext.size() <= Context`, else `CxtRef` is `Env.NNContext[Context]`
  match env.NNContext[Context]? with
  | none => ⟨.errno .InvalidArgument, env, some MemInst, []⟩
  | some CxtRef =>
  match env.NNGraph[CxtRef.GraphRef]? with
  | none => ⟨.undefined, env, some MemInst, []⟩
  | some G =>
  if G.GraphBackend = K.OpenVINO then
    if B.OPENVINO then
      WasiNNGetOuput.OpenVINO N env MemInst CxtRef G Index OutBufferPtr OutBufferMaxSize
        BytesWrittenPtr
    else ⟨.errno .InvalidArgument, env, some MemInst, []⟩
  else if G.GraphBackend = K.PyTorch then
    if B.TORCH then
      WasiNNGetOuput.PyTorch N env MemInst CxtRef Index OutBufferPtr OutBufferMaxSize
        BytesWrittenPtr
    else ⟨.errno .InvalidArgument, env, some MemInst, []⟩
  else if G.GraphBackend = K.Tensorflow then
    if B.TF then
      WasiNNGetOuput.Tensorflow env MemInst CxtRef Index OutBufferPtr OutBufferMaxSize
        BytesWrittenPtr
    else ⟨.errno .InvalidArgument, env, some MemInst, []⟩
  else if G.GraphBackend = K.TensorflowLite then
    if B.TFLITE then
      WasiNNGetOuput.TensorflowLite N env MemInst CxtRef Index OutBufferPtr OutBufferMaxSize
        BytesWrittenPtr
    else ⟨.errno .InvalidArgument, env, some MemInst, []⟩
  else ⟨.errno .InvalidArgument, env, some MemInst, []⟩

/-! ## `WasiNNCompute::body` -/

/-- The PyTorch branch of `compute` (lines 1240-1267). -/
def WasiNNCompute.PyTorch (N : Native) (env : Env) (MemInst : MemoryInstance)
    (Context : Nat) (CxtRef : WasiNN.Context) (G : Graph) : Result :=
  if CxtRef.TorchInputs.length = 0 then ⟨.errno .InvalidArgument, env, some MemInst, []⟩ else
  if CxtRef.TorchInputs.any (fun InTensor => InTensor.isNone) then
    ⟨.errno .InvalidArgument, env, some MemInst, []⟩ else
  match N.torch_forward G.TorchModel CxtRef.TorchInputs with
  | .TensorList OutTensors =>
    ⟨.errno .Success,
      env.setContext Context { CxtRef with TorchOutputs := CxtRef.TorchOutputs ++ OutTensors },
      some MemInst, [.call .torch_forward]⟩
  | .Tensor OutTensor =>
    ⟨.errno .Success,
      env.setContext Context { CxtRef with TorchOutputs := CxtRef.TorchOutputs ++ [OutTensor] },
      some MemInst, [.call .torch_forward]⟩
  | .Other => ⟨.errno .InvalidArgument, env, some MemInst, [.call .torch_forward]⟩

/-- The Tensorflow branch of `compute` (lines 1292-1306).  `Run` receives
the address of `TFOutputTensors`: what it leaves there, on success and on
failure, is the engine's. -/
def WasiNNCompute.Tensorflow (N : Native) (env : Env) (MemInst : MemoryInstance)
    (Context : Nat) (CxtRef : WasiNN.Context) : Result :=
  match CxtRef.TFBundle with
  | none => ⟨.undefined, env, some MemInst, []⟩
  | some Bundle =>
  match N.session Bundle with
  | none => ⟨.errno .MissingMemory, env, some MemInst, []⟩
  | some TFSession =>
  let Run := N.Session_Run TFSession CxtRef.TFInputAlready CxtRef.TFOutputNames
    CxtRef.TFOutputTensors
  let env1 := env.setContext Context { CxtRef with TFOutputTensors := Run.2 }
  if Run.1 = false then ⟨.errno .Busy, env1, some MemInst, [.call .Session_Run]⟩ else
  ⟨.errno .Success, env1, some MemInst, [.call .Session_Run]⟩

/-- `WasiNNCompute::body` (lines 1211-1317). -/
def WasiNNCompute.body (K : WASINN) (B : Build) (N : Native) (env : Env)
    (Frame : Option MemoryInstance) (Context : Nat) : Result :=
  match Frame with
  | none => ⟨.HostFuncError, env, none, []⟩
  | some MemInst =>
  -- `Env.NNContext.size() <= Context`, else `CxtRef` is `Env.NNContext[Context]`
  match env.NNContext[Context]? with
  | none => ⟨.errno .InvalidArgument, env, some MemInst, []⟩
  | some CxtRef =>
  match env.NNGraph[CxtRef.GraphRef]? with
  | none => ⟨.undefined, env, some MemInst, []⟩
  | some G =>
  if G.GraphBackend = K.OpenVINO then
    if B.OPENVINO then
      if N.ie_infer_request_infer CxtRef.OpenVINOInferRequest ≠ .OK then
        ⟨.errno .Busy, env, some MemInst, [.call .ie_infer_request_infer]⟩
      else ⟨.errno .Success, env, some MemInst, [.call .ie_infer_request_infer]⟩
    else ⟨.errno .InvalidArgument, env, some MemInst, []⟩
  else if G.GraphBackend = K.PyTorch then
    if B.TORCH then WasiNNCompute.PyTorch N env MemInst Context CxtRef G
    else ⟨.errno .InvalidArgument, env, some MemInst, []⟩
  else if G.GraphBackend = K.TensorflowLite then
    if B.TFLITE then
      if CxtRef.TFLiteInterp = none then ⟨.errno .MissingMemory, env, some MemInst, []⟩ else
      if N.TfLiteInterpreterInvoke CxtRef.TFLiteInterp ≠ .kTfLiteOk then
        ⟨.errno .Busy, env, some MemInst, [.call .TfLiteInterpreterInvoke]⟩
      else ⟨.errno .Success, env, some MemInst, [.call .TfLiteInterpreterInvoke]⟩
    else ⟨.errno .InvalidArgument, env, some MemInst, []⟩
  else if G.GraphBackend = K.Tensorflow then
    if B.TF then WasiNNCompute.Tensorflow N env MemInst Context CxtRef
    else ⟨.errno .InvalidArgument, env, some MemInst, []⟩
  else ⟨.errno .InvalidArgument, env, some MemInst, []⟩

/-! ## A concrete world for evaluating the host functions -/

/-- The enumerator values of upstream WasmEdge: backends OpenVINO 0,
Tensorflow 2, PyTorch 3, TensorflowLite 4; tensor types F16 0, F32 1, U8 2,
I32 3, on an underlying type of 8 bits. -/
def upstream : WASINN :=
  { OpenVINO := 0, PyTorch := 3, TensorflowLite := 4, Tensorflow := 2,
    F32 := 1, F16 := 0, U8 := 2, I32 := 3, TensorTypeBits := 8 }

/-- A build with the four backends compiled in. -/
def allBackends : Build := { OPENVINO := true, TORCH := true, TF := true, TFLITE := true }

/-- A guest memory holding the bytes `l`: a region resolves when it lies
inside `l`. -/
def memoryOf (l : Bytes) : MemoryInstance :=
  { bytes := fun a => l.getD a 0,
    resolves := fun w Offset Count => decide (Offset + w * Count ≤ l.length) }

/-- Engines in which every call succeeds: an OpenVINO engine whose input
blob (handle 1) has 10 elements and whose output blob (handle 5) has 2, a
torch model that returns its first input, a Tensorflow session with one
declared input and output, a TFLite interpreter with one float input and one
8-byte output which, like the TFLite C API, refuses a copy whose size differs
from the byte size of the tensor. -/
def engine : Native :=
  { ie_blob_make_memory := fun _ _ => (.OK, some 1)
    ie_blob_get_buffer := fun _ => .OK
    ie_core_read_network_from_memory := fun _ _ _ _ => (.OK, some 2)
    ie_network_get_inputs_number := fun _ => (.OK, 1)
    ie_network_get_outputs_number := fun _ => (.OK, 1)
    ie_network_get_input_name := fun _ _ => (.OK, some [105])
    ie_network_get_output_name := fun _ _ => (.OK, some [111])
    ie_network_set_input_layout := fun _ _ => .OK
    ie_core_load_network := fun _ _ _ => (.OK, some 3)
    Context_ctor := fun _ => some 4
    ie_network_set_input_resize_algorithm := fun _ _ => .OK
    ie_network_set_input_precision := fun _ _ => .OK
    ie_blob_size := fun Blob => if Blob = some 1 then (.OK, 10) else (.OK, 2)
    ie_infer_request_set_blob := fun _ _ _ _ => .OK
    ie_network_set_output_precision := fun _ _ => .OK
    ie_infer_request_get_blob := fun _ _ => (.OK, some 5)
    ie_blob_get_cbuffer := fun _ => (.OK, [1, 2, 3, 4, 5, 6, 7, 8])
    ie_infer_request_infer := fun _ => .OK
    torch_jit_load := fun _ => some 6
    torch_forward := fun _ Inputs =>
      match Inputs with
      | some t :: _ => .Tensor t
      | _ => .Other
    torch_toType_Float32 := fun t => t.data
    TfLiteModelCreate := fun _ => some 7
    TfLiteInterpreterCreate := fun _ => some 8
    TfLiteInterpreterGetInputTensorCount := fun _ => 1
    TfLiteInputTensorType := fun _ _ => .kTfLiteFloat32
    TfLiteTensorCopyFromBuffer := fun _ _ _ => .kTfLiteOk
    TfLiteInterpreterGetOutputTensorCount := fun _ => 1
    TfLiteOutputTensorByteSize := fun _ _ => 8
    TfLiteOutputTensorData := fun _ _ => [1, 2, 3, 4, 5, 6, 7, 8]
    TfLiteTensorCopyToBuffer := fun _ _ n => if n = 8 then .kTfLiteOk else .kTfLiteError
    TfLiteInterpreterInvoke := fun _ => .kTfLiteOk
    create_directory := fun _ => true
    SavedModelFile_is_open := fun _ => true
    MaybeSavedModelDirectory := fun _ _ => true
    new_SavedModelBundle := some 9
    LoadSavedModel := fun _ _ _ _ => true
    signature_def := fun _ _ => some ([[105]], [[111]])
    TensorShape_AddDim := fun _ => true
    tensorflow_Tensor := fun _ _ => true
    session := fun _ => some 10
    Session_Run := fun _ _ _ _ => (true, [⟨.DT_FLOAT, [1, 10], List.replicate 40 0⟩])
    remove_all := fun _ => true }

/-- The empty registry, with an OpenVINO core. -/
def emptyEnv : Env := { NNGraph := [], NNContext := [], OpenVINOCore := some 0 }

/-- A guest memory for `load` with one builder: the graph id slot at 0, the
builder block (pointer 12, length 2) at 4, two model bytes at 12. -/
def loadMemory : MemoryInstance :=
  memoryOf [0, 0, 0, 0, 12, 0, 0, 0, 2, 0, 0, 0, 7, 7]

/-! ## Basic facts about the registry and guest memory -/

@[simp]
theorem Env.popGraph_emplaceGraph (env : Env) (g : Graph) :
    (env.emplaceGraph g).popGraph = env := by
  simp [Env.emplaceGraph, Env.popGraph]

@[simp]
theorem Env.setBackGraph_emplaceGraph (env : Env) (g g2 : Graph) :
    (env.emplaceGraph g).setBackGraph g2 = env.emplaceGraph g2 := by
  simp [Env.emplaceGraph, Env.setBackGraph]

@[simp]
theorem Env.popContext_emplaceContext (env : Env) (c : Context) :
    (env.emplaceContext c).popContext = env := by
  simp [Env.emplaceContext, Env.popContext]

@[simp]
theorem Env.setBackContext_emplaceContext (env : Env) (c c2 : Context) :
    (env.emplaceContext c).setBackContext c2 = env.emplaceContext c2 := by
  simp [Env.emplaceContext, Env.setBackContext]

@[simp]
theorem Env.NNGraph_emplaceGraph (env : Env) (g : Graph) :
    (env.emplaceGraph g).NNGraph = env.NNGraph ++ [g] := rfl

@[simp]
theorem Env.NNContext_emplaceGraph (env : Env) (g : Graph) :
    (env.emplaceGraph g).NNContext = env.NNContext := rfl

@[simp]
theorem Env.NNContext_emplaceContext (env : Env) (c : Context) :
    (env.emplaceContext c).NNContext = env.NNContext ++ [c] := rfl

@[simp]
theorem Env.NNGraph_emplaceContext (env : Env) (c : Context) :
    (env.emplaceContext c).NNGraph = env.NNGraph := rfl

theorem MemoryInstance.read32_write32 (m : MemoryInstance) (a v : Nat) (hv : v < 2 ^ 32) :
    (m.write32 a v).read32 a = v := by
  simp [MemoryInstance.read32, MemoryInstance.write32, MemoryInstance.writeBytes]
  omega

/-! ## Atomicity of `load` -/

/-- What every branch of `load` guarantees about its result.  The outcome is
a returned code, unless no temporary directory could be created (`noTmpDir`)
or `std::filesystem::remove_all` threw (`removeThrows`).  On `Success`
exactly one graph tagged `Encoding` is appended and its index stored at
`GraphId`; otherwise the environment and guest memory are as before, except
that an exception of `remove_all` can leave the new graph appended. -/
def LoadPost (env : Env) (MemInst : MemoryInstance) (Encoding GraphId : Nat)
    (noTmpDir removeThrows : Prop) (r : Result) : Prop :=
  ((∃ e, r.ret = .errno e) ∨ (r.ret = .raised ∧ (noTmpDir ∨ removeThrows))) ∧
  ((r.ret = .errno .Success ∧ ∃ g, g.GraphBackend = Encoding ∧
      r.env = env.emplaceGraph g ∧
      r.mem = some (MemInst.write32 GraphId (env.NNGraph.length % 2 ^ 32))) ∨
    (r.ret ≠ .errno .Success ∧ r.env = env ∧ r.mem = some MemInst) ∨
    (r.ret = .raised ∧ removeThrows ∧ ∃ g, g.GraphBackend = Encoding ∧
      r.env = env.emplaceGraph g ∧ r.mem = some MemInst))

theorem WasiNNLoad.load_OpenVINO_post (N : Native) (env : Env) (MemInst : MemoryInstance)
    (BuilderPtr BuilderLen Encoding GraphId : Nat) (DeviceName : Str) (P Q : Prop) :
    LoadPost env MemInst Encoding GraphId P Q
      (WasiNNLoad.OpenVINO N env MemInst BuilderPtr BuilderLen Encoding GraphId DeviceName) := by
  unfold WasiNNLoad.OpenVINO
  dsimp only
  repeat' split
  all_goals first
    | (simp [LoadPost]; done)
    | (simp [LoadPost]; exact ⟨_, rfl, rfl⟩)

theorem WasiNNLoad.load_PyTorch_post (N : Native) (env : Env) (MemInst : MemoryInstance)
    (BuilderPtr BuilderLen Encoding GraphId : Nat) (P Q : Prop) :
    LoadPost env MemInst Encoding GraphId P Q
      (WasiNNLoad.PyTorch N env MemInst BuilderPtr BuilderLen Encoding GraphId) := by
  unfold WasiNNLoad.PyTorch
  dsimp only
  repeat' split
  all_goals first
    | (simp [LoadPost]; done)
    | (simp [LoadPost]; exact ⟨_, rfl, rfl⟩)

theorem WasiNNLoad.load_TensorflowLite_post (N : Native) (env : Env) (MemInst : MemoryInstance)
    (BuilderPtr BuilderLen Encoding GraphId : Nat) (P Q : Prop) :
    LoadPost env MemInst Encoding GraphId P Q
      (WasiNNLoad.TensorflowLite N env MemInst BuilderPtr BuilderLen Encoding GraphId) := by
  unfold WasiNNLoad.TensorflowLite
  dsimp only
  repeat' split
  all_goals first
    | (simp [LoadPost]; done)
    | (simp [LoadPost]; exact ⟨_, rfl, rfl⟩)

theorem WasiNNLoad.load_Tensorflow_post (N : Native) (env : Env) (MemInst : MemoryInstance)
    (BuilderPtr BuilderLen Encoding GraphId : Nat) :
    LoadPost env MemInst Encoding GraphId (CreateTemporaryDirectory N = none)
      (∃ Dir, N.remove_all Dir = false)
      (WasiNNLoad.Tensorflow N env MemInst BuilderPtr BuilderLen Encoding GraphId) := by
  unfold WasiNNLoad.Tensorflow
  dsimp only
  repeat' split
  all_goals first
    | (simp [LoadPost]; done)
    | (simp [LoadPost]; exact ⟨_, rfl, rfl⟩)
    | (simp [LoadPost]; exact Or.inl (by assumption))
    | (simp [LoadPost]; exact Or.inr ⟨_, by assumption⟩)
    | (simp [LoadPost]
       exact ⟨Or.inr ⟨_, by assumption⟩, Or.inr ⟨⟨_, by assumption⟩, _, rfl, rfl⟩⟩)

theorem MemoryInstance.getPointer_eq_some (m : MemoryInstance) (w Offset Count p : Nat)
    (h : m.getPointer w Offset Count = some p) : p = Offset := by
  unfold MemoryInstance.getPointer at h
  split at h
  · exact (Option.some.inj h).symm
  · exact absurd h (by simp)

theorem WasiNNLoad.load_body_post (K : WASINN) (B : Build) (N : Native) (env : Env)
    (MemInst : MemoryInstance) (BuilderPtr BuilderLen Encoding Target GraphIdPtr : Nat) :
    LoadPost env MemInst Encoding GraphIdPtr (CreateTemporaryDirectory N = none)
      (∃ Dir, N.remove_all Dir = false)
      (WasiNNLoad.body K B N env (some MemInst) BuilderPtr BuilderLen Encoding Target
        GraphIdPtr) := by
  unfold WasiNNLoad.body
  dsimp only
  split
  · simp [LoadPost]
  · next GraphId hG =>
    have hp := MemoryInstance.getPointer_eq_some _ _ _ _ _ hG
    subst hp
    repeat' split
    all_goals first
      | (simp [LoadPost]; done)
      | apply WasiNNLoad.load_OpenVINO_post
      | apply WasiNNLoad.load_PyTorch_post
      | apply WasiNNLoad.load_TensorflowLite_post
      | apply WasiNNLoad.load_Tensorflow_post

/-- As long as `std::filesystem::remove_all` does not throw, `load` is atomic,
for every backend, every build, every guest memory and every behaviour of the
native engines: either it returns `Success` and the graph list is the old
list with exactly one entry appended, or the outcome is not `Success` and the
graph list is the old list; and the outcome is a returned code, except that
the Tensorflow branch lets the exception of `CreateTemporaryDirectory` pass. -/
theorem WasiNNLoad.load_atomic_unless_remove_all_throws (K : WASINN) (B : Build) (N : Native)
    (env : Env) (Frame : Option MemoryInstance)
    (BuilderPtr BuilderLen Encoding Target GraphIdPtr : Nat)
    (hrm : ∀ Dir, N.remove_all Dir = true) :
    let r := WasiNNLoad.body K B N env Frame BuilderPtr BuilderLen Encoding Target GraphIdPtr
    ((r.ret = .errno .Success ∧ ∃ g, r.env.NNGraph = env.NNGraph ++ [g]) ∨
      (r.ret ≠ .errno .Success ∧ r.env.NNGraph = env.NNGraph)) ∧
    (r.ret = .HostFuncError ∨ (∃ e, r.ret = .errno e) ∨
      (r.ret = .raised ∧ CreateTemporaryDirectory N = none)) := by
  intro r
  have hno : ¬ ∃ Dir, N.remove_all Dir = false := by
    rintro ⟨Dir, h⟩
    rw [hrm Dir] at h
    exact absurd h (by decide)
  cases Frame with
  | none => simp [r, WasiNNLoad.body]
  | some MemInst =>
    have h := WasiNNLoad.load_body_post K B N env MemInst BuilderPtr BuilderLen Encoding Target
      GraphIdPtr
    obtain ⟨h1, h2⟩ := h
    refine ⟨?_, Or.inr ?_⟩
    · rcases h2 with ⟨hs, g, -, he, -⟩ | ⟨hs, he, -⟩ | ⟨-, ht, -⟩
      · exact Or.inl ⟨hs, g, by rw [show r.env = _ from he]; rfl⟩
      · exact Or.inr ⟨hs, by rw [show r.env = _ from he]⟩
      · exact absurd ht hno
    · rcases h1 with h1 | ⟨hr, h1 | h1⟩
      · exact Or.inl h1
      · exact Or.inr ⟨hr, h1⟩
      · exact absurd h1 hno

/-- A guest memory for a Tensorflow `load`: the graph id slot at 0, the
builder block at 4 (model bytes at 28 with length 2, tag set at 30 with length
1, signature name at 31 with length 1), the bytes at 28. -/
def tensorflowLoadMemory : MemoryInstance :=
  memoryOf [0, 0, 0, 0, 28, 0, 0, 0, 2, 0, 0, 0, 30, 0, 0, 0, 1, 0, 0, 0, 31, 0, 0, 0,
    1, 0, 0, 0, 7, 7, 116, 115]

/-- The engines of `engine`, except that `std::filesystem::remove_all`
throws. -/
def engineRemoveAllThrows : Native := { engine with remove_all := fun _ => false }

/-- C1, the failing input. A Tensorflow `load` with three well-formed
builders, every engine call succeeding, in which
`std::filesystem::remove_all` of the temporary directory throws: the call
sits at line 500, after `Env.NNGraph.emplace_back` and outside any `try`, so
the exception leaves the body, no code is returned, nothing is stored at
`GraphIdPtr`, and the graph list has grown from 0 to 1 entry.  With
`remove_all` returning, the same call returns `Success`. -/
theorem load_tensorflow_remove_all_throws :
    emptyEnv.NNGraph.length = 0 ∧
    (WasiNNLoad.body upstream allBackends engineRemoveAllThrows emptyEnv
      (some tensorflowLoadMemory) 4 3 2 0 0).ret = .raised ∧
    (WasiNNLoad.body upstream allBackends engineRemoveAllThrows emptyEnv
      (some tensorflowLoadMemory) 4 3 2 0 0).env.NNGraph
      = [{ GraphBackend := 2, TFSignature := [115], TFBundle := some 9 }] ∧
    (WasiNNLoad.body upstream allBackends engineRemoveAllThrows emptyEnv
      (some tensorflowLoadMemory) 4 3 2 0 0).log
      = [.call .CreateTemporaryDirectory, .call .SavedModelFile_write, .call .LoadSavedModel,
          .call .remove_all] ∧
    (WasiNNLoad.body upstream allBackends engine emptyEnv
      (some tensorflowLoadMemory) 4 3 2 0 0).ret = .errno .Success ∧
    (WasiNNLoad.body upstream allBackends engine emptyEnv
      (some tensorflowLoadMemory) 4 3 2 0 0).env.NNGraph
      = [{ GraphBackend := 2, TFSignature := [115], TFBundle := some 9 }] := by
  decide

/-- C2. Whenever `load` returns `Success` on a registry whose size fits the
32-bit handle type, the word stored in guest memory at `GraphIdPtr` is the
number of graphs before the call, the graph list is the old list followed by
one new graph whose backend tag is the `Encoding` argument, and every graph
that existed before the call is still found at the same handle, unchanged. -/
theorem load_success_handle (K : WASINN) (B : Build) (N : Native) (env : Env)
    (Frame : Option MemoryInstance)
    (BuilderPtr BuilderLen Encoding Target GraphIdPtr : Nat)
    (hsize : env.NNGraph.length < 2 ^ 32)
    (hret : (WasiNNLoad.body K B N env Frame BuilderPtr BuilderLen Encoding Target
      GraphIdPtr).ret = .errno .Success) :
    let r := WasiNNLoad.body K B N env Frame BuilderPtr BuilderLen Encoding Target GraphIdPtr
    (∃ m0 m, Frame = some m0 ∧ r.mem = some m ∧
      m = m0.write32 GraphIdPtr env.NNGraph.length ∧
      m.read32 GraphIdPtr = env.NNGraph.length) ∧
    (∃ g, r.env.NNGraph = env.NNGraph ++ [g] ∧ g.GraphBackend = Encoding ∧
      r.env.NNGraph[env.NNGraph.length]? = some g) ∧
    (∀ (i : Nat) (g : Graph), env.NNGraph[i]? = some g → r.env.NNGraph[i]? = some g) := by
  intro r
  cases Frame with
  | none => simp [WasiNNLoad.body] at hret
  | some MemInst =>
    obtain ⟨-, h2⟩ := WasiNNLoad.load_body_post K B N env MemInst BuilderPtr BuilderLen Encoding
      Target GraphIdPtr
    rcases h2 with ⟨-, g, hg, he, hm⟩ | ⟨hs, -, -⟩ | ⟨hr, -, -⟩
    · have he2 : r.env.NNGraph = env.NNGraph ++ [g] := by rw [show r.env = _ from he]; rfl
      rw [Nat.mod_eq_of_lt hsize] at hm
      refine ⟨⟨MemInst, _, rfl, hm, rfl, MemoryInstance.read32_write32 _ _ _ hsize⟩,
        ⟨g, he2, hg, ?_⟩, ?_⟩
      · rw [he2]; simp
      · intro i g2 hi
        rw [he2]
        have hlt : i < env.NNGraph.length := (List.getElem?_eq_some_iff.mp hi).1
        rw [List.getElem?_append_left hlt]
        exact hi
    · exact absurd hret hs
    · rw [hret] at hr
      exact absurd hr (by simp)

theorem load_success_handle_witness :
    emptyEnv.NNGraph.length < 2 ^ 32 ∧
    (WasiNNLoad.body upstream allBackends engine emptyEnv (some loadMemory) 4 1 3 0 0).ret
      = .errno .Success ∧
    (let r := WasiNNLoad.body upstream allBackends engine emptyEnv (some loadMemory) 4 1 3 0 0
    (∃ m0 m, some loadMemory = some m0 ∧ r.mem = some m ∧
      m = m0.write32 0 emptyEnv.NNGraph.length ∧
      m.read32 0 = emptyEnv.NNGraph.length) ∧
    (∃ g, r.env.NNGraph = emptyEnv.NNGraph ++ [g] ∧ g.GraphBackend = 3 ∧
      r.env.NNGraph[emptyEnv.NNGraph.length]? = some g) ∧
    (∀ (i : Nat) (g : Graph), emptyEnv.NNGraph[i]? = some g → r.env.NNGraph[i]? = some g)) :=
  ⟨by decide, by decide,
    load_success_handle upstream allBackends engine emptyEnv (some loadMemory) 4 1 3 0 0
      (by decide) (by decide)⟩

/-! ## Context handles out of range -/

/-- C3. For every registry state and every context handle `h` that is at
least the number of contexts, `set_input`, `get_output` and `compute`, called
with guest memory present, return `InvalidArgument`, leave the environment
(graph list, context list with all bound inputs and outputs) and guest memory
as they were, and make no native call. -/
theorem context_handle_out_of_range (K : WASINN) (B : Build) (N : Native) (env : Env)
    (MemInst : MemoryInstance)
    (h Index TensorPtr OutBufferPtr OutBufferMaxSize BytesWrittenPtr : Nat)
    (hh : env.NNContext.length ≤ h) :
    WasiNNSetInput.body K B N env (some MemInst) h Index TensorPtr
      = ⟨.errno .InvalidArgument, env, some MemInst, []⟩ ∧
    WasiNNGetOuput.body K B N env (some MemInst) h Index OutBufferPtr OutBufferMaxSize
        BytesWrittenPtr
      = ⟨.errno .InvalidArgument, env, some MemInst, []⟩ ∧
    WasiNNCompute.body K B N env (some MemInst) h
      = ⟨.errno .InvalidArgument, env, some MemInst, []⟩ := by
  have hnone : env.NNContext[h]? = none := List.getElem?_eq_none hh
  refine ⟨?_, ?_, ?_⟩
  · simp [WasiNNSetInput.body, hnone]
  · simp [WasiNNGetOuput.body, hnone]
  · simp [WasiNNCompute.body, hnone]

theorem context_handle_out_of_range_witness :
    emptyEnv.NNContext.length ≤ 0 ∧
    (WasiNNSetInput.body upstream allBackends engine emptyEnv (some loadMemory) 0 0 0
      = ⟨.errno .InvalidArgument, emptyEnv, some loadMemory, []⟩ ∧
    WasiNNGetOuput.body upstream allBackends engine emptyEnv (some loadMemory) 0 0 0 4 8
      = ⟨.errno .InvalidArgument, emptyEnv, some loadMemory, []⟩ ∧
    WasiNNCompute.body upstream allBackends engine emptyEnv (some loadMemory) 0
      = ⟨.errno .InvalidArgument, emptyEnv, some loadMemory, []⟩) :=
  ⟨by decide,
    context_handle_out_of_range upstream allBackends engine emptyEnv loadMemory 0 0 0 0 4 8
      (by decide)⟩

/-! ## `init_execution_context` -/

/-- What `init_execution_context` guarantees about its result, with guest
memory present: on `Success` exactly one context bound to `GraphId` is
appended and its index stored at `ContextPtr`; a returned error code leaves
the environment and guest memory as before; the one exception
(`signature_def().at`) is raised by the Tensorflow branch. -/
def InitPost (env : Env) (MemInst : MemoryInstance) (GraphId ContextPtr : Nat)
    (r : Result) : Prop :=
  (r.ret = .errno .Success ∧ GraphId < env.NNGraph.length ∧
    ∃ c, c.GraphRef = GraphId ∧ r.env = env.emplaceContext c ∧
      r.mem = some (MemInst.write32 ContextPtr (env.NNContext.length % 2 ^ 32))) ∨
  ((∃ e, e ≠ .Success ∧ r.ret = .errno e) ∧ r.env = env ∧ r.mem = some MemInst) ∨
  (r.ret = .raised ∧ ∃ c, r.env = env.emplaceContext c)

theorem WasiNNInitExecCtx.init_body_post (K : WASINN) (B : Build) (N : Native) (env : Env)
    (MemInst : MemoryInstance) (GraphId ContextPtr : Nat) :
    InitPost env MemInst GraphId ContextPtr
      (WasiNNInitExecCtx.body K B N env (some MemInst) GraphId ContextPtr) := by
  unfold WasiNNInitExecCtx.body
  dsimp only
  split
  · simp [InitPost]
  · next G hG =>
    have hlt : GraphId < env.NNGraph.length := (List.getElem?_eq_some_iff.mp hG).1
    split
    · simp [InitPost]
    · next Context hC =>
      have hp := MemoryInstance.getPointer_eq_some _ _ _ _ _ hC
      subst hp
      repeat' split
      all_goals first
        | (simp [InitPost]; done)
        | (simp [InitPost, hlt]; exact ⟨_, rfl, rfl⟩)

/-- C4. With guest memory present and a context registry whose size fits the
32-bit handle type: `init_execution_context` with `GraphId` at least the
number of graphs returns `InvalidArgument` and changes nothing; and whenever
it returns `Success`, the word stored at `ContextPtr` is the number of
contexts before the call, the context list is the old list followed by
exactly one new context whose graph reference is `GraphId` (an existing
graph), the graph list is unchanged and every earlier context is found
unchanged at its handle. -/
theorem init_execution_context_handle (K : WASINN) (B : Build) (N : Native) (env : Env)
    (MemInst : MemoryInstance) (GraphId ContextPtr : Nat)
    (hsize : env.NNContext.length < 2 ^ 32) :
    let r := WasiNNInitExecCtx.body K B N env (some MemInst) GraphId ContextPtr
    (env.NNGraph.length ≤ GraphId →
      r.ret = .errno .InvalidArgument ∧ r.env = env ∧ r.mem = some MemInst) ∧
    (r.ret = .errno .Success →
      r.mem = some (MemInst.write32 ContextPtr env.NNContext.length) ∧
      (MemInst.write32 ContextPtr env.NNContext.length).read32 ContextPtr
        = env.NNContext.length ∧
      (∃ c, r.env.NNContext = env.NNContext ++ [c] ∧ c.GraphRef = GraphId ∧
        GraphId < env.NNGraph.length) ∧
      r.env.NNGraph = env.NNGraph ∧
      (∀ (i : Nat) (c : Context), env.NNContext[i]? = some c →
        r.env.NNContext[i]? = some c)) := by
  intro r
  constructor
  · intro hge
    have hnone : env.NNGraph[GraphId]? = none := List.getElem?_eq_none hge
    simp [r, WasiNNInitExecCtx.body, hnone]
  · intro hret
    rcases WasiNNInitExecCtx.init_body_post K B N env MemInst GraphId ContextPtr with
      ⟨-, hlt, c, hc, he, hm⟩ | ⟨⟨e, hne, hee⟩, -, -⟩ | ⟨hr, -⟩
    · have he2 : r.env.NNContext = env.NNContext ++ [c] := by
        rw [show r.env = _ from he]; rfl
      have he3 : r.env.NNGraph = env.NNGraph := by rw [show r.env = _ from he]; rfl
      rw [Nat.mod_eq_of_lt hsize] at hm
      refine ⟨hm, MemoryInstance.read32_write32 _ _ _ hsize, ⟨c, he2, hc, hlt⟩, he3, ?_⟩
      intro i c2 hi
      rw [he2]
      have hlt2 : i < env.NNContext.length := (List.getElem?_eq_some_iff.mp hi).1
      rw [List.getElem?_append_left hlt2]
      exact hi
    · rw [show r.ret = _ from hee] at hret
      exact absurd (Outcome.errno.inj hret) hne
    · rw [show r.ret = _ from hr] at hret
      exact absurd hret (by simp)

/-- A registry holding one PyTorch graph and no context. -/
def oneTorchGraph : Env :=
  { NNGraph := [{ GraphBackend := 3, TorchModel := some 6 }], NNContext := [],
    OpenVINOCore := some 0 }

theorem init_execution_context_handle_witness :
    oneTorchGraph.NNContext.length < 2 ^ 32 ∧
    (WasiNNInitExecCtx.body upstream allBackends engine oneTorchGraph (some loadMemory) 0 0).ret
      = .errno .Success ∧
    (let r := WasiNNInitExecCtx.body upstream allBackends engine oneTorchGraph
      (some loadMemory) 0 0
    (oneTorchGraph.NNGraph.length ≤ 0 →
      r.ret = .errno .InvalidArgument ∧ r.env = oneTorchGraph ∧ r.mem = some loadMemory) ∧
    (r.ret = .errno .Success →
      r.mem = some (loadMemory.write32 0 oneTorchGraph.NNContext.length) ∧
      (loadMemory.write32 0 oneTorchGraph.NNContext.length).read32 0
        = oneTorchGraph.NNContext.length ∧
      (∃ c, r.env.NNContext = oneTorchGraph.NNContext ++ [c] ∧ c.GraphRef = 0 ∧
        0 < oneTorchGraph.NNGraph.length) ∧
      r.env.NNGraph = oneTorchGraph.NNGraph ∧
      (∀ (i : Nat) (c : Context), oneTorchGraph.NNContext[i]? = some c →
        r.env.NNContext[i]? = some c))) :=
  ⟨by decide, by decide,
    init_execution_context_handle upstream allBackends engine oneTorchGraph loadMemory 0 0
      (by decide)⟩

/-- C5. For every backend, every build and every behaviour of the engines:
whenever `init_execution_context` returns a code other than `Success` (a
wasi-nn error code, or the host-function error), the environment after the
call, and with it the context list, is the one before the call: a context
appended before a failing construction step has been popped. -/
theorem init_execution_context_rollback (K : WASINN) (B : Build) (N : Native) (env : Env)
    (Frame : Option MemoryInstance) (GraphId ContextPtr : Nat) (e : ErrNo)
    (hret : (WasiNNInitExecCtx.body K B N env Frame GraphId ContextPtr).ret = .HostFuncError ∨
      (e ≠ .Success ∧
        (WasiNNInitExecCtx.body K B N env Frame GraphId ContextPtr).ret = .errno e)) :
    (WasiNNInitExecCtx.body K B N env Frame GraphId ContextPtr).env.NNContext = env.NNContext ∧
    (WasiNNInitExecCtx.body K B N env Frame GraphId ContextPtr).env = env := by
  cases Frame with
  | none => simp [WasiNNInitExecCtx.body]
  | some MemInst =>
    rcases WasiNNInitExecCtx.init_body_post K B N env MemInst GraphId ContextPtr with
      ⟨hs, -⟩ | ⟨-, he, -⟩ | ⟨hr, -⟩
    · rcases hret with h | ⟨hne, h⟩
      · rw [hs] at h; exact absurd h (by simp)
      · rw [hs] at h; exact absurd (Outcome.errno.inj h).symm hne
    · exact ⟨by rw [he], he⟩
    · rcases hret with h | ⟨-, h⟩
      · rw [hr] at h; exact absurd h (by simp)
      · rw [hr] at h; exact absurd h (by simp)

/-- A registry holding one Tensorflow graph whose bundle is missing. -/
def oneTensorflowGraphNoBundle : Env :=
  { NNGraph := [{ GraphBackend := 2 }], NNContext := [], OpenVINOCore := none }

theorem init_execution_context_rollback_witness :
    ((WasiNNInitExecCtx.body upstream allBackends engine oneTensorflowGraphNoBundle
        (some loadMemory) 0 0).ret = .HostFuncError ∨
      (ErrNo.Busy ≠ .Success ∧
        (WasiNNInitExecCtx.body upstream allBackends engine oneTensorflowGraphNoBundle
          (some loadMemory) 0 0).ret = .errno .Busy)) ∧
    ((WasiNNInitExecCtx.body upstream allBackends engine oneTensorflowGraphNoBundle
        (some loadMemory) 0 0).env.NNContext = oneTensorflowGraphNoBundle.NNContext ∧
      (WasiNNInitExecCtx.body upstream allBackends engine oneTensorflowGraphNoBundle
        (some loadMemory) 0 0).env = oneTensorflowGraphNoBundle) :=
  ⟨Or.inr ⟨by decide, by decide⟩,
    init_execution_context_rollback upstream allBackends engine oneTensorflowGraphNoBundle
      (some loadMemory) 0 0 .Busy (Or.inr ⟨by decide, by decide⟩)⟩

/-! ## `set_input` and the element type -/

/-- A registry with one Tensorflow graph and one context on it that has one
declared input slot, still holding the empty placeholder tensor. -/
def oneTensorflowContext : Env :=
  { NNGraph := [{ GraphBackend := 2, TFBundle := some 9 }],
    NNContext := [{ GraphRef := 0, TFBundle := some 9, TFInputNames := [[105]],
                    TFOutputNames := [[111]], TFInputAlready := [([105], Tensor.empty)] }],
    OpenVINOCore := none }

/-- Writing back the context that is already at index `I` changes nothing. -/
theorem Env.setContext_self (env : Env) (I : Nat) (c : Context)
    (h : env.NNContext[I]? = some c) : env.setContext I c = env := by
  have hl : env.NNContext.set I c = env.NNContext := by
    apply List.ext_getElem?
    intro j
    by_cases hj : I = j
    · subst hj
      have hlt : I < env.NNContext.length := (List.getElem?_eq_some_iff.mp h).1
      rw [List.getElem?_set_self hlt, h]
    · rw [List.getElem?_set_ne hj]
  cases env
  simp only [Env.setContext] at hl ⊢
  rw [hl]

/-- A returned error code leaves the environment as it was. -/
def ErrKeepsEnv (env : Env) (r : Result) : Prop :=
  ∀ e, e ≠ .Success → r.ret = .errno e → r.env = env

/-- A registry with one loaded OpenVINO graph (one input, one output) and one
context on it. -/
def oneOpenVINOContext : Env :=
  { NNGraph := [{ GraphBackend := 0, OpenVINONetwork := some 2, OpenVINOExecNetwork := some 3,
                  OpenVINOWeightBlob := some 1, OpenVINOInputNames := [some [105]],
                  OpenVINOOutputNames := [some [111]] }],
    NNContext := [{ GraphRef := 0, OpenVINOInferRequest := some 4 }],
    OpenVINOCore := some 0 }

/-- A registry with one TensorflowLite graph and one context on it. -/
def oneTFLiteContext : Env :=
  { NNGraph := [{ GraphBackend := 4, TFLiteMod := some 7 }],
    NNContext := [{ GraphRef := 0, TFLiteInterp := some 8 }],
    OpenVINOCore := none }

/-- A guest memory for `set_input`: the descriptor of `rowTensorMemory`
(shape `[1, 1]`, four data bytes at 28) with the tag word 257, whose low
byte is 1 = F32. -/
def tagWord257TensorMemory : MemoryInstance :=
  memoryOf [20, 0, 0, 0, 2, 0, 0, 0, 1, 1, 0, 0, 28, 0, 0, 0, 4, 0, 0, 0,
    1, 0, 0, 0, 1, 0, 0, 0, 11, 12, 13, 14]

/-- The tag word of the descriptor is converted to `TensorType` before it is
compared: with the 8-bit enumeration of upstream, the word 257 is F32, and
`set_input` on a PyTorch context returns `Success`. -/
theorem set_input_tag_word_is_converted :
    tagWord257TensorMemory.word 0 2 = 257 ∧
    castTensorType upstream 257 = upstream.F32 ∧
    (WasiNNSetInput.body upstream allBackends engine
      { NNGraph := [{ GraphBackend := 3, TorchModel := some 6 }],
        NNContext := [{ GraphRef := 0 }], OpenVINOCore := none }
      (some tagWord257TensorMemory) 0 0 0).ret = .errno .Success := by
  decide

/-! ## `get_output`: the reported byte count -/

/-- A guest memory for `get_output`: a 4-byte output buffer at 0 holding
9, 9, 9, 9 and the bytes-written slot at 4. -/
def outputMemory : MemoryInstance := memoryOf [9, 9, 9, 9, 0, 0, 0, 0]

/-- C7, the failing input. On a TensorflowLite context whose output tensor 0
holds 8 bytes, `get_output` with `OutBufferMaxSize = 4` returns `Success` and
stores 4 at `BytesWrittenPtr`, although `TfLiteTensorCopyToBuffer` refused the
4-byte copy: no byte went into the guest output buffer, which still holds
9, 9, 9, 9. -/
theorem get_output_tflite_truncated_copy :
    (WasiNNGetOuput.body upstream allBackends engine oneTFLiteContext
      (some outputMemory) 0 0 0 4 4).ret = .errno .Success ∧
    (WasiNNGetOuput.body upstream allBackends engine oneTFLiteContext
      (some outputMemory) 0 0 0 4 4).mem.map (fun m => m.read32 4) = some 4 ∧
    (WasiNNGetOuput.body upstream allBackends engine oneTFLiteContext
      (some outputMemory) 0 0 0 4 4).log = [.call .TfLiteTensorCopyToBuffer] ∧
    (WasiNNGetOuput.body upstream allBackends engine oneTFLiteContext
      (some outputMemory) 0 0 0 4 4).mem.map (fun m => m.readBytes 0 4) = some [9, 9, 9, 9] ∧
    engine.TfLiteTensorCopyToBuffer (some 8) 0 4 = .kTfLiteError := by
  decide

/-- What every branch of `get_output` guarantees when it returns `Success`:
the count `k` stored at `BytesWrittenPtr` is at most `OutBufferMaxSize`, and
`k` bytes were stored into the guest output buffer, unless the branch is the
TensorflowLite one and the engine refused the copy. -/
def GetOutputPost (OutBufferMaxSize BytesWrittenPtr : Nat) (r : Result) : Prop :=
  r.ret = .errno .Success →
    ∃ k mem1, k ≤ OutBufferMaxSize ∧ r.mem = some (MemoryInstance.write32 mem1 BytesWrittenPtr k) ∧
      (Event.toGuest k ∈ r.log ∨ r.log = [.call .TfLiteTensorCopyToBuffer])

theorem writeBytesWritten_post (env : Env) (mem1 : MemoryInstance)
    (BytesWrittenPtr BytesToWrite OutBufferMaxSize : Nat) (logErr logOk : List Event)
    (hk : BytesToWrite ≤ OutBufferMaxSize)
    (hlog : Event.toGuest BytesToWrite ∈ logOk ∨ logOk = [.call .TfLiteTensorCopyToBuffer]) :
    GetOutputPost OutBufferMaxSize BytesWrittenPtr
      (writeBytesWritten env mem1 BytesWrittenPtr BytesToWrite logErr logOk) := by
  unfold writeBytesWritten
  split
  · intro h; simp at h
  · next p hp =>
    have := MemoryInstance.getPointer_eq_some _ _ _ _ _ hp
    subst this
    intro _
    exact ⟨BytesToWrite, mem1, hk, rfl, hlog⟩

theorem WasiNNGetOuput.get_output_OpenVINO_post (N : Native) (env : Env)
    (MemInst : MemoryInstance) (CxtRef : Context) (G : Graph)
    (Index OutBufferPtr OutBufferMaxSize BytesWrittenPtr : Nat) :
    GetOutputPost OutBufferMaxSize BytesWrittenPtr
      (WasiNNGetOuput.OpenVINO N env MemInst CxtRef G Index OutBufferPtr OutBufferMaxSize
        BytesWrittenPtr) := by
  unfold WasiNNGetOuput.OpenVINO
  dsimp only
  repeat' split
  all_goals first
    | (intro h; simp at h; done)
    | (apply writeBytesWritten_post
       · exact Nat.min_le_right _ _
       · simp)

theorem WasiNNGetOuput.get_output_PyTorch_post (N : Native) (env : Env)
    (MemInst : MemoryInstance) (CxtRef : Context)
    (Index OutBufferPtr OutBufferMaxSize BytesWrittenPtr : Nat) :
    GetOutputPost OutBufferMaxSize BytesWrittenPtr
      (WasiNNGetOuput.PyTorch N env MemInst CxtRef Index OutBufferPtr OutBufferMaxSize
        BytesWrittenPtr) := by
  unfold WasiNNGetOuput.PyTorch
  dsimp only
  repeat' split
  all_goals first
    | (intro h; simp at h; done)
    | (apply writeBytesWritten_post
       · exact Nat.min_le_right _ _
       · simp)

theorem WasiNNGetOuput.get_output_Tensorflow_post (env : Env)
    (MemInst : MemoryInstance) (CxtRef : Context)
    (Index OutBufferPtr OutBufferMaxSize BytesWrittenPtr : Nat) :
    GetOutputPost OutBufferMaxSize BytesWrittenPtr
      (WasiNNGetOuput.Tensorflow env MemInst CxtRef Index OutBufferPtr OutBufferMaxSize
        BytesWrittenPtr) := by
  unfold WasiNNGetOuput.Tensorflow
  dsimp only
  repeat' split
  all_goals first
    | (intro h; simp at h; done)
    | (apply writeBytesWritten_post
       · exact Nat.min_le_right _ _
       · simp)

theorem WasiNNGetOuput.get_output_TensorflowLite_post (N : Native) (env : Env)
    (MemInst : MemoryInstance) (CxtRef : Context)
    (Index OutBufferPtr OutBufferMaxSize BytesWrittenPtr : Nat) :
    GetOutputPost OutBufferMaxSize BytesWrittenPtr
      (WasiNNGetOuput.TensorflowLite N env MemInst CxtRef Index OutBufferPtr OutBufferMaxSize
        BytesWrittenPtr) := by
  unfold WasiNNGetOuput.TensorflowLite
  dsimp only
  repeat' split
  all_goals first
    | (intro h; simp at h; done)
    | (apply writeBytesWritten_post
       · exact Nat.min_le_right _ _
       · simp)

/-- On every backend, a `get_output` that returns `Success` stores a count of
at most `OutBufferMaxSize`, the number of bytes it put into the guest output
buffer unless the TensorflowLite engine refused the copy. -/
theorem get_output_post (K : WASINN) (B : Build) (N : Native) (env : Env)
    (Frame : Option MemoryInstance)
    (Context Index OutBufferPtr OutBufferMaxSize BytesWrittenPtr : Nat) :
    GetOutputPost OutBufferMaxSize BytesWrittenPtr
      (WasiNNGetOuput.body K B N env Frame Context Index OutBufferPtr OutBufferMaxSize
        BytesWrittenPtr) := by
  unfold WasiNNGetOuput.body
  repeat' split
  all_goals first
    | (intro h; simp at h)
    | apply WasiNNGetOuput.get_output_OpenVINO_post
    | apply WasiNNGetOuput.get_output_PyTorch_post
    | apply WasiNNGetOuput.get_output_Tensorflow_post
    | apply WasiNNGetOuput.get_output_TensorflowLite_post

/-- A registry with one PyTorch graph and one context on it whose only output
is a float tensor of `2 ^ 30` elements (`2 ^ 32` bytes). -/
def hugeTorchOutput : Env :=
  { NNGraph := [{ GraphBackend := 3, TorchModel := some 6 }],
    NNContext := [{ GraphRef := 0,
                    TorchOutputs := [⟨.DT_FLOAT, [2 ^ 30], List.replicate (2 ^ 32) 0⟩] }],
    OpenVINOCore := none }

/-- A guest memory for `get_output`: a 16-byte output buffer at 0 and the
bytes-written slot at 16, holding 7. -/
def outputMemory16 : MemoryInstance :=
  memoryOf [0, 0, 0, 0, 0, 0, 0, 0, 0, 0, 0, 0, 0, 0, 0, 0, 7, 0, 0, 0]

/-- C8, the failing input. On a PyTorch context whose output 0 has `2 ^ 30`
float elements, the exact native size is `2 ^ 32` bytes, larger than
`OutBufferMaxSize = 16`; both guest pointers resolve and `get_output` returns
`Success`, but the byte count it stores is 0, not 16:
`static_cast<uint32_t>(BlobSize * 4)` is 0. -/
theorem get_output_truncating_cast :
    outputMemory16.getPointer 1 0 16 = some 0 ∧
    outputMemory16.getPointer 4 16 1 = some 16 ∧
    (16 < [2 ^ 30].prod * 4 ∧ min ([2 ^ 30].prod * 4) 16 = 16) ∧
    (WasiNNGetOuput.body upstream allBackends engine hugeTorchOutput
      (some outputMemory16) 0 0 0 16 16).ret = .errno .Success ∧
    (WasiNNGetOuput.body upstream allBackends engine hugeTorchOutput
      (some outputMemory16) 0 0 0 16 16).mem.map (fun m => m.read32 16) = some 0 ∧
    (WasiNNGetOuput.body upstream allBackends engine hugeTorchOutput
      (some outputMemory16) 0 0 0 16 16).log = [.toGuest 0] := by
  decide

/-! ## `compute` and unbound inputs -/

/-- The engines of `engine`, except that `Session::Run` fails and leaves the
vector of outputs as it was. -/
def engineRunFails : Native :=
  { engine with Session_Run := fun _ _ _ Outputs => (false, Outputs) }

/-- C9, counterexample. On a Tensorflow context whose only declared input
slot still holds the empty placeholder tensor, `compute` makes no check of the
slots and returns what `Session::Run` reports: `Busy` when the run fails,
`Success` when it succeeds; never `InvalidArgument`. -/
theorem compute_tensorflow_unchecked_slots :
    oneTensorflowContext.NNContext.map (fun c => c.TFInputAlready)
      = [[([105], Tensor.empty)]] ∧
    (WasiNNCompute.body upstream allBackends engineRunFails oneTensorflowContext
      (some outputMemory) 0).ret = .errno .Busy ∧
    (WasiNNCompute.body upstream allBackends engine oneTensorflowContext
      (some outputMemory) 0).ret = .errno .Success := by
  decide

theorem WasiNNCompute.compute_PyTorch_unbound (N : Native) (env : Env) (MemInst : MemoryInstance)
    (Context : Nat) (CxtRef : WasiNN.Context) (G : Graph)
    (h : CxtRef.TorchInputs = [] ∨ none ∈ CxtRef.TorchInputs) :
    WasiNNCompute.PyTorch N env MemInst Context CxtRef G
      = ⟨.errno .InvalidArgument, env, some MemInst, []⟩ := by
  unfold WasiNNCompute.PyTorch
  rcases h with h | h
  · simp [h]
  · split
    · rfl
    · have hany : CxtRef.TorchInputs.any (fun InTensor => InTensor.isNone) = true :=
        List.any_eq_true.mpr ⟨none, h, rfl⟩
      simp [hany]

theorem WasiNNCompute.compute_PyTorch_err (N : Native) (env : Env) (MemInst : MemoryInstance)
    (Context : Nat) (CxtRef : WasiNN.Context) (G : Graph) :
    ErrKeepsEnv env (WasiNNCompute.PyTorch N env MemInst Context CxtRef G) := by
  unfold WasiNNCompute.PyTorch
  repeat' split
  all_goals
    intro e h1 h2
    first
      | rfl
      | (simp at h2; exact absurd h2.symm h1)

/-- The Tensorflow branch of `compute` never returns `InvalidArgument`. -/
theorem WasiNNCompute.compute_Tensorflow_ret (N : Native) (env : Env) (MemInst : MemoryInstance)
    (Context : Nat) (CxtRef : WasiNN.Context) :
    (WasiNNCompute.Tensorflow N env MemInst Context CxtRef).ret ≠ .errno .InvalidArgument := by
  unfold WasiNNCompute.Tensorflow
  dsimp only
  repeat' split
  all_goals simp

/-- The Tensorflow branch of `compute` does not touch the list of outputs
itself: it hands the list to `Session::Run`.  With an engine whose failing
run leaves that vector as it was, a returned error code leaves the
environment as it was. -/
theorem WasiNNCompute.compute_Tensorflow_err (N : Native) (env : Env)
    (MemInst : MemoryInstance) (Context : Nat) (CxtRef : WasiNN.Context)
    (hC : env.NNContext[Context]? = some CxtRef)
    (hRun : ∀ Session Inputs Names Outputs,
      (N.Session_Run Session Inputs Names Outputs).1 = false →
      (N.Session_Run Session Inputs Names Outputs).2 = Outputs) :
    ErrKeepsEnv env (WasiNNCompute.Tensorflow N env MemInst Context CxtRef) := by
  unfold WasiNNCompute.Tensorflow
  dsimp only
  split
  · intro e _ h; simp at h
  split
  · intro e _ _; rfl
  next Bundle _ TFSession _ =>
  split
  · next hfail =>
    intro e _ _
    show env.setContext Context _ = env
    rw [hRun _ _ _ _ hfail]
    exact Env.setContext_self env Context CxtRef hC
  · intro e hne h
    simp at h
    exact absurd h.symm hne

/-- Whatever the status of `Session::Run` is, the list of outputs of the
context after the Tensorflow branch of `compute` is the vector as the run
left it. -/
theorem WasiNNCompute.compute_Tensorflow_outputs (N : Native) (env : Env)
    (MemInst : MemoryInstance) (Context : Nat) (CxtRef : WasiNN.Context)
    (Bundle TFSession : Handle)
    (hB : CxtRef.TFBundle = some Bundle) (hS : N.session Bundle = some TFSession) :
    (WasiNNCompute.Tensorflow N env MemInst Context CxtRef).env
      = env.setContext Context
          { CxtRef with TFOutputTensors :=
              (N.Session_Run TFSession CxtRef.TFInputAlready CxtRef.TFOutputNames
                CxtRef.TFOutputTensors).2 } := by
  simp only [WasiNNCompute.Tensorflow, hB, hS]
  split <;> rfl

/-- C9, amended. With guest memory present, on an existing context.  The
PyTorch branch returns `InvalidArgument` without calling the model and
changes nothing when the input list is empty or holds an unbound slot.
Whenever `compute` returns a code other than `Success`, the environment,
hence the list of outputs of the context, is as it was: on the PyTorch
branch always; on the Tensorflow branch, whose code hands the list to
`Session::Run` and does not touch it otherwise, provided a failing run
leaves the vector it is handed as it was. -/
theorem compute_unbound_input (K : WASINN) (B : Build) (N : Native) (env : Env)
    (MemInst : MemoryInstance) (Context : Nat) (CxtRef : WasiNN.Context) (G : Graph)
    (hC : env.NNContext[Context]? = some CxtRef)
    (hG : env.NNGraph[CxtRef.GraphRef]? = some G) :
    let r := WasiNNCompute.body K B N env (some MemInst) Context
    (G.GraphBackend ≠ K.OpenVINO → G.GraphBackend = K.PyTorch → B.TORCH = true →
      (CxtRef.TorchInputs = [] ∨ none ∈ CxtRef.TorchInputs) →
      r.ret = .errno .InvalidArgument ∧ r.env = env ∧ r.log = []) ∧
    (G.GraphBackend ≠ K.OpenVINO → G.GraphBackend = K.PyTorch →
      ∀ e, e ≠ .Success → r.ret = .errno e → r.env = env) ∧
    (G.GraphBackend ≠ K.OpenVINO → G.GraphBackend ≠ K.PyTorch →
      G.GraphBackend ≠ K.TensorflowLite → G.GraphBackend = K.Tensorflow →
      (∀ Session Inputs Names Outputs,
        (N.Session_Run Session Inputs Names Outputs).1 = false →
        (N.Session_Run Session Inputs Names Outputs).2 = Outputs) →
      ∀ e, e ≠ .Success → r.ret = .errno e → r.env = env) := by
  intro r
  have hr : r = WasiNNCompute.body K B N env (some MemInst) Context := rfl
  simp only [WasiNNCompute.body, hC, hG] at hr
  refine ⟨?_, ?_, ?_⟩
  · intro hO hP hB hU
    rw [if_neg hO, if_pos hP] at hr
    simp only [hB, if_true] at hr
    rw [hr, WasiNNCompute.compute_PyTorch_unbound N env MemInst Context CxtRef G hU]
    exact ⟨rfl, rfl, rfl⟩
  · intro hO hP e hne hret
    rw [if_neg hO, if_pos hP] at hr
    cases hB : B.TORCH
    · simp [hB] at hr; simp [hr]
    · simp only [hB, if_true] at hr
      rw [hr] at hret ⊢
      exact WasiNNCompute.compute_PyTorch_err N env MemInst Context CxtRef G e hne hret
  · intro hO hP hL hT hRun e hne hret
    rw [if_neg hO, if_neg hP, if_neg hL, if_pos hT] at hr
    cases hB : B.TF
    · simp [hB] at hr; simp [hr]
    · simp only [hB, if_true] at hr
      rw [hr] at hret ⊢
      exact WasiNNCompute.compute_Tensorflow_err N env MemInst Context CxtRef hC hRun e hne hret

/-- A registry with one PyTorch graph and one context on it whose input list
has slot 0 unbound and slot 1 bound. -/
def torchUnboundSlot : Env :=
  { NNGraph := [{ GraphBackend := 3, TorchModel := some 6 }],
    NNContext := [{ GraphRef := 0,
                    TorchInputs := [none, some ⟨.DT_FLOAT, [1], [0, 0, 0, 0]⟩] }],
    OpenVINOCore := none }

/-- A registry with one Tensorflow graph and one context on it that holds one
computed output, a float tensor of shape `[1, 10]`. -/
def tensorflowComputed : Env :=
  { NNGraph := [{ GraphBackend := 2, TFBundle := some 9 }],
    NNContext := [{ GraphRef := 0, TFBundle := some 9, TFInputNames := [[105]],
                    TFOutputNames := [[111]], TFInputAlready := [([105], Tensor.empty)],
                    TFOutputTensors := [⟨.DT_FLOAT, [1, 10], List.replicate 40 0⟩] }],
    OpenVINOCore := none }

theorem compute_unbound_input_witness :
    (torchUnboundSlot.NNContext[0]?
      = some { GraphRef := 0, TorchInputs := [none, some ⟨.DT_FLOAT, [1], [0, 0, 0, 0]⟩] } ∧
      (WasiNNCompute.body upstream allBackends engine torchUnboundSlot (some outputMemory) 0).ret
        = .errno .InvalidArgument ∧
      (WasiNNCompute.body upstream allBackends engine torchUnboundSlot (some outputMemory) 0).env
        = torchUnboundSlot) ∧
    ((WasiNNCompute.body upstream allBackends engineRunFails tensorflowComputed
        (some outputMemory) 0).ret = .errno .Busy ∧
      (WasiNNCompute.body upstream allBackends engineRunFails tensorflowComputed
        (some outputMemory) 0).env = tensorflowComputed) :=
  ⟨⟨by decide,
    ((compute_unbound_input upstream allBackends engine torchUnboundSlot outputMemory 0
      { GraphRef := 0, TorchInputs := [none, some ⟨.DT_FLOAT, [1], [0, 0, 0, 0]⟩] }
      { GraphBackend := 3, TorchModel := some 6 }
      (by decide) (by decide)).1 (by decide) (by decide) (by decide) (Or.inr (by decide))).1,
    ((compute_unbound_input upstream allBackends engine torchUnboundSlot outputMemory 0
      { GraphRef := 0, TorchInputs := [none, some ⟨.DT_FLOAT, [1], [0, 0, 0, 0]⟩] }
      { GraphBackend := 3, TorchModel := some 6 }
      (by decide) (by decide)).1 (by decide) (by decide) (by decide) (Or.inr (by decide))).2.1⟩,
    by decide,
    (compute_unbound_input upstream allBackends engineRunFails tensorflowComputed outputMemory 0
      { GraphRef := 0, TFBundle := some 9, TFInputNames := [[105]],
        TFOutputNames := [[111]], TFInputAlready := [([105], Tensor.empty)],
        TFOutputTensors := [⟨.DT_FLOAT, [1, 10], List.replicate 40 0⟩] }
      { GraphBackend := 2, TFBundle := some 9 }
      (by decide) (by decide)).2.2 (by decide) (by decide) (by decide) (by decide)
      (fun _ _ _ _ _ => rfl) .Busy (by decide) (by decide)⟩

/-! ## Guest pointers that fail to resolve -/

/-- C10, the failing input. On a Tensorflow context with a computed output,
`get_output` whose output buffer pointer (offset 1000 in a memory of 8 bytes)
fails to resolve returns `Busy`, not `InvalidArgument`. -/
theorem get_output_tensorflow_null_buffer :
    outputMemory.getPointer 1 1000 40 = none ∧
    (WasiNNGetOuput.body upstream allBackends engine tensorflowComputed
      (some outputMemory) 0 0 1000 40 4).ret = .errno .Busy := by
  decide

/-! ## The device target of `load` -/

/-- C20. `FindDevice` returns a non-empty device name exactly when the target
id is 0; and `load` called with guest memory present and a target id other
than 0 returns `InvalidArgument` for every encoding, every builder block,
every build and every engine, leaving the environment (hence the graph list)
and guest memory unchanged and making no native call. -/
theorem load_device_target (K : WASINN) (B : Build) (N : Native) (env : Env)
    (MemInst : MemoryInstance)
    (BuilderPtr BuilderLen Encoding Target GraphIdPtr : Nat) :
    ((FindDevice Target).length ≠ 0 ↔ Target = 0) ∧
    (Target ≠ 0 →
      WasiNNLoad.body K B N env (some MemInst) BuilderPtr BuilderLen Encoding Target GraphIdPtr
        = ⟨.errno .InvalidArgument, env, some MemInst, []⟩) := by
  constructor
  · cases Target with
    | zero => simp [FindDevice]
    | succ n => simp [FindDevice]
  · intro hT
    have hdev : (FindDevice Target).length = 0 := by
      cases Target with
      | zero => exact absurd rfl hT
      | succ n => simp [FindDevice]
    unfold WasiNNLoad.body
    dsimp only
    split
    · rfl
    · rw [if_pos hdev]

theorem load_device_target_witness :
    (1 : Nat) ≠ 0 ∧
    ((FindDevice 1).length ≠ 0 ↔ 1 = 0) ∧
    WasiNNLoad.body upstream allBackends engine emptyEnv (some loadMemory) 4 1 3 1 0
      = ⟨.errno .InvalidArgument, emptyEnv, some loadMemory, []⟩ :=
  ⟨by decide,
    (load_device_target upstream allBackends engine emptyEnv loadMemory 4 1 3 1 0).1,
    (load_device_target upstream allBackends engine emptyEnv loadMemory 4 1 3 1 0).2
      (by decide)⟩

/-! ## The type-mapping tables -/

/-- C19. When the four enumerators of `WASINN::TensorType` are pairwise
distinct (they are the labels of one `switch`): `TensorflowTypeMap` sends
F32, F16, U8, I32 to `DT_FLOAT`, `DT_HALF`, `DT_UINT8`, `DT_INT32`, four
pairwise distinct native types, and is injective where it is defined; the
TensorflowLite switch sends its four accepted native types to U8, F16, F32,
I32 and is injective where it is defined; and `TensorflowTypeSize` of the
mapped type is 4, 2, 1, 4, so it is defined and not 0 on every mapped type. -/
theorem type_mapping_unambiguous (K : WASINN)
    (hK : [K.F32, K.F16, K.U8, K.I32].Nodup) :
    (TensorflowTypeMap K K.F32 = some .DT_FLOAT ∧ TensorflowTypeMap K K.F16 = some .DT_HALF ∧
      TensorflowTypeMap K K.U8 = some .DT_UINT8 ∧ TensorflowTypeMap K K.I32 = some .DT_INT32) ∧
    [DataType.DT_FLOAT, .DT_HALF, .DT_UINT8, .DT_INT32].Nodup ∧
    (∀ t1 t2 d, TensorflowTypeMap K t1 = some d → TensorflowTypeMap K t2 = some d → t1 = t2) ∧
    (LiteType K .kTfLiteUInt8 = some K.U8 ∧ LiteType K .kTfLiteFloat16 = some K.F16 ∧
      LiteType K .kTfLiteFloat32 = some K.F32 ∧ LiteType K .kTfLiteInt32 = some K.I32) ∧
    (∀ a b n, LiteType K a = some n → LiteType K b = some n → a = b) ∧
    ((TensorflowTypeMap K K.F32).bind TensorflowTypeSize = some 4 ∧
      (TensorflowTypeMap K K.F16).bind TensorflowTypeSize = some 2 ∧
      (TensorflowTypeMap K K.U8).bind TensorflowTypeSize = some 1 ∧
      (TensorflowTypeMap K K.I32).bind TensorflowTypeSize = some 4) ∧
    (∀ t d, TensorflowTypeMap K t = some d → ∃ s, TensorflowTypeSize d = some s ∧ s ≠ 0) := by
  have inj : ∀ t1 t2 d, TensorflowTypeMap K t1 = some d → TensorflowTypeMap K t2 = some d →
      t1 = t2 := by
    intro t1 t2 d e1 e2
    unfold TensorflowTypeMap at e1 e2
    split_ifs at e1 e2 <;> simp only [Option.some.injEq, reduceCtorEq] at e1 e2 <;>
      subst e1 <;> first | (subst_vars; rfl) | cases e2
  have size : ∀ t d, TensorflowTypeMap K t = some d →
      ∃ s, TensorflowTypeSize d = some s ∧ s ≠ 0 := by
    intro t d e
    unfold TensorflowTypeMap at e
    split_ifs at e <;> simp only [Option.some.injEq, reduceCtorEq] at e <;> subst e <;>
      simp [TensorflowTypeSize]
  simp only [List.nodup_cons, List.mem_cons, List.mem_singleton, List.not_mem_nil,
    not_or, List.nodup_nil, and_true, not_false_eq_true] at hK
  obtain ⟨⟨h1, h2, h3⟩, ⟨h4, h5⟩, h6⟩ := hK
  have m1 : TensorflowTypeMap K K.F32 = some .DT_FLOAT := by simp [TensorflowTypeMap]
  have m2 : TensorflowTypeMap K K.F16 = some .DT_HALF := by
    simp [TensorflowTypeMap, Ne.symm h1]
  have m3 : TensorflowTypeMap K K.U8 = some .DT_UINT8 := by
    simp [TensorflowTypeMap, Ne.symm h2, Ne.symm h4]
  have m4 : TensorflowTypeMap K K.I32 = some .DT_INT32 := by
    simp [TensorflowTypeMap, Ne.symm h3, Ne.symm h5, Ne.symm h6]
  refine ⟨⟨m1, m2, m3, m4⟩, by decide, inj, ⟨rfl, rfl, rfl, rfl⟩, ?_, ?_, size⟩
  · intro a b n ea eb
    cases a <;> cases b <;>
      simp only [LiteType, Option.some.injEq, reduceCtorEq] at ea eb <;>
      first | rfl | omega
  · simp [m1, m2, m3, m4, TensorflowTypeSize]

theorem type_mapping_unambiguous_witness :
    [upstream.F32, upstream.F16, upstream.U8, upstream.I32].Nodup ∧
    (TensorflowTypeMap upstream upstream.F16).bind TensorflowTypeSize = some 2 ∧
    LiteType upstream .kTfLiteInt32 = some upstream.I32 :=
  ⟨by decide,
    (type_mapping_unambiguous upstream (by decide)).2.2.2.2.2.1.2.1,
    (type_mapping_unambiguous upstream (by decide)).2.2.2.1.2.2.2⟩

/-! ## The builder count of `load` -/

/-- The empty registry of an environment whose OpenVINO core was not
created. -/
def noCoreEnv : Env := { NNGraph := [], NNContext := [], OpenVINOCore := none }

/-- C11, counterexample. With the OpenVINO core missing, an OpenVINO `load`
with one builder instead of two returns `MissingMemory`, not
`InvalidArgument`: the core is checked before the builder count. -/
theorem load_openvino_core_before_count :
    (1 : Nat) ≠ 2 ∧
    (WasiNNLoad.body upstream allBackends engine noCoreEnv (some loadMemory) 4 1 0 0 0).ret
      = .errno .MissingMemory ∧
    (WasiNNLoad.body upstream allBackends engine noCoreEnv (some loadMemory) 4 1 0 0 0).env
      = noCoreEnv ∧
    (WasiNNLoad.body upstream allBackends engine noCoreEnv (some loadMemory) 4 1 0 0 0).log
      = [] := by
  decide

theorem WasiNNLoad.load_OpenVINO_count (N : Native) (env : Env) (MemInst : MemoryInstance)
    (BuilderPtr BuilderLen Encoding GraphId : Nat) (DeviceName : Str) (h : BuilderLen ≠ 2) :
    WasiNNLoad.OpenVINO N env MemInst BuilderPtr BuilderLen Encoding GraphId DeviceName
      = ⟨.errno (if env.OpenVINOCore = none then .MissingMemory else .InvalidArgument),
          env, some MemInst, []⟩ := by
  unfold WasiNNLoad.OpenVINO
  split
  · next hc => simp [hc]
  · next Core hc => rw [if_pos h]; simp [hc]

theorem WasiNNLoad.load_PyTorch_count (N : Native) (env : Env) (MemInst : MemoryInstance)
    (BuilderPtr BuilderLen Encoding GraphId : Nat) (h : BuilderLen ≠ 1) :
    WasiNNLoad.PyTorch N env MemInst BuilderPtr BuilderLen Encoding GraphId
      = ⟨.errno .InvalidArgument, env, some MemInst, []⟩ := by
  unfold WasiNNLoad.PyTorch
  rw [if_pos h]

theorem WasiNNLoad.load_TensorflowLite_count (N : Native) (env : Env)
    (MemInst : MemoryInstance)
    (BuilderPtr BuilderLen Encoding GraphId : Nat) (h : BuilderLen ≠ 1) :
    WasiNNLoad.TensorflowLite N env MemInst BuilderPtr BuilderLen Encoding GraphId
      = ⟨.errno .InvalidArgument, env, some MemInst, []⟩ := by
  unfold WasiNNLoad.TensorflowLite
  rw [if_pos h]

theorem WasiNNLoad.load_Tensorflow_count (N : Native) (env : Env) (MemInst : MemoryInstance)
    (BuilderPtr BuilderLen Encoding GraphId : Nat) (h : BuilderLen ≠ 3) :
    WasiNNLoad.Tensorflow N env MemInst BuilderPtr BuilderLen Encoding GraphId
      = ⟨.errno .InvalidArgument, env, some MemInst, []⟩ := by
  unfold WasiNNLoad.Tensorflow
  rw [if_pos h]

/-- C11, amended. With guest memory present, a `load` whose builder count
differs from the count its backend requires (2 for OpenVINO, 1 for PyTorch,
1 for TensorflowLite, 3 for Tensorflow) returns, for every state of the
environment, one and the same result whatever the native engines would do:
the code `InvalidArgument`, or `MissingMemory` when the encoding is OpenVINO
and the OpenVINO core is missing, with the environment (hence the graph
list) and guest memory unchanged and no native call made. -/
theorem load_wrong_builder_count (K : WASINN) (B : Build) (env : Env)
    (MemInst : MemoryInstance)
    (BuilderPtr BuilderLen Encoding Target GraphIdPtr : Nat)
    (hO : Encoding = K.OpenVINO → BuilderLen ≠ 2)
    (hP : Encoding = K.PyTorch → BuilderLen ≠ 1)
    (hL : Encoding = K.TensorflowLite → BuilderLen ≠ 1)
    (hT : Encoding = K.Tensorflow → BuilderLen ≠ 3) :
    ∃ e, (e = .InvalidArgument ∨
        (e = .MissingMemory ∧ Encoding = K.OpenVINO ∧ env.OpenVINOCore = none)) ∧
      ∀ N : Native,
        WasiNNLoad.body K B N env (some MemInst) BuilderPtr BuilderLen Encoding Target
          GraphIdPtr = ⟨.errno e, env, some MemInst, []⟩ := by
  unfold WasiNNLoad.body
  dsimp only
  split
  · exact ⟨_, Or.inl rfl, fun _ => rfl⟩
  split
  · exact ⟨_, Or.inl rfl, fun _ => rfl⟩
  split
  · next hE =>
    split
    · by_cases hc : env.OpenVINOCore = none
      · refine ⟨.MissingMemory, Or.inr ⟨rfl, hE, hc⟩, fun N => ?_⟩
        rw [WasiNNLoad.load_OpenVINO_count _ _ _ _ _ _ _ _ (hO hE), if_pos hc]
      · refine ⟨.InvalidArgument, Or.inl rfl, fun N => ?_⟩
        rw [WasiNNLoad.load_OpenVINO_count _ _ _ _ _ _ _ _ (hO hE), if_neg hc]
    · exact ⟨_, Or.inl rfl, fun _ => rfl⟩
  split
  · next hE =>
    split
    · exact ⟨_, Or.inl rfl, fun N => WasiNNLoad.load_PyTorch_count _ _ _ _ _ _ _ (hP hE)⟩
    · exact ⟨_, Or.inl rfl, fun _ => rfl⟩
  split
  · next hE =>
    split
    · exact ⟨_, Or.inl rfl,
        fun N => WasiNNLoad.load_TensorflowLite_count _ _ _ _ _ _ _ (hL hE)⟩
    · exact ⟨_, Or.inl rfl, fun _ => rfl⟩
  split
  · next hE =>
    split
    · exact ⟨_, Or.inl rfl, fun N => WasiNNLoad.load_Tensorflow_count _ _ _ _ _ _ _ (hT hE)⟩
    · exact ⟨_, Or.inl rfl, fun _ => rfl⟩
  · exact ⟨_, Or.inl rfl, fun _ => rfl⟩

theorem load_wrong_builder_count_witness :
    ((3 : Nat) = upstream.PyTorch → (2 : Nat) ≠ 1) ∧
    (∃ e, (e = .InvalidArgument ∨
        (e = .MissingMemory ∧ 3 = upstream.OpenVINO ∧ emptyEnv.OpenVINOCore = none)) ∧
      ∀ N : Native,
        WasiNNLoad.body upstream allBackends N emptyEnv (some loadMemory) 4 2 3 0 0
          = ⟨.errno e, emptyEnv, some loadMemory, []⟩) :=
  ⟨by decide,
    load_wrong_builder_count upstream allBackends emptyEnv loadMemory 4 2 3 0 0
      (by decide) (by decide) (by decide) (by decide)⟩

/-! ## `set_input` and the rank of the tensor -/

/-- A registry with one PyTorch graph and one fresh context on it. -/
def oneTorchContext : Env :=
  { NNGraph := [{ GraphBackend := 3, TorchModel := some 6 }],
    NNContext := [{ GraphRef := 0 }],
    OpenVINOCore := none }

/-- A guest memory for `set_input`: the tensor descriptor at 0 (dimension
buffer at 20 with 9 dimensions, type tag 1 = F32, data at 56 with 4 bytes),
nine dimensions 1 at 20, four data bytes at 56. -/
def rank9TensorMemory : MemoryInstance :=
  memoryOf [20, 0, 0, 0, 9, 0, 0, 0, 1, 0, 0, 0, 56, 0, 0, 0, 4, 0, 0, 0,
    1, 0, 0, 0, 1, 0, 0, 0, 1, 0, 0, 0, 1, 0, 0, 0, 1, 0, 0, 0,
    1, 0, 0, 0, 1, 0, 0, 0, 1, 0, 0, 0, 1, 0, 0, 0,
    11, 12, 13, 14]

/-- C12, counterexample. On a PyTorch context, `set_input` with a descriptor
of 9 dimensions returns `Success` and binds a tensor of rank 9 to slot 0. -/
theorem set_input_torch_accepts_rank_9 :
    8 < rank9TensorMemory.word 0 1 ∧
    (WasiNNSetInput.body upstream allBackends engine oneTorchContext
      (some rank9TensorMemory) 0 0 0).ret = .errno .Success ∧
    (WasiNNSetInput.body upstream allBackends engine oneTorchContext
      (some rank9TensorMemory) 0 0 0).env.NNContext.map (fun c => c.TorchInputs)
      = [[some ⟨.DT_FLOAT, [1, 1, 1, 1, 1, 1, 1, 1, 1], [11, 12, 13, 14]⟩]] := by
  decide

/-- The result of a branch that refuses its arguments before any native
call: `InvalidArgument` (or `MissingMemory` when `sessionMissing`), with the
environment and guest memory as before and an empty log. -/
def RefusedEarly (env : Env) (MemInst : MemoryInstance) (sessionMissing : Prop)
    (r : Result) : Prop :=
  (r.ret = .errno .InvalidArgument ∨ (r.ret = .errno .MissingMemory ∧ sessionMissing)) ∧
  r.env = env ∧ r.mem = some MemInst ∧ r.log = []

theorem WasiNNSetInput.set_input_OpenVINO_rank (K : WASINN) (N : Native) (env : Env)
    (MemInst : MemoryInstance) (CxtRef : Context) (G : Graph) (Index TensorPtr : Nat)
    (hD : 8 < MemInst.word TensorPtr 1) :
    RefusedEarly env MemInst (G.OpenVINONetwork = none ∨ CxtRef.OpenVINOInferRequest = none)
      (WasiNNSetInput.OpenVINO K N env MemInst CxtRef G Index TensorPtr) := by
  unfold WasiNNSetInput.OpenVINO
  dsimp only
  split
  · next h => exact ⟨Or.inr ⟨rfl, h⟩, rfl, rfl, rfl⟩
  split
  · simp [RefusedEarly]
  split
  · simp [RefusedEarly]
  next Tensor hP =>
  have hp := MemoryInstance.getPointer_eq_some _ _ _ _ _ hP
  subst hp
  rw [if_pos hD]
  simp [RefusedEarly]

/-- C12, amended. With guest memory present, on an existing context of the
OpenVINO backend, `set_input` with a descriptor whose dimension count is
greater than 8 returns `InvalidArgument` (`MissingMemory` when the network or
the infer request is missing) before any native call, so before any blob or
dimension structure is built, and leaves the environment and guest memory
unchanged.  (The PyTorch, Tensorflow and TensorflowLite branches put no bound
of 8 on the dimension count.) -/
theorem set_input_rank_bound (K : WASINN) (B : Build) (N : Native) (env : Env)
    (MemInst : MemoryInstance) (Context Index TensorPtr : Nat)
    (CxtRef : WasiNN.Context) (G : Graph)
    (hC : env.NNContext[Context]? = some CxtRef)
    (hG : env.NNGraph[CxtRef.GraphRef]? = some G)
    (hO : G.GraphBackend = K.OpenVINO)
    (hD : 8 < MemInst.word TensorPtr 1) :
    let r := WasiNNSetInput.body K B N env (some MemInst) Context Index TensorPtr
    (r.ret = .errno .InvalidArgument ∨
      (r.ret = .errno .MissingMemory ∧
        (G.OpenVINONetwork = none ∨ CxtRef.OpenVINOInferRequest = none))) ∧
    r.env = env ∧ r.mem = some MemInst ∧ r.log = [] := by
  intro r
  have hr : r = WasiNNSetInput.body K B N env (some MemInst) Context Index TensorPtr := rfl
  simp only [WasiNNSetInput.body, hC, hG] at hr
  rw [if_pos hO] at hr
  cases hB : B.OPENVINO
  · simp [hB] at hr; simp [hr]
  · simp only [hB, if_true] at hr
    rw [hr]
    exact WasiNNSetInput.set_input_OpenVINO_rank K N env MemInst CxtRef G Index TensorPtr hD

theorem set_input_rank_bound_witness :
    oneOpenVINOContext.NNContext[0]? = some { GraphRef := 0, OpenVINOInferRequest := some 4 } ∧
    8 < rank9TensorMemory.word 0 1 ∧
    (WasiNNSetInput.body upstream allBackends engine oneOpenVINOContext
      (some rank9TensorMemory) 0 0 0).ret = .errno .InvalidArgument ∧
    (WasiNNSetInput.body upstream allBackends engine oneOpenVINOContext
      (some rank9TensorMemory) 0 0 0).env = oneOpenVINOContext :=
  ⟨by decide, by decide, by decide,
    (set_input_rank_bound upstream allBackends engine oneOpenVINOContext rank9TensorMemory 0 0 0
      { GraphRef := 0, OpenVINOInferRequest := some 4 }
      { GraphBackend := 0, OpenVINONetwork := some 2, OpenVINOExecNetwork := some 3,
        OpenVINOWeightBlob := some 1, OpenVINOInputNames := [some [105]],
        OpenVINOOutputNames := [some [111]] }
      (by decide) (by decide) (by decide) (by decide)).2.1⟩

/-! ## Indices of input slots and of outputs -/

/-- A guest memory for `set_input`: the tensor descriptor at 0 (dimension
buffer at 20 with 1 dimension, type tag 1 = F32, data at 24 with 40 bytes),
the dimension 10 at 20, forty data bytes at 24. -/
def f32TensorMemory : MemoryInstance :=
  memoryOf ([20, 0, 0, 0, 1, 0, 0, 0, 1, 0, 0, 0, 24, 0, 0, 0, 40, 0, 0, 0, 10, 0, 0, 0]
    ++ List.replicate 40 5)

/-- C13, the failing input. On a Tensorflow context with one declared input,
`set_input` at index 1 with a well-formed F32 descriptor of shape `[10]` is
not refused: no test of the index precedes `CxtRef.TFInputAlready[Index]`,
which is then an access outside the slot list.  At index 0 the same call
returns `Success`. -/
theorem set_input_tensorflow_index_unchecked :
    oneTensorflowContext.NNContext.map (fun c => c.TFInputAlready.length) = [1] ∧
    (WasiNNSetInput.body upstream allBackends engine oneTensorflowContext
      (some f32TensorMemory) 0 1 0).ret = .undefined ∧
    (WasiNNSetInput.body upstream allBackends engine oneTensorflowContext
      (some f32TensorMemory) 0 0 0).ret = .errno .Success := by
  decide

/-- The OpenVINO branch of `set_input` refuses an index that is not below
the number of input names of the graph. -/
theorem WasiNNSetInput.set_input_OpenVINO_index (K : WASINN) (N : Native) (env : Env)
    (MemInst : MemoryInstance) (CxtRef : Context) (G : Graph) (Index TensorPtr : Nat)
    (hI : G.OpenVINOInputNames.length ≤ Index) :
    RefusedEarly env MemInst (G.OpenVINONetwork = none ∨ CxtRef.OpenVINOInferRequest = none)
      (WasiNNSetInput.OpenVINO K N env MemInst CxtRef G Index TensorPtr) := by
  unfold WasiNNSetInput.OpenVINO
  dsimp only
  split
  · next h => exact ⟨Or.inr ⟨rfl, h⟩, rfl, rfl, rfl⟩
  · rw [List.getElem?_eq_none hI]
    simp [RefusedEarly]

/-- The TensorflowLite branch of `set_input` refuses an index that is not
below the number of input tensors of the interpreter. -/
theorem WasiNNSetInput.set_input_TensorflowLite_index (K : WASINN) (N : Native) (env : Env)
    (MemInst : MemoryInstance) (CxtRef : Context) (Index TensorPtr : Nat)
    (hI : N.TfLiteInterpreterGetInputTensorCount CxtRef.TFLiteInterp % 2 ^ 32 ≤ Index) :
    WasiNNSetInput.TensorflowLite K N env MemInst CxtRef Index TensorPtr
      = ⟨.errno .InvalidArgument, env, some MemInst, []⟩ := by
  unfold WasiNNSetInput.TensorflowLite
  dsimp only
  rw [if_pos hI]

/-- C14, the failing input. On a Tensorflow context on which `compute` has
not run (one declared output name, no output tensor), `get_output` at index 0
is not refused: the index is compared with the number of output names, and
`CxtRef.TFOutputTensors[Index]` is then an access outside the empty list of
output tensors. -/
theorem get_output_tensorflow_before_compute :
    oneTensorflowContext.NNContext.map (fun c => c.TFOutputTensors.length) = [0] ∧
    oneTensorflowContext.NNContext.map (fun c => c.TFOutputNames.length) = [1] ∧
    (WasiNNGetOuput.body upstream allBackends engine oneTensorflowContext
      (some outputMemory) 0 0 0 4 4).ret = .undefined := by
  decide

/-! ## Exceptions and unmapped types -/

/-- The engines of `engine`, except that the signature map of the bundle has
no entry for the signature name. -/
def engineNoSignature : Native := { engine with signature_def := fun _ _ => none }

/-- A registry with one loaded Tensorflow graph, whose signature name was
taken from the guest at `load`, and no context. -/
def oneTensorflowGraph : Env :=
  { NNGraph := [{ GraphBackend := 2, TFSignature := [115], TFBundle := some 9 }],
    NNContext := [], OpenVINOCore := none }

/-- C17, the failing input. On a Tensorflow graph whose signature name is
not a key of the signature map of the model, `init_execution_context` does
not return: `SigMap.at(Graph.TFSignature)` raises, and the context appended
before it is still in the context list. -/
theorem init_execution_context_missing_signature :
    (WasiNNInitExecCtx.body upstream allBackends engineNoSignature oneTensorflowGraph
      (some loadMemory) 0 0).ret = .raised ∧
    oneTensorflowGraph.NNContext.length = 0 ∧
    (WasiNNInitExecCtx.body upstream allBackends engineNoSignature oneTensorflowGraph
      (some loadMemory) 0 0).env.NNContext.length = 1 := by
  decide

/-- The PyTorch branch of `load` turns the `c10::Error` of
`torch::jit::load` into `InvalidArgument` and pops the appended graph. -/
theorem WasiNNLoad.load_PyTorch_throw (N : Native) (env : Env) (MemInst : MemoryInstance)
    (BuilderPtr BuilderLen Encoding GraphId : Nat)
    (hthrow : ∀ bs, N.torch_jit_load bs = none) :
    (WasiNNLoad.PyTorch N env MemInst BuilderPtr BuilderLen Encoding GraphId).ret
      = .errno .InvalidArgument ∧
    (WasiNNLoad.PyTorch N env MemInst BuilderPtr BuilderLen Encoding GraphId).env = env := by
  unfold WasiNNLoad.PyTorch
  dsimp only
  repeat' split
  all_goals simp_all

/-- A guest memory for `set_input`: the descriptor of `u8TensorMemory` with
the type tag 7, which is none of F32, F16, U8, I32. -/
def tag7TensorMemory : MemoryInstance :=
  memoryOf [20, 0, 0, 0, 1, 0, 0, 0, 7, 0, 0, 0, 24, 0, 0, 0, 10, 0, 0, 0,
    10, 0, 0, 0, 1, 2, 3, 4, 5, 6, 7, 8, 9, 10]

/-- C18, the failing input. On a Tensorflow context, `set_input` with a
descriptor whose type tag is 7 returns no error code: the tag reaches
`TensorflowTypeMap`, whose `default` case is `assumingUnreachable()`. -/
theorem set_input_tensorflow_unmapped_tag :
    tag7TensorMemory.word 0 2 = 7 ∧
    (7 ≠ upstream.F32 ∧ 7 ≠ upstream.F16 ∧ 7 ≠ upstream.U8 ∧ 7 ≠ upstream.I32) ∧
    TensorflowTypeMap upstream 7 = none ∧
    (WasiNNSetInput.body upstream allBackends engine oneTensorflowContext
      (some tag7TensorMemory) 0 0 0).ret = .undefined := by
  decide

/-- The TensorflowLite branch of `set_input` refuses an input tensor whose
native type is none of the four of its switch, provided the dimension buffer
resolves or the dimension count is 0 (otherwise the loop over the dimensions
reads through a null pointer). -/
theorem WasiNNSetInput.set_input_TensorflowLite_other_type (K : WASINN) (N : Native)
    (env : Env) (MemInst : MemoryInstance) (CxtRef : Context) (Index TensorPtr code : Nat)
    (hty : N.TfLiteInputTensorType CxtRef.TFLiteInterp Index = .kTfLiteOther code)
    (hdim : MemInst.getPointer 4 (MemInst.word TensorPtr 0) (MemInst.word TensorPtr 1) ≠ none ∨
      MemInst.word TensorPtr 1 = 0) :
    WasiNNSetInput.TensorflowLite K N env MemInst CxtRef Index TensorPtr
      = ⟨.errno .InvalidArgument, env, some MemInst, []⟩ := by
  unfold WasiNNSetInput.TensorflowLite
  dsimp only
  split
  · rfl
  split
  · rfl
  next Tensor hP =>
  have hp := MemoryInstance.getPointer_eq_some _ _ _ _ _ hP
  subst hp
  split
  · next hnone =>
    rcases hdim with h | h
    · exact absurd hnone h
    · simp [h]
  split
  · rfl
  · rw [hty]
    simp [LiteType]

/-! ## The name lists of a Tensorflow context -/

/-- The order on names is the lexicographic order of their bytes. -/
theorem Str.le_iff_lex (a b : Str) :
    a ≤ b ↔ a = b ∨ List.Lex (fun x y : Nat => x < y) a b :=
  le_iff_eq_or_lt

theorem sortNames_sorted (l : List Str) :
    List.Sorted (fun a b : Str => a ≤ b) (sortNames l) :=
  List.sorted_insertionSort _ l

theorem sortNames_perm (l : List Str) : (sortNames l).Perm l :=
  List.perm_insertionSort _ l

/-- Sorting forgets the order in which the names were listed. -/
theorem sortNames_eq_of_perm (l1 l2 : List Str) (h : l1.Perm l2) :
    sortNames l1 = sortNames l2 :=
  List.eq_of_perm_of_sorted
    (((sortNames_perm l1).trans h).trans (sortNames_perm l2).symm)
    (sortNames_sorted l1) (sortNames_sorted l2)

/-- The context that a successful Tensorflow `init_execution_context`
appends. -/
def tensorflowContext (N : Native) (GraphId : Nat) (G : Graph) (Bundle : Handle)
    (ins outs : List Str) : Context :=
  { Context.new N GraphId G with
    TFBundle := some Bundle, TFInputNames := sortNames ins, TFOutputNames := sortNames outs,
    TFInputAlready := (sortNames ins).map (fun X => (X, Tensor.empty)) }

theorem WasiNNInitExecCtx.init_Tensorflow_success (K : WASINN) (B : Build) (N : Native)
    (env : Env) (MemInst : MemoryInstance) (GraphId ContextPtr : Nat) (G : Graph)
    (hG : env.NNGraph[GraphId]? = some G)
    (hO : G.GraphBackend ≠ K.OpenVINO) (hP : G.GraphBackend ≠ K.PyTorch)
    (hL : G.GraphBackend ≠ K.TensorflowLite)
    (hret : (WasiNNInitExecCtx.body K B N env (some MemInst) GraphId ContextPtr).ret
      = .errno .Success) :
    G.GraphBackend = K.Tensorflow ∧
    ∃ Bundle ins outs, G.TFBundle = some Bundle ∧
      N.signature_def Bundle G.TFSignature = some (ins, outs) ∧
      (WasiNNInitExecCtx.body K B N env (some MemInst) GraphId ContextPtr).env
        = env.emplaceContext (tensorflowContext N GraphId G Bundle ins outs) := by
  unfold WasiNNInitExecCtx.body at hret ⊢
  simp only [hG, if_neg hO, if_neg hP, if_neg hL] at hret ⊢
  split at hret
  · simp at hret
  next Context hC =>
  split at hret
  · next hT =>
    refine ⟨hT, ?_⟩
    split at hret
    · split at hret
      · simp at hret
      · next Bundle hBundle =>
        split at hret
        · simp at hret
        · next ModelDef hM =>
          refine ⟨Bundle, ModelDef.1, ModelDef.2, hBundle, hM, ?_⟩
          simp [*, tensorflowContext]
    · simp at hret
  · simp at hret

/-- C15. Whenever `init_execution_context`, called with guest memory present
on a graph that is not routed to the OpenVINO, PyTorch or TensorflowLite
branch, returns `Success`, the graph is a Tensorflow graph with a bundle
whose signature map has the stored signature name, and the one context `c`
appended to the context list satisfies: its input-name list is sorted in
ascending lexicographic order and is a permutation of the tensor names of the
inputs the signature declares; likewise its output-name list; its pending
input slots are the sorted input names in order, each with the empty
placeholder tensor; and every other successful call on the same graph, in any
environment and guest memory and whatever order the signature map lists the
same names in, yields the same two name lists. -/
theorem init_execution_context_tensorflow_names (K : WASINN) (B : Build) (N : Native)
    (env : Env) (MemInst : MemoryInstance) (GraphId ContextPtr : Nat) (G : Graph)
    (hG : env.NNGraph[GraphId]? = some G)
    (hO : G.GraphBackend ≠ K.OpenVINO) (hP : G.GraphBackend ≠ K.PyTorch)
    (hL : G.GraphBackend ≠ K.TensorflowLite)
    (hret : (WasiNNInitExecCtx.body K B N env (some MemInst) GraphId ContextPtr).ret
      = .errno .Success) :
    G.GraphBackend = K.Tensorflow ∧
    ∃ Bundle ins outs c,
      G.TFBundle = some Bundle ∧ N.signature_def Bundle G.TFSignature = some (ins, outs) ∧
      (WasiNNInitExecCtx.body K B N env (some MemInst) GraphId ContextPtr).env.NNContext
        = env.NNContext ++ [c] ∧
      List.Sorted (fun a b : Str => a ≤ b) c.TFInputNames ∧ c.TFInputNames.Perm ins ∧
      List.Sorted (fun a b : Str => a ≤ b) c.TFOutputNames ∧ c.TFOutputNames.Perm outs ∧
      c.TFInputAlready = c.TFInputNames.map (fun X => (X, Tensor.empty)) ∧
      (∀ i : Nat, (c.TFInputAlready[i]?).map Prod.fst = c.TFInputNames[i]?) ∧
      (∀ (N2 : Native) (env2 : Env) (MemInst2 : MemoryInstance) (GraphId2 ContextPtr2 : Nat)
          (ins2 outs2 : List Str),
        env2.NNGraph[GraphId2]? = some G →
        N2.signature_def Bundle G.TFSignature = some (ins2, outs2) →
        ins2.Perm ins → outs2.Perm outs →
        (WasiNNInitExecCtx.body K B N2 env2 (some MemInst2) GraphId2 ContextPtr2).ret
          = .errno .Success →
        ∃ c2,
          (WasiNNInitExecCtx.body K B N2 env2 (some MemInst2) GraphId2 ContextPtr2).env.NNContext
            = env2.NNContext ++ [c2] ∧
          c2.TFInputNames = c.TFInputNames ∧ c2.TFOutputNames = c.TFOutputNames) := by
  obtain ⟨hT, Bundle, ins, outs, hB, hS, he⟩ :=
    WasiNNInitExecCtx.init_Tensorflow_success K B N env MemInst GraphId ContextPtr G hG hO hP hL
      hret
  refine ⟨hT, Bundle, ins, outs, tensorflowContext N GraphId G Bundle ins outs, hB, hS,
    by rw [he]; rfl, sortNames_sorted ins, sortNames_perm ins, sortNames_sorted outs,
    sortNames_perm outs, rfl, ?_, ?_⟩
  · intro i
    simp [tensorflowContext, List.getElem?_map]
    cases (sortNames ins)[i]? <;> rfl
  · intro N2 env2 MemInst2 GraphId2 ContextPtr2 ins2 outs2 hG2 hS2 hpi hpo hret2
    obtain ⟨-, Bundle2, ins3, outs3, hB2, hS3, he2⟩ :=
      WasiNNInitExecCtx.init_Tensorflow_success K B N2 env2 MemInst2 GraphId2 ContextPtr2 G hG2
        hO hP hL hret2
    rw [hB] at hB2
    have hb : Bundle2 = Bundle := (Option.some.inj hB2).symm
    subst hb
    rw [hS2] at hS3
    have h3 := Option.some.inj hS3
    have hi : ins3 = ins2 := (congrArg Prod.fst h3).symm
    have ho : outs3 = outs2 := (congrArg Prod.snd h3).symm
    subst hi ho
    refine ⟨tensorflowContext N2 GraphId2 G Bundle2 ins3 outs3, by rw [he2]; rfl, ?_, ?_⟩
    · exact sortNames_eq_of_perm _ _ hpi
    · exact sortNames_eq_of_perm _ _ hpo

/-- The engines of `engine`, except that the signature declares the inputs
`b`, `a` (in this order) and the outputs `z`, `y`. -/
def engineTwoInputs : Native :=
  { engine with signature_def := fun _ _ => some ([[98], [97]], [[122], [121]]) }

theorem init_execution_context_tensorflow_names_witness :
    oneTensorflowGraph.NNGraph[0]?
      = some { GraphBackend := 2, TFSignature := [115], TFBundle := some 9 } ∧
    (WasiNNInitExecCtx.body upstream allBackends engineTwoInputs oneTensorflowGraph
      (some loadMemory) 0 0).ret = .errno .Success ∧
    (WasiNNInitExecCtx.body upstream allBackends engineTwoInputs oneTensorflowGraph
      (some loadMemory) 0 0).env.NNContext.map (fun c => (c.TFInputNames, c.TFOutputNames))
      = [([[97], [98]], [[121], [122]])] ∧
    (2 : Nat) = upstream.Tensorflow :=
  ⟨by decide, by decide, by decide,
    (init_execution_context_tensorflow_names upstream allBackends engineTwoInputs
      oneTensorflowGraph loadMemory 0 0
      { GraphBackend := 2, TFSignature := [115], TFBundle := some 9 }
      (by decide) (by decide) (by decide) (by decide) (by decide)).1⟩

/-! ## The identity round trip -/

/-- On a context of a PyTorch graph, in a build with the PyTorch backend,
`set_input` is its PyTorch branch. -/
theorem WasiNNSetInput.body_PyTorch (K : WASINN) (B : Build) (N : Native) (env : Env)
    (MemInst : MemoryInstance) (Context Index TensorPtr : Nat)
    (CxtRef : WasiNN.Context) (G : Graph)
    (hC : env.NNContext[Context]? = some CxtRef)
    (hG : env.NNGraph[CxtRef.GraphRef]? = some G)
    (hO : G.GraphBackend ≠ K.OpenVINO) (hP : G.GraphBackend = K.PyTorch)
    (hB : B.TORCH = true) :
    WasiNNSetInput.body K B N env (some MemInst) Context Index TensorPtr
      = WasiNNSetInput.PyTorch K env MemInst Context CxtRef Index TensorPtr := by
  simp only [WasiNNSetInput.body, hC, hG, if_neg hO, if_pos hP, hB, if_true]

/-- On a context of a PyTorch graph, in a build with the PyTorch backend,
`compute` is its PyTorch branch. -/
theorem WasiNNCompute.body_compute_PyTorch (K : WASINN) (B : Build) (N : Native) (env : Env)
    (MemInst : MemoryInstance) (Context : Nat)
    (CxtRef : WasiNN.Context) (G : Graph)
    (hC : env.NNContext[Context]? = some CxtRef)
    (hG : env.NNGraph[CxtRef.GraphRef]? = some G)
    (hO : G.GraphBackend ≠ K.OpenVINO) (hP : G.GraphBackend = K.PyTorch)
    (hB : B.TORCH = true) :
    WasiNNCompute.body K B N env (some MemInst) Context
      = WasiNNCompute.PyTorch N env MemInst Context CxtRef G := by
  simp only [WasiNNCompute.body, hC, hG, if_neg hO, if_pos hP, hB, if_true]

/-- On a context of a PyTorch graph, in a build with the PyTorch backend,
`get_output` is its PyTorch branch. -/
theorem WasiNNGetOuput.body_get_output_PyTorch (K : WASINN) (B : Build) (N : Native)
    (env : Env) (MemInst : MemoryInstance)
    (Context Index OutBufferPtr OutBufferMaxSize BytesWrittenPtr : Nat)
    (CxtRef : WasiNN.Context) (G : Graph)
    (hC : env.NNContext[Context]? = some CxtRef)
    (hG : env.NNGraph[CxtRef.GraphRef]? = some G)
    (hO : G.GraphBackend ≠ K.OpenVINO) (hP : G.GraphBackend = K.PyTorch)
    (hB : B.TORCH = true) :
    WasiNNGetOuput.body K B N env (some MemInst) Context Index OutBufferPtr OutBufferMaxSize
        BytesWrittenPtr
      = WasiNNGetOuput.PyTorch N env MemInst CxtRef Index OutBufferPtr OutBufferMaxSize
        BytesWrittenPtr := by
  simp only [WasiNNGetOuput.body, hC, hG, if_neg hO, if_pos hP, hB, if_true]

theorem copy_n_length (src : Bytes) (n : Nat) : (copy_n src n).length = n := by
  simp [copy_n]

theorem copy_n_self (src : Bytes) : copy_n src src.length = src := by
  apply List.ext_getElem
  · simp [copy_n]
  · intro i h1 h2
    simp [copy_n, List.getD_eq_getElem?_getD, List.getElem?_eq_getElem h2]

theorem MemoryInstance.readBytes_length (m : MemoryInstance) (a n : Nat) :
    (m.readBytes a n).length = n := by
  simp [MemoryInstance.readBytes]

theorem MemoryInstance.readBytes_lt (m : MemoryInstance) (a n : Nat) :
    ∀ x ∈ m.readBytes a n, x < 256 := by
  intro x hx
  simp only [MemoryInstance.readBytes, List.mem_map, List.mem_range] at hx
  obtain ⟨i, -, rfl⟩ := hx
  exact Nat.mod_lt _ (by decide)

/-- Bytes stored into guest memory are read back as they are. -/
theorem MemoryInstance.readBytes_writeBytes (m : MemoryInstance) (a : Nat) (bs : Bytes)
    (hb : ∀ x ∈ bs, x < 256) :
    (m.writeBytes a bs).readBytes a bs.length = bs := by
  apply List.ext_getElem
  · simp [MemoryInstance.readBytes]
  · intro i h1 h2
    have hlt : bs[i] < 256 := hb _ (List.getElem_mem h2)
    simp [MemoryInstance.readBytes, MemoryInstance.writeBytes, h2,
      List.getD_eq_getElem?_getD, List.getElem?_eq_getElem h2, Nat.mod_eq_of_lt hlt]

/-- The PyTorch branch of `set_input` on a context without slots: a float
tensor of shape `[1, n]` is bound to slot 0. -/
theorem WasiNNSetInput.set_input_PyTorch_fresh (K : WASINN) (env : Env)
    (MemInst : MemoryInstance) (Context TensorPtr n : Nat) (CxtRef : WasiNN.Context)
    (hfresh : CxtRef.TorchInputs = [])
    (hdesc : MemInst.resolves 4 TensorPtr 5 = true)
    (hrank : MemInst.word TensorPtr 1 = 2)
    (htype : castTensorType K (MemInst.word TensorPtr 2) = K.F32)
    (hlen : MemInst.word TensorPtr 4 = n * 4)
    (hdimp : MemInst.resolves 4 (MemInst.word TensorPtr 0) 2 = true)
    (hdims : MemInst.readWords (MemInst.word TensorPtr 0) 2 = [1, n])
    (hdata : MemInst.resolves 1 (MemInst.word TensorPtr 3) (n * 4) = true) :
    WasiNNSetInput.PyTorch K env MemInst Context CxtRef 0 TensorPtr
      = ⟨.errno .Success,
          env.setContext Context
            { CxtRef with TorchInputs :=
                [some ⟨.DT_FLOAT, [1, n],
                  MemInst.readBytes (MemInst.word TensorPtr 3) (n * 4)⟩] },
          some MemInst, [.call .torch_from_blob_clone]⟩ := by
  have h4 : 4 * n = n * 4 := Nat.mul_comm 4 n
  simp [WasiNNSetInput.PyTorch, MemoryInstance.getPointer, hdesc, hrank, htype, hlen, hdimp,
    hdims, hdata, hfresh, resize, h4]

/-- The PyTorch branch of `compute` on a context with one bound slot, when the
model returns a single tensor. -/
theorem WasiNNCompute.compute_PyTorch_single (N : Native) (env : Env)
    (MemInst : MemoryInstance) (Context : Nat) (CxtRef : WasiNN.Context) (G : Graph)
    (t u : Tensor) (hin : CxtRef.TorchInputs = [some t])
    (hfw : N.torch_forward G.TorchModel [some t] = .Tensor u) :
    WasiNNCompute.PyTorch N env MemInst Context CxtRef G
      = ⟨.errno .Success,
          env.setContext Context { CxtRef with TorchOutputs := CxtRef.TorchOutputs ++ [u] },
          some MemInst, [.call .torch_forward]⟩ := by
  simp [WasiNNCompute.PyTorch, hin, hfw]

theorem BlobSize64_row (n : Nat) (hn : n < 2 ^ 64) : BlobSize64 [1, n] = n := by
  simp only [BlobSize64, List.foldl_cons, List.foldl_nil, Nat.one_mul]
  rw [Nat.mod_eq_of_lt (by omega : (1 : Nat) < 2 ^ 64), Nat.one_mul, Nat.mod_eq_of_lt hn]

/-- The PyTorch branch of `get_output` on a context whose only output is a
float tensor of shape `[1, n]` holding `n * 4` bytes, with room for all of
them. -/
theorem WasiNNGetOuput.get_output_PyTorch_row (N : Native) (env : Env)
    (MemInst : MemoryInstance) (CxtRef : WasiNN.Context)
    (OutBufferPtr BytesWrittenPtr n : Nat) (data : Bytes)
    (hout : CxtRef.TorchOutputs = [⟨.DT_FLOAT, [1, n], data⟩])
    (hlen : data.length = n * 4) (hn : n * 4 < 2 ^ 32)
    (hbuf : MemInst.resolves 1 OutBufferPtr (n * 4) = true)
    (hbw : MemInst.resolves 4 BytesWrittenPtr 1 = true) :
    WasiNNGetOuput.PyTorch N env MemInst CxtRef 0 OutBufferPtr (n * 4) BytesWrittenPtr
      = ⟨.errno .Success, env,
          some ((MemInst.writeBytes OutBufferPtr data).write32 BytesWrittenPtr (n * 4)),
          [.toGuest (n * 4)]⟩ := by
  have h64 : n < 2 ^ 64 := by omega
  have hc : copy_n data (n * 4) = data := by rw [← hlen]; exact copy_n_self data
  have hr : (MemInst.writeBytes OutBufferPtr data).resolves 4 BytesWrittenPtr 1 = true := hbw
  have hm : n * 4 % 4294967296 = n * 4 := Nat.mod_eq_of_lt (by omega)
  simp [WasiNNGetOuput.PyTorch, hout, toTypeFloat32, BlobSize64_row n h64, hm,
    MemoryInstance.getPointer, hbuf, hc, writeBytesWritten, hr]

theorem Env.NNContext_setContext (env : Env) (I : Nat) (c0 c : Context)
    (h : env.NNContext[I]? = some c0) : (env.setContext I c).NNContext[I]? = some c := by
  have hlt : I < env.NNContext.length := by
    by_contra hge
    rw [List.getElem?_eq_none (by omega)] at h
    exact absurd h (by simp)
  simp [Env.setContext, List.getElem?_set, hlt]

theorem Env.NNGraph_setContext (env : Env) (I : Nat) (c : Context) :
    (env.setContext I c).NNGraph = env.NNGraph := rfl

/-- The identity round trip on the PyTorch backend.  On a context of a
PyTorch graph that has no input slot and no output yet, whose model returns
its single input, with every guest pointer resolving: `set_input` of a float
tensor of shape `[1, n]` at index 0, `compute` and `get_output` of index 0
with room for `n * 4` bytes all return `Success`, the count stored is
`n * 4`, and the output buffer holds the `n * 4` bytes of the input. -/
theorem identity_round_trip_PyTorch (K : WASINN) (B : Build) (N : Native) (env : Env)
    (MemIn MemOut : MemoryInstance)
    (Context TensorPtr OutBufferPtr BytesWrittenPtr n : Nat)
    (CxtRef : WasiNN.Context) (G : Graph)
    (hC : env.NNContext[Context]? = some CxtRef)
    (hG : env.NNGraph[CxtRef.GraphRef]? = some G)
    (hO : G.GraphBackend ≠ K.OpenVINO) (hP : G.GraphBackend = K.PyTorch)
    (hB : B.TORCH = true)
    (hin : CxtRef.TorchInputs = []) (hout : CxtRef.TorchOutputs = [])
    (hid : ∀ t, N.torch_forward G.TorchModel [some t] = .Tensor t)
    (hn : n * 4 < 2 ^ 32)
    (hdesc : MemIn.resolves 4 TensorPtr 5 = true)
    (hrank : MemIn.word TensorPtr 1 = 2)
    (htype : castTensorType K (MemIn.word TensorPtr 2) = K.F32)
    (hlen : MemIn.word TensorPtr 4 = n * 4)
    (hdimp : MemIn.resolves 4 (MemIn.word TensorPtr 0) 2 = true)
    (hdims : MemIn.readWords (MemIn.word TensorPtr 0) 2 = [1, n])
    (hdata : MemIn.resolves 1 (MemIn.word TensorPtr 3) (n * 4) = true)
    (hbuf : MemOut.resolves 1 OutBufferPtr (n * 4) = true)
    (hbw : MemOut.resolves 4 BytesWrittenPtr 1 = true) :
    let Data := MemIn.readBytes (MemIn.word TensorPtr 3) (n * 4)
    let r1 := WasiNNSetInput.body K B N env (some MemIn) Context 0 TensorPtr
    let r2 := WasiNNCompute.body K B N r1.env (some MemIn) Context
    let r3 := WasiNNGetOuput.body K B N r2.env (some MemOut) Context 0 OutBufferPtr (n * 4)
      BytesWrittenPtr
    r1.ret = .errno .Success ∧ r2.ret = .errno .Success ∧ r3.ret = .errno .Success ∧
    r3.mem = some ((MemOut.writeBytes OutBufferPtr Data).write32 BytesWrittenPtr (n * 4)) ∧
    r3.log = [.toGuest (n * 4)] ∧
    ((MemOut.writeBytes OutBufferPtr Data).write32 BytesWrittenPtr (n * 4)).read32
      BytesWrittenPtr = n * 4 ∧
    (MemOut.writeBytes OutBufferPtr Data).readBytes OutBufferPtr (n * 4) = Data := by
  intro Data r1 r2 r3
  have e1 : r1 = ⟨.errno .Success,
      env.setContext Context { CxtRef with TorchInputs := [some ⟨.DT_FLOAT, [1, n], Data⟩] },
      some MemIn, [.call .torch_from_blob_clone]⟩ := by
    show WasiNNSetInput.body K B N env (some MemIn) Context 0 TensorPtr = _
    rw [WasiNNSetInput.body_PyTorch K B N env MemIn Context 0 TensorPtr CxtRef G hC hG hO hP hB]
    exact WasiNNSetInput.set_input_PyTorch_fresh K env MemIn Context TensorPtr n CxtRef hin
      hdesc hrank htype hlen hdimp hdims hdata
  have hC1 := Env.NNContext_setContext env Context CxtRef
    { CxtRef with TorchInputs := [some ⟨.DT_FLOAT, [1, n], Data⟩] } hC
  have e2 : r2 = ⟨.errno .Success,
      (env.setContext Context
        { CxtRef with TorchInputs := [some ⟨.DT_FLOAT, [1, n], Data⟩] }).setContext Context
        { CxtRef with TorchInputs := [some ⟨.DT_FLOAT, [1, n], Data⟩],
                      TorchOutputs := [⟨.DT_FLOAT, [1, n], Data⟩] },
      some MemIn, [.call .torch_forward]⟩ := by
    show WasiNNCompute.body K B N r1.env (some MemIn) Context = _
    rw [e1]
    rw [WasiNNCompute.body_compute_PyTorch K B N _ MemIn Context _ G hC1 hG hO hP hB]
    rw [WasiNNCompute.compute_PyTorch_single N _ MemIn Context _ G ⟨.DT_FLOAT, [1, n], Data⟩
      ⟨.DT_FLOAT, [1, n], Data⟩ rfl (hid _)]
    simp [hout]
  have hC2 := Env.NNContext_setContext _ Context _
    { CxtRef with TorchInputs := [some ⟨.DT_FLOAT, [1, n], Data⟩],
                  TorchOutputs := [⟨.DT_FLOAT, [1, n], Data⟩] } hC1
  have e3 : r3 = ⟨.errno .Success, r2.env,
      some ((MemOut.writeBytes OutBufferPtr Data).write32 BytesWrittenPtr (n * 4)),
      [.toGuest (n * 4)]⟩ := by
    show WasiNNGetOuput.body K B N r2.env (some MemOut) Context 0 OutBufferPtr (n * 4)
      BytesWrittenPtr = _
    rw [e2]
    rw [WasiNNGetOuput.body_get_output_PyTorch K B N _ MemOut Context 0 OutBufferPtr (n * 4)
      BytesWrittenPtr _ G hC2 hG hO hP hB]
    exact WasiNNGetOuput.get_output_PyTorch_row N _ MemOut _ OutBufferPtr BytesWrittenPtr n Data
      rfl (MemoryInstance.readBytes_length _ _ _) hn hbuf hbw
  refine ⟨by rw [e1], by rw [e2], by rw [e3], by rw [e3], by rw [e3], ?_, ?_⟩
  · exact MemoryInstance.read32_write32 _ _ _ hn
  · have h := MemoryInstance.readBytes_writeBytes MemOut OutBufferPtr Data
      (MemoryInstance.readBytes_lt _ _ _)
    rwa [MemoryInstance.readBytes_length] at h

/-- A guest memory for the round trip with one element: the tensor
descriptor at 0 (dimension buffer at 20 with 2 dimensions, type tag 1 = F32,
data at 28 with 4 bytes), the dimensions 1 and 1 at 20, the four data bytes
at 28, an output buffer of four bytes at 32 and the word for the count at
36. -/
def rowTensorMemory : MemoryInstance :=
  memoryOf [20, 0, 0, 0, 2, 0, 0, 0, 1, 0, 0, 0, 28, 0, 0, 0, 4, 0, 0, 0,
    1, 0, 0, 0, 1, 0, 0, 0, 11, 12, 13, 14, 0, 0, 0, 0, 0, 0, 0, 0]

/-- A registry with one Tensorflow graph and one context on it whose
session, run on the one-element input of `rowTensorMemory` as the identity,
has left that tensor as its output. -/
def tensorflowRowComputed : Env :=
  { NNGraph := [{ GraphBackend := 2, TFBundle := some 9 }],
    NNContext := [{ GraphRef := 0, TFBundle := some 9, TFInputNames := [[105]],
                    TFOutputNames := [[111]],
                    TFInputAlready := [([105], ⟨.DT_FLOAT, [1, 1], [11, 12, 13, 14]⟩)],
                    TFOutputTensors := [⟨.DT_FLOAT, [1, 1], [11, 12, 13, 14]⟩] }],
    OpenVINOCore := none }

/-- C16, the failing input. The round trip with `N = 1` (shape `[1, 1]`, four
data bytes) on a fresh Tensorflow context: `set_input` validates the
descriptor, builds the four-byte tensor and then reads `see[0] .. see[9]`
from it, six bytes past its end; `get_output` on the context holding the
identity result copies the four bytes to the guest and then reads
`OutTensor.tensor<float, 2>()(0, I)` for `I < 10` from the one-element
tensor.  Neither returns `Success`.  On a PyTorch context the same three
calls return `Success`, store the count 4 and the four input bytes. -/
theorem identity_round_trip_tensorflow_reads_past_tensor :
    rowTensorMemory.readWords 20 2 = [1, 1] ∧
    rowTensorMemory.readBytes 28 4 = [11, 12, 13, 14] ∧
    (WasiNNSetInput.body upstream allBackends engine oneTensorflowContext
      (some rowTensorMemory) 0 0 0).ret = .undefined ∧
    (WasiNNGetOuput.body upstream allBackends engine tensorflowRowComputed
      (some rowTensorMemory) 0 0 32 4 36).ret = .undefined ∧
    (WasiNNSetInput.body upstream allBackends engine oneTorchContext
      (some rowTensorMemory) 0 0 0).ret = .errno .Success ∧
    (WasiNNCompute.body upstream allBackends engine
      (WasiNNSetInput.body upstream allBackends engine oneTorchContext
        (some rowTensorMemory) 0 0 0).env (some rowTensorMemory) 0).ret = .errno .Success ∧
    (WasiNNGetOuput.body upstream allBackends engine
      (WasiNNCompute.body upstream allBackends engine
        (WasiNNSetInput.body upstream allBackends engine oneTorchContext
          (some rowTensorMemory) 0 0 0).env (some rowTensorMemory) 0).env
      (some rowTensorMemory) 0 0 32 4 36).ret = .errno .Success ∧
    (WasiNNGetOuput.body upstream allBackends engine
      (WasiNNCompute.body upstream allBackends engine
        (WasiNNSetInput.body upstream allBackends engine oneTorchContext
          (some rowTensorMemory) 0 0 0).env (some rowTensorMemory) 0).env
      (some rowTensorMemory) 0 0 32 4 36).mem.map
        (fun m => (m.readBytes 32 4, m.read32 36)) = some ([11, 12, 13, 14], 4) := by
  decide

/-! ## Frames without memory, backends that are not built -/

/-- C22. Called on a frame without a memory instance, each of the five
operations ends with the host-function error, which is none of the wasi-nn
codes, whatever its arguments, the build, the engines and the environment are;
the environment (graph list and context list) is as before and no native call
is made. -/
theorem no_memory_instance (K : WASINN) (B : Build) (N : Native) (env : Env) :
    (∀ BuilderPtr BuilderLen Encoding Target GraphIdPtr,
      WasiNNLoad.body K B N env none BuilderPtr BuilderLen Encoding Target GraphIdPtr
        = ⟨.HostFuncError, env, none, []⟩) ∧
    (∀ GraphId ContextPtr,
      WasiNNInitExecCtx.body K B N env none GraphId ContextPtr
        = ⟨.HostFuncError, env, none, []⟩) ∧
    (∀ Context Index TensorPtr,
      WasiNNSetInput.body K B N env none Context Index TensorPtr
        = ⟨.HostFuncError, env, none, []⟩) ∧
    (∀ Context Index OutBufferPtr OutBufferMaxSize BytesWrittenPtr,
      WasiNNGetOuput.body K B N env none Context Index OutBufferPtr OutBufferMaxSize
        BytesWrittenPtr = ⟨.HostFuncError, env, none, []⟩) ∧
    (∀ Context, WasiNNCompute.body K B N env none Context = ⟨.HostFuncError, env, none, []⟩) ∧
    (∀ e : ErrNo, Outcome.HostFuncError ≠ .errno e) :=
  ⟨fun _ _ _ _ _ => rfl, fun _ _ => rfl, fun _ _ _ => rfl, fun _ _ _ _ _ => rfl, fun _ => rfl,
    fun _ h => Outcome.noConfusion h⟩

/-- C21. Let `b` be a backend tag such that every one of the four known
backends it equals is compiled out of the build (so `b` is routed to a
backend that is not built, or is none of the four).  With guest memory
present: `load` with encoding `b`, `init_execution_context` on a graph of
backend `b`, and `set_input`, `get_output` and `compute` on a context of a
graph of backend `b` all return `InvalidArgument`, make no native call and
leave the environment (graph list and context list) and guest memory as they
were. -/
theorem backend_not_built (K : WASINN) (B : Build) (N : Native) (env : Env)
    (MemInst : MemoryInstance) (b : Nat)
    (hO : b = K.OpenVINO → B.OPENVINO = false)
    (hP : b = K.PyTorch → B.TORCH = false)
    (hL : b = K.TensorflowLite → B.TFLITE = false)
    (hT : b = K.Tensorflow → B.TF = false) :
    (∀ BuilderPtr BuilderLen Target GraphIdPtr,
      WasiNNLoad.body K B N env (some MemInst) BuilderPtr BuilderLen b Target GraphIdPtr
        = ⟨.errno .InvalidArgument, env, some MemInst, []⟩) ∧
    (∀ GraphId ContextPtr (G : Graph),
      env.NNGraph[GraphId]? = some G → G.GraphBackend = b →
      WasiNNInitExecCtx.body K B N env (some MemInst) GraphId ContextPtr
        = ⟨.errno .InvalidArgument, env, some MemInst, []⟩) ∧
    (∀ Context (CxtRef : WasiNN.Context) (G : Graph),
      env.NNContext[Context]? = some CxtRef → env.NNGraph[CxtRef.GraphRef]? = some G →
      G.GraphBackend = b →
      (∀ Index TensorPtr,
        WasiNNSetInput.body K B N env (some MemInst) Context Index TensorPtr
          = ⟨.errno .InvalidArgument, env, some MemInst, []⟩) ∧
      (∀ Index OutBufferPtr OutBufferMaxSize BytesWrittenPtr,
        WasiNNGetOuput.body K B N env (some MemInst) Context Index OutBufferPtr
          OutBufferMaxSize BytesWrittenPtr
          = ⟨.errno .InvalidArgument, env, some MemInst, []⟩) ∧
      WasiNNCompute.body K B N env (some MemInst) Context
        = ⟨.errno .InvalidArgument, env, some MemInst, []⟩) := by
  refine ⟨?_, ?_, ?_⟩
  · intro BuilderPtr BuilderLen Target GraphIdPtr
    simp only [WasiNNLoad.body]
    split
    · rfl
    · split_ifs with h1 h2 h3 h4 h5 h6 h7 h8 h9 <;> first | rfl | simp_all
  · intro GraphId ContextPtr G hG hb
    subst hb
    simp only [WasiNNInitExecCtx.body, hG]
    split
    · rfl
    · split_ifs with h1 h2 h3 h4 h5 h6 h7 h8 <;> first | rfl | simp_all
  · intro Context CxtRef G hC hG hb
    subst hb
    refine ⟨?_, ?_, ?_⟩
    · intro Index TensorPtr
      simp only [WasiNNSetInput.body, hC, hG]
      split_ifs with h1 h2 h3 h4 h5 h6 h7 h8 <;> first | rfl | simp_all
    · intro Index OutBufferPtr OutBufferMaxSize BytesWrittenPtr
      simp only [WasiNNGetOuput.body, hC, hG]
      split_ifs with h1 h2 h3 h4 h5 h6 h7 h8 <;> first | rfl | simp_all
    · simp only [WasiNNCompute.body, hC, hG]
      split_ifs with h1 h2 h3 h4 h5 h6 h7 h8 <;> first | rfl | simp_all

/-- A build without the PyTorch backend. -/
def withoutTorch : Build := { OPENVINO := true, TORCH := false, TF := true, TFLITE := true }

theorem backend_not_built_witness :
    (upstream.PyTorch = 3 ∧ withoutTorch.TORCH = false) ∧
    WasiNNLoad.body upstream withoutTorch engine oneTorchContext (some loadMemory) 4 1 3 0 0
      = ⟨.errno .InvalidArgument, oneTorchContext, some loadMemory, []⟩ ∧
    WasiNNInitExecCtx.body upstream withoutTorch engine oneTorchContext (some loadMemory) 0 0
      = ⟨.errno .InvalidArgument, oneTorchContext, some loadMemory, []⟩ ∧
    WasiNNSetInput.body upstream withoutTorch engine oneTorchContext (some loadMemory) 0 0 0
      = ⟨.errno .InvalidArgument, oneTorchContext, some loadMemory, []⟩ ∧
    WasiNNGetOuput.body upstream withoutTorch engine oneTorchContext (some loadMemory) 0 0 0 4 0
      = ⟨.errno .InvalidArgument, oneTorchContext, some loadMemory, []⟩ ∧
    WasiNNCompute.body upstream withoutTorch engine oneTorchContext (some loadMemory) 0
      = ⟨.errno .InvalidArgument, oneTorchContext, some loadMemory, []⟩ :=
  have h := backend_not_built upstream withoutTorch engine oneTorchContext loadMemory 3
    (by decide) (by decide) (by decide) (by decide)
  have h3 := h.2.2 0 { GraphRef := 0 } { GraphBackend := 3, TorchModel := some 6 }
    (by decide) (by decide) rfl
  ⟨by decide, h.1 4 1 0 0,
    h.2.1 0 0 { GraphBackend := 3, TorchModel := some 6 } (by decide) rfl,
    h3.1 0 0, h3.2.1 0 0 4 0, h3.2.2⟩

/-! ## `get_output` and guest memory on an error return -/

/-- A registry with one PyTorch graph and one context on it whose only output
is a float tensor of shape `[1, 2]` holding the bytes 1 to 8. -/
def torchComputed : Env :=
  { NNGraph := [{ GraphBackend := 3, TorchModel := some 6 }],
    NNContext := [{ GraphRef := 0,
                    TorchOutputs := [⟨.DT_FLOAT, [1, 2], [1, 2, 3, 4, 5, 6, 7, 8]⟩] }],
    OpenVINOCore := none }

/-- In every branch of `get_output`, once the output bytes are in guest
memory, a `BytesWrittenPtr` that fails to resolve gives `InvalidArgument` with
the bytes left in guest memory. -/
theorem writeBytesWritten_unresolved (env : Env) (mem1 : MemoryInstance)
    (BytesWrittenPtr BytesToWrite : Nat) (logErr logOk : List Event)
    (h : mem1.getPointer 4 BytesWrittenPtr 1 = none) :
    writeBytesWritten env mem1 BytesWrittenPtr BytesToWrite logErr logOk
      = ⟨.errno .InvalidArgument, env, some mem1, logErr⟩ := by
  simp [writeBytesWritten, h]

/-- C29. `get_output` is not atomic on guest memory.  There are a context and
arguments, with an output buffer that resolves and a `BytesWrittenPtr` that
does not, for which `get_output` returns `InvalidArgument` after
`min(native size, OutBufferMaxSize)` output bytes were stored into the guest
output buffer, which held other bytes before.  The instance is a PyTorch
context with an 8-byte output and `OutBufferMaxSize = 4`; the same happens on
the OpenVINO and the TensorflowLite context with `OutBufferMaxSize = 8`. -/
theorem get_output_not_atomic :
    (∃ (env : Env) (MemInst : MemoryInstance)
        (Context Index OutBufferPtr OutBufferMaxSize BytesWrittenPtr : Nat) (native : Bytes),
      env.NNContext.map (fun c => c.TorchOutputs.map (fun t => t.data)) = [[native]] ∧
      MemInst.getPointer 1 OutBufferPtr (min native.length OutBufferMaxSize)
        = some OutBufferPtr ∧
      MemInst.getPointer 4 BytesWrittenPtr 1 = none ∧
      (WasiNNGetOuput.body upstream allBackends engine env (some MemInst) Context Index
        OutBufferPtr OutBufferMaxSize BytesWrittenPtr).ret = .errno .InvalidArgument ∧
      (WasiNNGetOuput.body upstream allBackends engine env (some MemInst) Context Index
        OutBufferPtr OutBufferMaxSize BytesWrittenPtr).log
        = [.toGuest (min native.length OutBufferMaxSize)] ∧
      (WasiNNGetOuput.body upstream allBackends engine env (some MemInst) Context Index
        OutBufferPtr OutBufferMaxSize BytesWrittenPtr).mem.map
          (fun m => m.readBytes OutBufferPtr (min native.length OutBufferMaxSize))
        = some (native.take (min native.length OutBufferMaxSize)) ∧
      MemInst.readBytes OutBufferPtr (min native.length OutBufferMaxSize)
        ≠ native.take (min native.length OutBufferMaxSize)) ∧
    ((WasiNNGetOuput.body upstream allBackends engine oneOpenVINOContext
        (some outputMemory) 0 0 0 8 1000).ret = .errno .InvalidArgument ∧
      outputMemory.readBytes 0 8 = [9, 9, 9, 9, 0, 0, 0, 0] ∧
      (WasiNNGetOuput.body upstream allBackends engine oneOpenVINOContext
        (some outputMemory) 0 0 0 8 1000).mem.map (fun m => m.readBytes 0 8)
        = some [1, 2, 3, 4, 5, 6, 7, 8]) ∧
    ((WasiNNGetOuput.body upstream allBackends engine oneTFLiteContext
        (some outputMemory) 0 0 0 8 1000).ret = .errno .InvalidArgument ∧
      (WasiNNGetOuput.body upstream allBackends engine oneTFLiteContext
        (some outputMemory) 0 0 0 8 1000).mem.map (fun m => m.readBytes 0 8)
        = some [1, 2, 3, 4, 5, 6, 7, 8]) :=
  ⟨⟨torchComputed, outputMemory, 0, 0, 0, 4, 1000, [1, 2, 3, 4, 5, 6, 7, 8], by decide⟩,
    by decide, by decide⟩

/-! ## `set_input`: reads through guest pointers -/

/-- A guest memory for `set_input`: the tensor descriptor at 0 (dimension
buffer at 1000, outside the memory, with 1 dimension, type tag 1 = F32, data at
20 with 4 bytes), four data bytes at 20. -/
def badDimsTensorMemory : MemoryInstance :=
  memoryOf [232, 3, 0, 0, 1, 0, 0, 0, 1, 0, 0, 0, 20, 0, 0, 0, 4, 0, 0, 0, 11, 12, 13, 14]

/-- C23, the failing input. On a TensorflowLite context, `set_input` with a
descriptor of one dimension whose dimension pointer fails to resolve does not
return `InvalidArgument`: the loop `TFDimension.push_back(DimensionBuf[I])`
runs before the test `DimensionBuf == nullptr` and reads through the null
pointer.  On an OpenVINO, a PyTorch and a Tensorflow context the same
descriptor is refused with `InvalidArgument`. -/
theorem set_input_tflite_reads_null_dimensions :
    badDimsTensorMemory.getPointer 4 0 5 = some 0 ∧
    badDimsTensorMemory.word 0 1 = 1 ∧
    badDimsTensorMemory.getPointer 4 (badDimsTensorMemory.word 0 0)
      (badDimsTensorMemory.word 0 1) = none ∧
    (WasiNNSetInput.body upstream allBackends engine oneTFLiteContext
      (some badDimsTensorMemory) 0 0 0).ret = .undefined ∧
    (WasiNNSetInput.body upstream allBackends engine oneOpenVINOContext
      (some badDimsTensorMemory) 0 0 0).ret = .errno .InvalidArgument ∧
    (WasiNNSetInput.body upstream allBackends engine oneTorchContext
      (some badDimsTensorMemory) 0 0 0).ret = .errno .InvalidArgument ∧
    (WasiNNSetInput.body upstream allBackends engine oneTensorflowContext
      (some badDimsTensorMemory) 0 0 0).ret = .errno .InvalidArgument := by
  decide

/-- In the OpenVINO, PyTorch and Tensorflow branches of `set_input`, a
dimension pointer that fails to resolve gives `InvalidArgument` (in the
OpenVINO branch once the session, the index and the dimension count have
passed their tests), and no word of the dimension buffer is used. -/
theorem WasiNNSetInput.set_input_null_dimensions (K : WASINN) (N : Native) (env : Env)
    (MemInst : MemoryInstance) (Context Index TensorPtr : Nat) (CxtRef : WasiNN.Context)
    (G : Graph) (InputName : Option Str)
    (hT : MemInst.getPointer 4 TensorPtr 5 = some TensorPtr)
    (hD : MemInst.getPointer 4 (MemInst.word TensorPtr 0) (MemInst.word TensorPtr 1) = none) :
    (G.OpenVINONetwork ≠ none → CxtRef.OpenVINOInferRequest ≠ none →
      G.OpenVINOInputNames[Index]? = some InputName → MemInst.word TensorPtr 1 ≤ 8 →
      WasiNNSetInput.OpenVINO K N env MemInst CxtRef G Index TensorPtr
        = ⟨.errno .InvalidArgument, env, some MemInst, []⟩) ∧
    (WasiNNSetInput.PyTorch K env MemInst Context CxtRef Index TensorPtr).ret
      = .errno .InvalidArgument ∧
    WasiNNSetInput.Tensorflow K N env MemInst Context CxtRef Index TensorPtr
      = ⟨.errno .InvalidArgument, env, some MemInst, []⟩ := by
  refine ⟨?_, ?_, ?_⟩
  · intro h1 h2 h3 h4
    have h5 : ¬ (MemInst.word TensorPtr 1 > 8) := by omega
    simp [WasiNNSetInput.OpenVINO, h1, h2, h3, hT, h5, hD]
  · simp [WasiNNSetInput.PyTorch, hT, hD]
  · simp [WasiNNSetInput.Tensorflow, hT, hD]

/-! ## The intermediate blobs of the OpenVINO branches -/

/-- The engines of `engine`, except that `ie_blob_size` fails. -/
def engineBlobSizeFails : Native :=
  { engine with ie_blob_size := fun _ => (.GENERAL_ERROR, 0) }

/-- C28, the failing input. On an OpenVINO context, with an engine whose
`ie_blob_make_memory` succeeds and whose `ie_blob_size` then fails,
`set_input` with a well-formed F32 descriptor returns `Busy` after it created
the input blob and without a call of `ie_blob_free`.  With `ie_blob_size`
succeeding the blob is freed once. -/
theorem set_input_openvino_blob_not_freed :
    (engineBlobSizeFails.ie_blob_make_memory true [10]).1 = .OK ∧
    (WasiNNSetInput.body upstream allBackends engineBlobSizeFails oneOpenVINOContext
      (some f32TensorMemory) 0 0 0).ret = .errno .Busy ∧
    (WasiNNSetInput.body upstream allBackends engineBlobSizeFails oneOpenVINOContext
      (some f32TensorMemory) 0 0 0).log
      = [.call .ie_network_set_input_resize_algorithm, .call .ie_network_set_input_layout,
          .call .ie_network_set_input_precision, .call .ie_blob_make_memory] ∧
    (WasiNNSetInput.body upstream allBackends engineBlobSizeFails oneOpenVINOContext
      (some f32TensorMemory) 0 0 0).log.count (.call .ie_blob_free) = 0 ∧
    (WasiNNSetInput.body upstream allBackends engine oneOpenVINOContext
      (some f32TensorMemory) 0 0 0).ret = .errno .Success ∧
    (WasiNNSetInput.body upstream allBackends engine oneOpenVINOContext
      (some f32TensorMemory) 0 0 0).log.count (.call .ie_blob_free) = 1 := by
  decide

/-- In `set_input` on OpenVINO, every return after the input blob was created
and `ie_blob_size` succeeded has freed the blob exactly once (for data that
fit the blob, so that the copy is defined). -/
theorem WasiNNSetInput.set_input_OpenVINO_frees (N : Native) (env : Env)
    (MemInst : MemoryInstance) (CxtRef : Context) (Network : Option Handle)
    (InputName : Option Str) (DimensionBuf DimensionLen TensorDataBuf TensorDataLen : Nat)
    (hmade : Event.call .ie_blob_make_memory ∈
      (WasiNNSetInput.OpenVINO.setBlob N env MemInst CxtRef Network InputName
        DimensionBuf DimensionLen TensorDataBuf TensorDataLen).log)
    (hblob : (N.ie_blob_make_memory true (MemInst.readWords DimensionBuf DimensionLen)).1 = .OK)
    (hsize : (N.ie_blob_size
      (N.ie_blob_make_memory true (MemInst.readWords DimensionBuf DimensionLen)).2).1 = .OK)
    (hfit : TensorDataLen ≤ ((N.ie_blob_size
      (N.ie_blob_make_memory true (MemInst.readWords DimensionBuf DimensionLen)).2).2 * 4).toNat) :
    (WasiNNSetInput.OpenVINO.setBlob N env MemInst CxtRef Network InputName
      DimensionBuf DimensionLen TensorDataBuf TensorDataLen).log.count (.call .ie_blob_free)
      = 1 := by
  revert hmade
  unfold WasiNNSetInput.OpenVINO.setBlob
  dsimp only
  split_ifs <;> intro hmade <;>
    first
    | rfl
    | exact absurd hblob (by assumption)
    | exact absurd hsize (by assumption)
    | exact absurd hfit (Nat.not_le.mpr (by assumption))
    | (exfalso; revert hmade; simp)

/-- In `get_output` on OpenVINO, every return after the output blob was
obtained has freed it exactly once. -/
theorem WasiNNGetOuput.get_output_OpenVINO_frees (N : Native) (env : Env)
    (MemInst : MemoryInstance) (CxtRef : Context) (G : Graph)
    (Index OutBufferPtr OutBufferMaxSize BytesWrittenPtr : Nat) (OutputName : Option Str)
    (hname : G.OpenVINOOutputNames[Index]? = some OutputName)
    (hprec : N.ie_network_set_output_precision G.OpenVINONetwork OutputName = .OK)
    (hblob : (N.ie_infer_request_get_blob CxtRef.OpenVINOInferRequest OutputName).1 = .OK) :
    (WasiNNGetOuput.OpenVINO N env MemInst CxtRef G Index OutBufferPtr OutBufferMaxSize
      BytesWrittenPtr).log.count (.call .ie_blob_free) = 1 := by
  unfold WasiNNGetOuput.OpenVINO
  dsimp only
  rw [hname]
  dsimp only
  rw [if_neg (by simp [hprec]), if_neg (by simp [hblob])]
  split_ifs
  · rfl
  · split
    · rfl
    · unfold writeBytesWritten
      split <;> simp

/-! ## `set_input` on OpenVINO: the size of the copy -/

/-- The engines of `engine`, except that a blob made for given dimensions has
their product as its element count: the handle of a blob is that count. -/
def engineSizedBlob : Native :=
  { engine with
    ie_blob_make_memory := fun _ Dimens => (.OK, some Dimens.prod)
    ie_blob_size := fun Blob => (.OK, ((Blob.getD 0 : Nat) : Int)) }

/-- A guest memory for `set_input`: the tensor descriptor at 0 (dimension
buffer at 20 with 1 dimension, type tag 1 = F32, data at 24 with 40 bytes),
the dimension 2 at 20, forty data bytes at 24. -/
def smallBlobTensorMemory : MemoryInstance :=
  memoryOf ([20, 0, 0, 0, 1, 0, 0, 0, 1, 0, 0, 0, 24, 0, 0, 0, 40, 0, 0, 0, 2, 0, 0, 0]
    ++ List.replicate 40 5)

/-- C27, the failing input. On an OpenVINO context, `set_input` with an F32
descriptor of shape `[2]` and 40 data bytes: the input blob made for the shape
has 2 elements, 8 bytes; the mismatch with the data length is only logged and
`std::copy_n` copies 40 bytes into the 8-byte blob buffer, a write past the
buffer.  The call is not refused with an error code. -/
theorem set_input_openvino_copy_exceeds_blob :
    smallBlobTensorMemory.readWords 20 1 = [2] ∧
    smallBlobTensorMemory.word 0 4 = 40 ∧
    (engineSizedBlob.ie_blob_size (engineSizedBlob.ie_blob_make_memory true [2]).2).2 * 4 = 8 ∧
    (WasiNNSetInput.body upstream allBackends engineSizedBlob oneOpenVINOContext
      (some smallBlobTensorMemory) 0 0 0).ret = .undefined ∧
    (∀ e, (WasiNNSetInput.body upstream allBackends engineSizedBlob oneOpenVINOContext
      (some smallBlobTensorMemory) 0 0 0).ret ≠ .errno e) ∧
    (WasiNNSetInput.body upstream allBackends engineSizedBlob oneOpenVINOContext
      (some smallBlobTensorMemory) 0 0 0).log
      = [.call .ie_network_set_input_resize_algorithm, .call .ie_network_set_input_layout,
          .call .ie_network_set_input_precision, .call .ie_blob_make_memory, .toNative 40] := by
  refine ⟨by decide, by decide, by decide, by decide, ?_, by decide⟩
  intro e
  have h : (WasiNNSetInput.body upstream allBackends engineSizedBlob oneOpenVINOContext
      (some smallBlobTensorMemory) 0 0 0).ret = .undefined := by decide
  rw [h]
  exact Outcome.noConfusion

/-- Once the input blob and its buffer are obtained, the OpenVINO branch of
`set_input` copies the `TensorDataLen` bytes of the descriptor whatever the
size of the blob is: no test refuses data that are longer than the blob, and
the copy then runs past the blob buffer. -/
theorem WasiNNSetInput.set_input_OpenVINO_copy_unbounded (N : Native) (env : Env)
    (MemInst : MemoryInstance) (CxtRef : Context) (Network : Option Handle)
    (InputName : Option Str) (DimensionBuf DimensionLen TensorDataBuf TensorDataLen : Nat)
    (h1 : N.ie_network_set_input_resize_algorithm Network InputName = .OK)
    (h2 : N.ie_network_set_input_layout Network InputName = .OK)
    (h3 : N.ie_network_set_input_precision Network InputName = .OK)
    (h4 : (N.ie_blob_make_memory true (MemInst.readWords DimensionBuf DimensionLen)).1 = .OK)
    (h5 : (N.ie_blob_size
      (N.ie_blob_make_memory true (MemInst.readWords DimensionBuf DimensionLen)).2).1 = .OK)
    (h6 : N.ie_blob_get_buffer
      (N.ie_blob_make_memory true (MemInst.readWords DimensionBuf DimensionLen)).2 = .OK)
    (hbig : ((N.ie_blob_size
      (N.ie_blob_make_memory true (MemInst.readWords DimensionBuf DimensionLen)).2).2 * 4).toNat
      < TensorDataLen) :
    WasiNNSetInput.OpenVINO.setBlob N env MemInst CxtRef Network InputName
        DimensionBuf DimensionLen TensorDataBuf TensorDataLen
      = ⟨.undefined, env, some MemInst,
          [.call .ie_network_set_input_resize_algorithm, .call .ie_network_set_input_layout,
            .call .ie_network_set_input_precision, .call .ie_blob_make_memory,
            .toNative TensorDataLen]⟩ := by
  simp [WasiNNSetInput.OpenVINO.setBlob, h1, h2, h3, h4, h5, h6, hbig]

/-! ## PyTorch: the list of outputs and the list of input slots -/

/-- The guest memory `rowTensorMemory` with other data bytes: 21, 22, 23, 24
at 28. -/
def rowTensorMemoryB : MemoryInstance :=
  memoryOf [20, 0, 0, 0, 2, 0, 0, 0, 1, 0, 0, 0, 28, 0, 0, 0, 4, 0, 0, 0,
    1, 0, 0, 0, 1, 0, 0, 0, 21, 22, 23, 24, 0, 0, 0, 0, 0, 0, 0, 0]

/-- A registry with one PyTorch graph and one context on it that holds the
output of an earlier `compute` (the bytes 11 to 14) and, in slot 0, a newer
input (the bytes 21 to 24). -/
def torchSecondInput : Env :=
  { NNGraph := [{ GraphBackend := 3, TorchModel := some 6 }],
    NNContext := [{ GraphRef := 0,
                    TorchInputs := [some ⟨.DT_FLOAT, [1, 1], [21, 22, 23, 24]⟩],
                    TorchOutputs := [⟨.DT_FLOAT, [1, 1], [11, 12, 13, 14]⟩] }],
    OpenVINOCore := none }

/-- C25, the failing input. A PyTorch context reached by `set_input` (bytes
11 to 14), `compute`, `set_input` (bytes 21 to 24) holds one output.  A second
`compute`, whose forward call returns the single tensor with the bytes 21 to
24, returns `Success` and leaves an output list of two tensors, the old one
first: `push_back` without `clear`.  `get_output` at index 0 then returns the
bytes 11 to 14 of the earlier `compute`, not the output of the most recent
one. -/
theorem compute_torch_appends_outputs :
    (WasiNNSetInput.body upstream allBackends engine
      (WasiNNCompute.body upstream allBackends engine
        (WasiNNSetInput.body upstream allBackends engine oneTorchContext
          (some rowTensorMemory) 0 0 0).env (some rowTensorMemory) 0).env
      (some rowTensorMemoryB) 0 0 0).env = torchSecondInput ∧
    engine.torch_forward (some 6) [some ⟨.DT_FLOAT, [1, 1], [21, 22, 23, 24]⟩]
      = .Tensor ⟨.DT_FLOAT, [1, 1], [21, 22, 23, 24]⟩ ∧
    (WasiNNCompute.body upstream allBackends engine torchSecondInput
      (some rowTensorMemoryB) 0).ret = .errno .Success ∧
    (WasiNNCompute.body upstream allBackends engine torchSecondInput
      (some rowTensorMemoryB) 0).env.NNContext.map (fun c => c.TorchOutputs)
      = [[⟨.DT_FLOAT, [1, 1], [11, 12, 13, 14]⟩, ⟨.DT_FLOAT, [1, 1], [21, 22, 23, 24]⟩]] ∧
    (WasiNNGetOuput.body upstream allBackends engine
      (WasiNNCompute.body upstream allBackends engine torchSecondInput
        (some rowTensorMemoryB) 0).env (some rowTensorMemoryB) 0 0 32 4 36).ret
      = .errno .Success ∧
    (WasiNNGetOuput.body upstream allBackends engine
      (WasiNNCompute.body upstream allBackends engine torchSecondInput
        (some rowTensorMemoryB) 0).env (some rowTensorMemoryB) 0 0 32 4 36).mem.map
        (fun m => m.readBytes 32 4) = some [11, 12, 13, 14] := by
  decide

/-- A successful `compute` on PyTorch appends the tensors of the forward call
to the output list the context had; on a context without outputs the list is
exactly those tensors. -/
theorem WasiNNCompute.compute_PyTorch_outputs (N : Native) (env : Env)
    (MemInst : MemoryInstance) (Context : Nat) (CxtRef : WasiNN.Context) (G : Graph)
    (hret : (WasiNNCompute.PyTorch N env MemInst Context CxtRef G).ret = .errno .Success) :
    ∃ ts : List Tensor,
      (N.torch_forward G.TorchModel CxtRef.TorchInputs = .TensorList ts ∨
        ∃ t, N.torch_forward G.TorchModel CxtRef.TorchInputs = .Tensor t ∧ ts = [t]) ∧
      (WasiNNCompute.PyTorch N env MemInst Context CxtRef G).env
        = env.setContext Context { CxtRef with TorchOutputs := CxtRef.TorchOutputs ++ ts } ∧
      (CxtRef.TorchOutputs = [] → CxtRef.TorchOutputs ++ ts = ts) := by
  unfold WasiNNCompute.PyTorch at hret ⊢
  split_ifs at hret ⊢ with h1 h2
  · simp at hret
  · simp at hret
  · split at hret
    · next ts hfw => exact ⟨ts, Or.inl hfw, by simp [hfw], fun h => by simp [h]⟩
    · next t hfw => exact ⟨[t], Or.inr ⟨t, hfw, rfl⟩, by simp [hfw], fun h => by simp [h]⟩
    · simp at hret

/-- A registry with one PyTorch graph and one context on it whose slot 0 is
bound. -/
def torchBoundSlot : Env :=
  { NNGraph := [{ GraphBackend := 3, TorchModel := some 6 }],
    NNContext := [{ GraphRef := 0,
                    TorchInputs := [some ⟨.DT_FLOAT, [1, 1], [21, 22, 23, 24]⟩] }],
    OpenVINOCore := none }

/-- C24, the failing input. On a PyTorch context whose slot 0 is bound,
`set_input` at index `2 ^ 32 - 1` with a well-formed F32 descriptor:
`Index + 1` is 0 in 32-bit arithmetic, `resize(0)` empties the slot list, and
`CxtRef.TorchInputs[Index]` is then an access outside the empty list.  The
list has length 0, not `max(1, 2 ^ 32)`, and the bound slot 0 is gone; with a
descriptor pointer that fails to resolve the call returns `InvalidArgument`
after emptying the list. -/
theorem set_input_torch_index_wraps :
    (4294967295 < 2 ^ 32 ∧ (4294967295 + 1) % 2 ^ 32 = 0) ∧
    torchBoundSlot.NNContext.map (fun c => c.TorchInputs.length) = [1] ∧
    (WasiNNSetInput.body upstream allBackends engine torchBoundSlot
      (some rowTensorMemory) 0 4294967295 0).ret = .undefined ∧
    (WasiNNSetInput.body upstream allBackends engine torchBoundSlot
      (some rowTensorMemory) 0 4294967295 0).env.NNContext.map (fun c => c.TorchInputs)
      = [[]] ∧
    (WasiNNSetInput.body upstream allBackends engine torchBoundSlot
      (some rowTensorMemory) 0 4294967295 1000).ret = .errno .InvalidArgument ∧
    (WasiNNSetInput.body upstream allBackends engine torchBoundSlot
      (some rowTensorMemory) 0 4294967295 1000).env.NNContext.map (fun c => c.TorchInputs)
      = [[]] := by
  decide

theorem resize_length {α : Type} (l : List α) (n : Nat) (d : α) : (resize l n d).length = n := by
  simp only [resize, List.length_append, List.length_take, List.length_replicate]
  omega

theorem resize_getElem {α : Type} (l : List α) (n : Nat) (d : α) (j : Nat) (hn : l.length ≤ n) :
    (resize l n d)[j]? = if j < l.length then l[j]? else if j < n then some d else none := by
  have ht : l.take n = l := List.take_of_length_le hn
  simp only [resize, ht]
  by_cases hj : j < l.length
  · simp [hj, List.getElem?_append_left hj]
  · rw [if_neg hj, List.getElem?_append_right (by omega)]
    by_cases hjn : j < n
    · rw [if_pos hjn, List.getElem?_replicate]
      simp; omega
    · rw [if_neg hjn, List.getElem?_replicate]
      simp; omega

/-- The PyTorch branch of `set_input` at an index below `2 ^ 32 - 1`, with a
descriptor whose three pointers resolve, whose type is F32 and whose data are
as long as the dimensions say: it returns
`Success`; the slot list then has length `max(previous length, Index + 1)`,
slot `Index` holds the new tensor, every other slot that existed is as before
and every new slot below `Index` is unbound. -/
theorem WasiNNSetInput.set_input_PyTorch_grows (K : WASINN) (env : Env)
    (MemInst : MemoryInstance) (Context Index TensorPtr : Nat) (CxtRef : WasiNN.Context)
    (hI : Index + 1 < 2 ^ 32)
    (hT : MemInst.getPointer 4 TensorPtr 5 = some TensorPtr)
    (hD : MemInst.getPointer 4 (MemInst.word TensorPtr 0) (MemInst.word TensorPtr 1)
      = some (MemInst.word TensorPtr 0))
    (hB : MemInst.getPointer 1 (MemInst.word TensorPtr 3) (MemInst.word TensorPtr 4)
      = some (MemInst.word TensorPtr 3))
    (hF : castTensorType K (MemInst.word TensorPtr 2) = K.F32)
    (hfit : 4 * (MemInst.readWords (MemInst.word TensorPtr 0) (MemInst.word TensorPtr 1)).prod
      ≤ MemInst.word TensorPtr 4) :
    ∃ Slots : List (Option Tensor),
      WasiNNSetInput.PyTorch K env MemInst Context CxtRef Index TensorPtr
        = ⟨.errno .Success, env.setContext Context { CxtRef with TorchInputs := Slots },
            some MemInst, [.call .torch_from_blob_clone]⟩ ∧
      Slots.length = max CxtRef.TorchInputs.length (Index + 1) ∧
      Slots[Index]? = some (some ⟨.DT_FLOAT,
        MemInst.readWords (MemInst.word TensorPtr 0) (MemInst.word TensorPtr 1),
        MemInst.readBytes (MemInst.word TensorPtr 3)
          (4 * (MemInst.readWords (MemInst.word TensorPtr 0) (MemInst.word TensorPtr 1)).prod)⟩) ∧
      (∀ j, j ≠ Index → j < CxtRef.TorchInputs.length → Slots[j]? = CxtRef.TorchInputs[j]?) ∧
      (∀ j, CxtRef.TorchInputs.length ≤ j → j < Index → Slots[j]? = some none) := by
  have hm : (Index + 1) % 2 ^ 32 = Index + 1 := Nat.mod_eq_of_lt hI
  have hread : ¬ (MemInst.word TensorPtr 4
        < 4 * (MemInst.readWords (MemInst.word TensorPtr 0) (MemInst.word TensorPtr 1)).prod ∧
      MemInst.getPointer 1 (MemInst.word TensorPtr 3)
        (4 * (MemInst.readWords (MemInst.word TensorPtr 0) (MemInst.word TensorPtr 1)).prod)
        = none) := fun h => absurd h.1 (Nat.not_lt.mpr hfit)
  by_cases hge : Index ≥ CxtRef.TorchInputs.length
  · refine ⟨(resize CxtRef.TorchInputs (Index + 1) none).set Index
      (some ⟨.DT_FLOAT,
        MemInst.readWords (MemInst.word TensorPtr 0) (MemInst.word TensorPtr 1),
        MemInst.readBytes (MemInst.word TensorPtr 3)
          (4 * (MemInst.readWords (MemInst.word TensorPtr 0) (MemInst.word TensorPtr 1)).prod)⟩),
      ?_, ?_, ?_, ?_, ?_⟩
    · simp only [WasiNNSetInput.PyTorch, hT, hD, hB, hF, hm, if_pos hge, ne_eq,
        not_true_eq_false, if_false, resize_length, if_neg hread]
      rw [if_pos (by omega)]
    · rw [List.length_set, resize_length]; omega
    · rw [List.getElem?_set_self (by rw [resize_length]; omega)]
    · intro j hj hjl
      rw [List.getElem?_set_ne (Ne.symm hj), resize_getElem _ _ _ _ (by omega), if_pos hjl]
    · intro j hjl hjI
      rw [List.getElem?_set_ne (by omega), resize_getElem _ _ _ _ (by omega),
        if_neg (by omega), if_pos (by omega)]
  · have hlt : Index < CxtRef.TorchInputs.length := by omega
    refine ⟨CxtRef.TorchInputs.set Index
      (some ⟨.DT_FLOAT,
        MemInst.readWords (MemInst.word TensorPtr 0) (MemInst.word TensorPtr 1),
        MemInst.readBytes (MemInst.word TensorPtr 3)
          (4 * (MemInst.readWords (MemInst.word TensorPtr 0) (MemInst.word TensorPtr 1)).prod)⟩),
      ?_, ?_, ?_, ?_, ?_⟩
    · simp only [WasiNNSetInput.PyTorch, hT, hD, hB, hF, if_neg hge, ne_eq,
        not_true_eq_false, if_false, if_neg hread]
      rw [if_pos hlt]
    · rw [List.length_set]; omega
    · rw [List.getElem?_set_self hlt]
    · intro j hj _
      rw [List.getElem?_set_ne (Ne.symm hj)]
    · intro j hjl hjI
      omega

/-! ## Tensorflow `set_input`: the size test -/

/-- On a context of a Tensorflow graph, in a build with the Tensorflow
backend, `set_input` is its Tensorflow branch. -/
theorem WasiNNSetInput.body_Tensorflow (K : WASINN) (B : Build) (N : Native) (env : Env)
    (MemInst : MemoryInstance) (Context Index TensorPtr : Nat)
    (CxtRef : WasiNN.Context) (G : Graph)
    (hC : env.NNContext[Context]? = some CxtRef)
    (hG : env.NNGraph[CxtRef.GraphRef]? = some G)
    (hO : G.GraphBackend ≠ K.OpenVINO) (hP : G.GraphBackend ≠ K.PyTorch)
    (hT : G.GraphBackend = K.Tensorflow) (hB : B.TF = true) :
    WasiNNSetInput.body K B N env (some MemInst) Context Index TensorPtr
      = WasiNNSetInput.Tensorflow K N env MemInst Context CxtRef Index TensorPtr := by
  simp only [WasiNNSetInput.body, hC, hG, if_neg hO, if_neg hP, if_pos hT, hB, if_true]

theorem BlobSize64_foldl (dims : List Nat) (a : Nat) :
    dims.foldl (fun acc d => acc * d % 2 ^ 64) a % 2 ^ 64 = a * dims.prod % 2 ^ 64 := by
  induction dims generalizing a with
  | nil => simp
  | cons d ds ih =>
    rw [List.foldl_cons, ih, List.prod_cons, Nat.mod_mul_mod, Nat.mul_assoc]

theorem BlobSize64_foldl_lt (dims : List Nat) (a : Nat) (ha : a < 2 ^ 64) :
    dims.foldl (fun acc d => acc * d % 2 ^ 64) a < 2 ^ 64 := by
  induction dims generalizing a with
  | nil => simpa using ha
  | cons d ds ih =>
    rw [List.foldl_cons]
    exact ih _ (Nat.mod_lt _ (by decide))

/-- The 64-bit accumulator of the dimension loop holds the exact product
modulo `2 ^ 64`. -/
theorem BlobSize64_eq_prod_mod (dims : List Nat) : BlobSize64 dims = dims.prod % 2 ^ 64 := by
  have h1 := BlobSize64_foldl dims 1
  have h2 := BlobSize64_foldl_lt dims 1 (by decide)
  rw [Nat.mod_eq_of_lt h2, Nat.one_mul] at h1
  exact h1

/-- The Tensorflow branch of `set_input` returns `Success` only if the data
length equals the product of the dimensions times the element width modulo
`2 ^ 64`; when that product is below `2 ^ 64`, it equals the exact product. -/
theorem WasiNNSetInput.set_input_Tensorflow_success_size (K : WASINN) (N : Native) (env : Env)
    (MemInst : MemoryInstance) (Context Index TensorPtr : Nat) (CxtRef : WasiNN.Context)
    (hret : (WasiNNSetInput.Tensorflow K N env MemInst Context CxtRef Index TensorPtr).ret
      = .errno .Success) :
    ∃ d s, TensorflowTypeMap K (castTensorType K (MemInst.word TensorPtr 2)) = some d ∧
      TensorflowTypeSize d = some s ∧
      MemInst.word TensorPtr 4
        = (MemInst.readWords (MemInst.word TensorPtr 0) (MemInst.word TensorPtr 1)).prod * s
          % 2 ^ 64 ∧
      ((MemInst.readWords (MemInst.word TensorPtr 0) (MemInst.word TensorPtr 1)).prod * s
          < 2 ^ 64 →
        MemInst.word TensorPtr 4
          = (MemInst.readWords (MemInst.word TensorPtr 0) (MemInst.word TensorPtr 1)).prod
            * s) := by
  unfold WasiNNSetInput.Tensorflow at hret
  dsimp only at hret
  split at hret
  · simp at hret
  next Tensor hT =>
  have e1 := MemoryInstance.getPointer_eq_some _ _ _ _ _ hT
  subst e1
  split at hret
  · simp at hret
  next DimensionBuf hD =>
  have e2 := MemoryInstance.getPointer_eq_some _ _ _ _ _ hD
  subst e2
  split at hret
  · simp at hret
  split at hret
  · simp at hret
  split at hret
  · simp at hret
  next d hd =>
  split at hret
  · simp at hret
  next s hs =>
  split at hret
  · simp at hret
  split at hret
  · simp at hret
  next hsz =>
  have hsz2 : BlobSize64 (MemInst.readWords (MemInst.word Tensor 0) (MemInst.word Tensor 1)) * s
      % 2 ^ 64 = MemInst.word Tensor 4 := by
    by_contra hne
    exact hsz hne
  rw [BlobSize64_eq_prod_mod, Nat.mod_mul_mod] at hsz2
  refine ⟨d, s, hd, hs, hsz2.symm, fun hlt => ?_⟩
  rw [← hsz2, Nat.mod_eq_of_lt hlt]

/-- The Tensorflow branch of `set_input` does not refuse a descriptor whose
data length equals the product of the dimensions times the element width
modulo `2 ^ 64`, whatever the exact product is and whatever the engine does
next. -/
theorem WasiNNSetInput.set_input_Tensorflow_size_accepted (K : WASINN) (N : Native)
    (env : Env) (MemInst : MemoryInstance) (Context Index TensorPtr : Nat)
    (CxtRef : WasiNN.Context) (d : DataType) (s : Nat)
    (hT : MemInst.getPointer 4 TensorPtr 5 = some TensorPtr)
    (hD : MemInst.getPointer 4 (MemInst.word TensorPtr 0) (MemInst.word TensorPtr 1)
      = some (MemInst.word TensorPtr 0))
    (hB : MemInst.getPointer 1 (MemInst.word TensorPtr 3) (MemInst.word TensorPtr 4)
      = some (MemInst.word TensorPtr 3))
    (hd : TensorflowTypeMap K (castTensorType K (MemInst.word TensorPtr 2)) = some d)
    (hs : TensorflowTypeSize d = some s) (hs0 : s ≠ 0)
    (hsz : BlobSize64 (MemInst.readWords (MemInst.word TensorPtr 0) (MemInst.word TensorPtr 1))
      * s % 2 ^ 64 = MemInst.word TensorPtr 4) :
    (WasiNNSetInput.Tensorflow K N env MemInst Context CxtRef Index TensorPtr).ret
      ≠ .errno .InvalidArgument := by
  unfold WasiNNSetInput.Tensorflow
  simp only [hT, hD, hB, hd, hs, if_neg hs0, hsz, ne_eq, not_true_eq_false, if_false]
  split_ifs <;> first | simp | (split <;> simp)

/-- A guest memory for `set_input`: the tensor descriptor at 0 (dimension
buffer at 20 with 3 dimensions, type tag 1 = F32, data at 32 with 60 bytes),
the dimensions 3361, 12956191 and 105904369 at 20, sixty data bytes at 32.
The product of the dimensions is `2 ^ 62 + 15`. -/
def wrapTensorMemory : MemoryInstance :=
  memoryOf ([20, 0, 0, 0, 3, 0, 0, 0, 1, 0, 0, 0, 32, 0, 0, 0, 60, 0, 0, 0,
    33, 13, 0, 0, 31, 178, 197, 0, 241, 248, 79, 6] ++ List.replicate 60 5)

/-- The engines of `engine`, except that a new tensor gets no buffer. -/
def engineNoTensorBuffer : Native := { engine with tensorflow_Tensor := fun _ _ => false }

/-- C26, the failing input. On a Tensorflow context, `set_input` with an F32
descriptor of shape `[3361, 12956191, 105904369]` and 60 data bytes: the exact
byte size of the shape is `(2 ^ 62 + 15) * 4 = 2 ^ 64 + 60`, not 60, but the
64-bit product `BlobSize * ElementSize` is 60 and the size test passes.  For
no engine is the mismatch answered with `InvalidArgument`; with an engine that
builds the tensor the call returns `Success` and rebinds input slot 0, with
an engine that gives the tensor no buffer the copy goes through a null
pointer. -/
theorem set_input_tensorflow_wrapped_size :
    wrapTensorMemory.readWords 20 3 = [3361, 12956191, 105904369] ∧
    wrapTensorMemory.word 0 4 = 60 ∧
    [3361, 12956191, 105904369].prod * 4 = 2 ^ 64 + 60 ∧
    BlobSize64 [3361, 12956191, 105904369] * 4 % 2 ^ 64 = 60 ∧
    (∀ N : Native,
      (WasiNNSetInput.body upstream allBackends N oneTensorflowContext
        (some wrapTensorMemory) 0 0 0).ret ≠ .errno .InvalidArgument) ∧
    (WasiNNSetInput.body upstream allBackends engine oneTensorflowContext
      (some wrapTensorMemory) 0 0 0).ret = .errno .Success ∧
    (WasiNNSetInput.body upstream allBackends engine oneTensorflowContext
      (some wrapTensorMemory) 0 0 0).env.NNContext.map
        (fun c => c.TFInputAlready.map (fun Slot => (Slot.2.dims, Slot.2.data.length)))
      = [[([3361, 12956191, 105904369], 60)]] ∧
    (WasiNNSetInput.body upstream allBackends engineNoTensorBuffer oneTensorflowContext
      (some wrapTensorMemory) 0 0 0).ret = .undefined := by
  refine ⟨by decide, by decide, by decide, by decide, ?_, by decide, by decide, by decide⟩
  intro N
  rw [WasiNNSetInput.body_Tensorflow upstream allBackends N oneTensorflowContext
    wrapTensorMemory 0 0 0
    { GraphRef := 0, TFBundle := some 9, TFInputNames := [[105]], TFOutputNames := [[111]],
      TFInputAlready := [([105], Tensor.empty)] }
    { GraphBackend := 2, TFBundle := some 9 }
    (by decide) (by decide) (by decide) (by decide) (by decide) (by decide)]
  exact WasiNNSetInput.set_input_Tensorflow_size_accepted upstream N oneTensorflowContext
    wrapTensorMemory 0 0 0 _ .DT_FLOAT 4 (by decide) (by decide) (by decide) (by decide)
    (by decide) (by decide) (by decide)

end WasiNN

/-! # The example counter module -/

namespace Counter

/-- The class `CounterEnvironment`: `already_count` is a `uint32_t`. -/
structure CounterEnvironment where
  already_count : Nat
  deriving DecidableEq, Repr

/-- `CounterFuncClick::body`: `Env.already_count += 1` in 32-bit unsigned
arithmetic.  The memory instance is not used. -/
def CounterFuncClick.body (Env : CounterEnvironment) : CounterEnvironment :=
  { already_count := (Env.already_count + 1) % 2 ^ 32 }

/-- `CounterFuncGetCount::body`: returns `Env.already_count`; the second
component is the environment after the call. -/
def CounterFuncGetCount.body (Env : CounterEnvironment) : Nat × CounterEnvironment :=
  (Env.already_count, Env)

/-- `CounterFuncForwardBy::body`: `Env.already_count += increment` in 32-bit
unsigned arithmetic. -/
def CounterFuncForwardBy.body (Env : CounterEnvironment) (increment : Nat) :
    CounterEnvironment :=
  { already_count := (Env.already_count + increment) % 2 ^ 32 }

/-- C30. In the counter module, for every count `c` and all increments `a`
and `b`: `forward_by(a)` sets the count to `(c + a) mod 2^32`; `click` has the
effect of `forward_by(1)`; `forward_by(a)` followed by `forward_by(b)` has the
effect of `forward_by((a + b) mod 2^32)`; `get_count` returns `c` and leaves
the environment unchanged. -/
theorem counter_laws (c a b : Nat) :
    (CounterFuncForwardBy.body ⟨c⟩ a).already_count = (c + a) % 2 ^ 32 ∧
    CounterFuncClick.body ⟨c⟩ = CounterFuncForwardBy.body ⟨c⟩ 1 ∧
    CounterFuncForwardBy.body (CounterFuncForwardBy.body ⟨c⟩ a) b
      = CounterFuncForwardBy.body ⟨c⟩ ((a + b) % 2 ^ 32) ∧
    CounterFuncGetCount.body ⟨c⟩ = (c, ⟨c⟩) := by
  refine ⟨rfl, rfl, ?_, rfl⟩
  simp only [CounterFuncForwardBy.body, CounterEnvironment.mk.injEq]
  omega

end Counter
